import Mathlib

/-!
# Power watcher of ha-blackout-notify

Shallow embedding of `internal/watcher/watcher.go` (package `watcher`), of
`internal/notifications/service.go` (package `notifications`) and of the reconnect loop of
`internal/homeassistant/websocket.go` (package `homeassistant`).

Modelling conventions
* A `time.Time` instant is an `Int`: the number of nanoseconds elapsed since Go's zero
  time (January 1, year 1, 00:00:00 UTC).  The zero value of `time.Time` is `0`.
* A `time.Duration` is an `Int` count of nanoseconds; `Time.Sub` saturates at the bounds of
  a signed 64-bit integer, exactly as the Go runtime does.
* `*time.Time` and `*homeassistant.Entity` are `Option`s, `nil` being `none`.
* Every read of the clock (`time.Now()`, `time.Since`) is an explicit argument.
* A call to the notification service is recorded in the list of notifications returned
  next to the new watcher state.
-/

namespace BlackoutNotify

/-! ## Time -/

/-- An instant: nanoseconds since Go's zero time. -/
abbrev Time := Int

/-- A `time.Duration`: nanoseconds. -/
abbrev Duration := Int

/-- Go constant `time.Second`. -/
def Second : Duration := 1000000000

/-- Go constant `time.Minute`. -/
def Minute : Duration := 60 * Second

/-- Smallest value of a `time.Duration` (signed 64-bit). -/
def minDuration : Duration := -(2 ^ 63)

/-- Largest value of a `time.Duration` (signed 64-bit). -/
def maxDuration : Duration := 2 ^ 63 - 1

/-- Go `t.Sub(u)`: the difference `t - u`, saturated to the range of a `Duration`. -/
def Sub (t u : Time) : Duration :=
  if t - u < minDuration then minDuration
  else if maxDuration < t - u then maxDuration
  else t - u

/-- Go `time.Since(t)` evaluated when the clock reads `now`: `now.Sub(t)`. -/
def Since (now t : Time) : Duration := Sub now t

/-- Go `t.Truncate(d)`: `t` rounded down to a multiple of `d` since the zero time;
`t` itself when `d <= 0`. -/
def Truncate (t : Time) (d : Duration) : Time :=
  if d ≤ 0 then t else t - t % d

/-! ## Data model -/

/-- The three values of `PowerState` (`PowerStateOn`, `PowerStateOff`, `PowerStateUnknown`);
no other value is ever stored in a watcher. -/
inductive PowerState where
  | On
  | Off
  | Unknown
  deriving DecidableEq, Repr

/-- Go `homeassistant.Entity`, restricted to `EntityID` and `State`: the watcher reads no
other field of a snapshot (`Attributes`, `LastChanged`, `LastUpdated`). -/
structure Entity where
  EntityID : String
  State : String
  deriving DecidableEq, Repr

/-- A call made to the notification service. -/
inductive Notification where
  | PowerOn
  | PowerOff
  | ScheduleChanged (scheduleType : String) (oldTime newTime : Option Time)
  deriving DecidableEq, Repr

/-- The mutable fields of `Watcher` together with `debounceTime`. -/
structure Watcher where
  lastState : PowerState
  lastNextOnTime : Option Time
  lastNextOffTime : Option Time
  debounceTime : Duration
  lastChange : Time
  lastScheduleChange : Time
  deriving DecidableEq, Repr

/-- Go `NewWatcher`: unknown state, 5 s debounce, every other field at its zero value. -/
def NewWatcher : Watcher :=
  { lastState := PowerState.Unknown
    lastNextOnTime := none
    lastNextOffTime := none
    debounceTime := 5 * Second
    lastChange := 0
    lastScheduleChange := 0 }

/-! ## normalizeState -/

/-- Go `normalizeState`: converts an entity state string to a `PowerState`. -/
def normalizeState (state : String) : PowerState :=
  match state with
  | "on" | "ON" | "true" | "1" | "home" | "alive" | "connected" => PowerState.On
  | "off" | "OFF" | "false" | "0" | "not_home" | "dead" | "disconnected" => PowerState.Off
  | _ => PowerState.Unknown


/-! ## Power watcher -/

/-- Go `Watcher.fetchInitialState`: `getState` is the outcome of `haClient.GetState` for the
watched entity; on success `lastState` becomes the normalized state, on error nothing
changes. -/
def fetchInitialState (w : Watcher) (getState : Except String Entity) : Watcher :=
  match getState with
  | Except.error _ => w
  | Except.ok entity => { w with lastState := normalizeState entity.State }

/-- Go `Watcher.handleStateChange`.  `sinceNow` is the clock reading of
`time.Since(w.lastChange)`, `commitNow` the reading of `time.Now()` in the update. -/
def handleStateChange (w : Watcher) (sinceNow commitNow : Time)
    (newState : Option Entity) : Watcher × List Notification :=
  match newState with
  | none => (w, [])
  | some entity =>
    let newPowerState := normalizeState entity.State
    let previousState := w.lastState
    let timeSinceLastChange := Since sinceNow w.lastChange
    -- Skip if state hasn't actually changed
    if newPowerState = previousState then (w, [])
    -- Debounce rapid changes
    else if timeSinceLastChange < w.debounceTime then (w, [])
    else
      -- Update state
      let w1 := { w with lastState := newPowerState, lastChange := commitNow }
      -- Skip notification if transitioning from unknown state
      if previousState = PowerState.Unknown then (w1, [])
      else
        match newPowerState with
        | PowerState.On => (w1, [Notification.PowerOn])
        | PowerState.Off => (w1, [Notification.PowerOff])
        | PowerState.Unknown => (w1, [])

/-! ### Runs of the watcher -/

/-- One delivery of a state-change event, with the two clock readings the handler makes. -/
structure Call where
  sinceNow : Time
  commitNow : Time
  newState : Option Entity
  deriving DecidableEq, Repr

/-- What one call did: the watcher before and after it and the notifications it sent. -/
structure Step where
  before : Watcher
  call : Call
  after : Watcher
  sent : List Notification
  deriving DecidableEq, Repr

/-- The steps of processing `calls` one at a time, starting from `w`. -/
def trace (w : Watcher) : List Call → List Step
  | [] => []
  | c :: cs =>
    let r := handleStateChange w c.sinceNow c.commitNow c.newState
    { before := w, call := c, after := r.1, sent := r.2 } :: trace r.1 cs

/-- Every clock reading of a run, in the order in which the readings are made. -/
def clockReadings : List Call → List Time
  | [] => []
  | c :: cs => c.sinceNow :: c.commitNow :: clockReadings cs

/-- The watcher after `NewWatcher` and an optional `fetchInitialState`. -/
def startState (initial : Option (Except String Entity)) : Watcher :=
  match initial with
  | none => NewWatcher
  | some getState => fetchInitialState NewWatcher getState

/-- The instants stored by the steps that changed `lastState`, in order. -/
def commitTimes (steps : List Step) : List Time :=
  (steps.filter (fun s => decide (s.after.lastState ≠ s.before.lastState))).map
    (fun s => s.call.commitNow)

/-! ### Interleaved execution of `handleStateChange`

The handler takes the lock twice: once around the read of `lastState` and `lastChange`
(`w.mu.Lock()` … `w.mu.Unlock()` before the comparisons) and once around the update.
Each locked region is one atomic action of a goroutine; everything between and after
them touches only local variables. -/

/-- Local variables of a handler after its first locked region. -/
structure Locals where
  newPowerState : PowerState
  previousState : PowerState
  timeSinceLastChange : Duration
  deriving DecidableEq, Repr

/-- Control state of one goroutine running `handleStateChange`. -/
inductive Goroutine where
  | entered (newState : Option Entity)
  | decided (locals : Locals)
  | returned
  deriving DecidableEq, Repr

/-- One atomic action of a goroutine at clock reading `now`: from `entered`, the first
locked region and the two comparisons; from `decided`, the second locked region and the
dispatch. -/
def Goroutine.step (w : Watcher) (now : Time) :
    Goroutine → Watcher × Goroutine × List Notification
  | Goroutine.entered none => (w, Goroutine.returned, [])
  | Goroutine.entered (some entity) =>
    let l : Locals :=
      { newPowerState := normalizeState entity.State
        previousState := w.lastState
        timeSinceLastChange := Since now w.lastChange }
    if l.newPowerState = l.previousState then (w, Goroutine.returned, [])
    else if l.timeSinceLastChange < w.debounceTime then (w, Goroutine.returned, [])
    else (w, Goroutine.decided l, [])
  | Goroutine.decided l =>
    let w1 := { w with lastState := l.newPowerState, lastChange := now }
    if l.previousState = PowerState.Unknown then (w1, Goroutine.returned, [])
    else
      match l.newPowerState with
      | PowerState.On => (w1, Goroutine.returned, [Notification.PowerOn])
      | PowerState.Off => (w1, Goroutine.returned, [Notification.PowerOff])
      | PowerState.Unknown => (w1, Goroutine.returned, [])
  | Goroutine.returned => (w, Goroutine.returned, [])

/-- Two handler goroutines sharing one watcher, and the notifications sent so far. -/
structure Pair where
  watcher : Watcher
  first : Goroutine
  second : Goroutine
  sent : List Notification
  deriving DecidableEq, Repr

/-- Runs a schedule: each entry says which goroutine performs its next atomic action
(`true` for the first) and what the clock reads then. -/
def Pair.run (p : Pair) : List (Bool × Time) → Pair
  | [] => p
  | (true, now) :: rest =>
    let r := Goroutine.step p.watcher now p.first
    Pair.run { p with watcher := r.1, first := r.2.1, sent := p.sent ++ r.2.2 } rest
  | (false, now) :: rest =>
    let r := Goroutine.step p.watcher now p.second
    Pair.run { p with watcher := r.1, second := r.2.1, sent := p.sent ++ r.2.2 } rest

/-! ## Schedule tracking -/

/-- Go `timesEqual`: compares two time pointers at minute granularity. -/
def timesEqual (a b : Option Time) : Bool :=
  match a, b with
  | none, none => true
  | none, some _ => false
  | some _, none => false
  | some x, some y => decide (Truncate x Minute = Truncate y Minute)

/-- Go `config.Config`; an `[]int64` is a list of integers. -/
structure Config where
  TelegramToken : String
  AllowedChatIDs : List Int
  HAApiURL : String
  HAToken : String
  LogLevel : String
  PollingInterval : Int
  NotificationChatIDs : List Int
  WatchedEntityID : String
  NextOnSensorID : String
  NextOffSensorID : String
  PauseEntityID : String
  Timezone : String
  deriving DecidableEq, Repr

/-- Go `Watcher.handleScheduleChange`.  `GetScheduledTime` is the outcome of
`notifSvc.GetScheduledTime` per sensor id; `sinceNow`, `commitNow` and `staleNow` are the
clock readings of `time.Since(w.lastScheduleChange)`, of `time.Now()` in the update and of
`time.Since(*oldTime)`. -/
def handleScheduleChange (cfg : Config) (GetScheduledTime : String → Except String (Option Time))
    (w : Watcher) (sinceNow commitNow staleNow : Time) (scheduleType : String)
    (newState : Option Entity) : Watcher × List Notification :=
  match newState with
  | none => (w, [])
  | some _ =>
    -- Get current power state to decide if we should notify
    let currentPowerState := w.lastState
    let timeSinceLastScheduleChange := Since sinceNow w.lastScheduleChange
    -- Debounce schedule changes
    if timeSinceLastScheduleChange < w.debounceTime then (w, [])
    else
      let sensorID := if scheduleType = "on" then cfg.NextOnSensorID else cfg.NextOffSensorID
      match GetScheduledTime sensorID with
      | Except.error _ => (w, [])
      | Except.ok newTime =>
        let oldTime := if scheduleType = "on" then w.lastNextOnTime else w.lastNextOffTime
        -- Check if time actually changed
        if timesEqual oldTime newTime then (w, [])
        else
          -- Update stored time
          let w1 :=
            if scheduleType = "on" then { w with lastNextOnTime := newTime }
            else { w with lastNextOffTime := newTime }
          let w2 := { w1 with lastScheduleChange := commitNow }
          let relevant : Bool :=
            if scheduleType = "on" ∧ currentPowerState = PowerState.Off then true
            else if scheduleType = "off" ∧ currentPowerState = PowerState.On then true
            else false
          -- Suppress notification if old scheduled time has passed recently
          let shouldNotify : Bool :=
            match relevant, oldTime with
            | true, some old =>
              let timeSinceOldSchedule := Since staleNow old
              if -Minute < timeSinceOldSchedule ∧ timeSinceOldSchedule < 60 * Minute then false
              else true
            | r, _ => r
          if shouldNotify then
            (w2, [Notification.ScheduleChanged scheduleType oldTime newTime])
          else (w2, [])

/-! ## Reference instants -/

/-- Go `time.Date(2026, 1, 4, 14, 30, 0, 0, time.UTC)`: 739619 days after the zero time,
at 14:30:00. -/
def baseTime : Time := (739619 * 86400 + 14 * 3600 + 30 * 60) * Second

/-! ## Reference inputs -/

/-- A snapshot of the watched entity reporting "on". -/
def powerOn : Entity := { EntityID := "binary_sensor.power", State := "on" }

/-- A snapshot of the watched entity reporting "off". -/
def powerOff : Entity := { EntityID := "binary_sensor.power", State := "off" }

/-- A snapshot of the watched entity reporting "unavailable". -/
def powerUnavailable : Entity := { EntityID := "binary_sensor.power", State := "unavailable" }

/-- A watcher that saw "off" at `baseTime` and "unavailable" ten seconds later: its state
is `Unknown` again and `lastChange` is `baseTime + 10 s`. -/
def afterOutage : Watcher :=
  (handleStateChange
    (handleStateChange NewWatcher baseTime baseTime (some powerOff)).1
    (baseTime + 10 * Second) (baseTime + 10 * Second) (some powerUnavailable)).1

/-- A watcher in state `On` whose last change happened at `baseTime`. -/
def watcherOn : Watcher := { NewWatcher with lastState := PowerState.On, lastChange := baseTime }

/-- A watcher in state `Off` whose last change happened at `baseTime`. -/
def watcherOff : Watcher := { NewWatcher with lastState := PowerState.Off, lastChange := baseTime }

/-- Two goroutines, each delivering "off" to a watcher in state `On`. -/
def racingPair : Pair :=
  { watcher := watcherOn
    first := Goroutine.entered (some powerOff)
    second := Goroutine.entered (some powerOff)
    sent := [] }

/-- The scenario of `TestHandleStateChange_MultipleTransitions` on a real clock: "on",
"off", "on", "unavailable", "off", ten seconds apart, each call reading the clock twice. -/
def multipleTransitions : List Call :=
  [ { sinceNow := baseTime, commitNow := baseTime + 1, newState := some powerOn },
    { sinceNow := baseTime + 10 * Second, commitNow := baseTime + 10 * Second + 1,
      newState := some powerOff },
    { sinceNow := baseTime + 20 * Second, commitNow := baseTime + 20 * Second + 1,
      newState := some powerOn },
    { sinceNow := baseTime + 30 * Second, commitNow := baseTime + 30 * Second + 1,
      newState := some powerUnavailable },
    { sinceNow := baseTime + 40 * Second, commitNow := baseTime + 40 * Second + 1,
      newState := some powerOff } ]

/-- A configuration naming the two schedule sensors. -/
def exampleConfig : Config :=
  { TelegramToken := "token"
    AllowedChatIDs := [1]
    HAApiURL := "http://supervisor/core/api"
    HAToken := "token"
    LogLevel := "info"
    PollingInterval := 30
    NotificationChatIDs := [1]
    WatchedEntityID := "binary_sensor.power"
    NextOnSensorID := "sensor.next_on"
    NextOffSensorID := "sensor.next_off"
    PauseEntityID := "input_boolean.pause_power_notifications"
    Timezone := "Europe/Kyiv" }

/-- Sensor readings: next power-on three hours after `baseTime`, next power-off six hours
after it, an error for any other sensor. -/
def exampleSchedule (sensorID : String) : Except String (Option Time) :=
  if sensorID = "sensor.next_on" then Except.ok (some (baseTime + 180 * Minute))
  else if sensorID = "sensor.next_off" then Except.ok (some (baseTime + 360 * Minute))
  else Except.error "failed to get sensor state"

/-- A snapshot of the next-on schedule sensor. -/
def nextOnChanged : Entity := { EntityID := "sensor.next_on", State := "17:30" }

/-! ## Vocabulary for schedule changes -/

/-- The sensor `handleScheduleChange` queries for a schedule type: the next-on sensor for
"on", the next-off sensor for anything else. -/
def sensorIDFor (cfg : Config) (scheduleType : String) : String :=
  if scheduleType = "on" then cfg.NextOnSensorID else cfg.NextOffSensorID

/-- The stored timestamp `handleScheduleChange` compares against: `lastNextOnTime` for
"on", `lastNextOffTime` for anything else. -/
def storedTime (w : Watcher) (scheduleType : String) : Option Time :=
  if scheduleType = "on" then w.lastNextOnTime else w.lastNextOffTime

/-- The update of the second locked region of `handleScheduleChange`: the new timestamp is
stored for the sensor of the schedule type and `lastScheduleChange` becomes `commitNow`. -/
def commitSchedule (w : Watcher) (scheduleType : String) (newTime : Option Time)
    (commitNow : Time) : Watcher :=
  if scheduleType = "on" then
    { w with lastNextOnTime := newTime, lastScheduleChange := commitNow }
  else { w with lastNextOffTime := newTime, lastScheduleChange := commitNow }

/-- The sensor ids `handleScheduleChange` passes to `GetScheduledTime`, in order: none when
the snapshot is nil or the event is debounced, the sensor of the schedule type otherwise. -/
def fetchedSensors (cfg : Config) (w : Watcher) (sinceNow : Time) (scheduleType : String)
    (newState : Option Entity) : List String :=
  match newState with
  | none => []
  | some _ =>
    if Since sinceNow w.lastScheduleChange < w.debounceTime then []
    else [if scheduleType = "on" then cfg.NextOnSensorID else cfg.NextOffSensorID]

/-- A watcher in state `Off` that stored a next-on time three hours after `baseTime` and a
next-off time six hours after it, both committed at `baseTime`. -/
def watcherScheduled : Watcher :=
  { watcherOff with
    lastNextOnTime := some (baseTime + 180 * Minute)
    lastNextOffTime := some (baseTime + 360 * Minute)
    lastScheduleChange := baseTime }

/-- A snapshot of the next-off schedule sensor. -/
def nextOffChanged : Entity := { EntityID := "sensor.next_off", State := "20:30" }

/-- Sensor readings one hour later than `exampleSchedule`. -/
def laterSchedule (sensorID : String) : Except String (Option Time) :=
  if sensorID = "sensor.next_on" then Except.ok (some (baseTime + 240 * Minute))
  else if sensorID = "sensor.next_off" then Except.ok (some (baseTime + 420 * Minute))
  else Except.error "failed to get sensor state"

/-! ## Notification service (`internal/notifications/service.go`)

The service talks to three collaborators that are not part of the repository: the state
query client (`haClient.GetState`), the standard library parser (`time.Parse`) and the
message-send interface (`bot.Send`).  They are the fields of `Env`.  A `*time.Location` is
its zone lookup, on the same nanosecond scale as `Time`. -/

/-- Go constant `time.Hour`. -/
def Hour : Duration := 60 * Minute

/-- Length of a civil day on the wall clock: 24 hours. -/
def Day : Duration := 24 * Hour

/-- The result of `Location.lookup`: the offset east of UTC of the zone in effect and the
interval `[start, stop)` of instants during which that zone is in effect. -/
structure Zone where
  offset : Duration
  start : Time
  stop : Time
  deriving DecidableEq, Repr

/-- A `*time.Location`, given by its zone lookup. -/
structure Location where
  lookup : Time → Zone

/-- Go `Time.abs` for an instant shown in `loc`: the wall-clock reading, i.e. the instant
shifted by the offset in effect. -/
def wallClock (loc : Location) (t : Time) : Time :=
  t + (loc.lookup t).offset

/-- The wall-clock reading of midnight of the civil day that contains the wall-clock
reading `wall`.  `time.Date(t.Year(), t.Month(), t.Day(), ...)` counts its days up to this
point; the conversion to and from year, month and day is not unfolded. -/
def startOfDay (wall : Time) : Time :=
  wall - wall % Day

/-- Go `time.Date(year, month, day, hour, min, sec, 0, loc)` for the civil day starting at
wall-clock reading `dayStart`: the wall-clock reading is assembled and then adjusted to UTC
with the zone offset, looked up a second time when the first guess falls outside the zone
found. -/
def Date (dayStart : Time) (hour min sec : Int) (loc : Location) : Time :=
  let unix := dayStart + (hour * 3600 + min * 60 + sec) * Second
  let z := loc.lookup unix
  if z.offset ≠ 0 then
    let utc := unix - z.offset
    let offset := if utc < z.start ∨ utc ≥ z.stop then (loc.lookup utc).offset else z.offset
    unix - offset
  else unix

/-- A `time.Time` returned by `time.Parse`: the instant and the offset of its location. -/
structure ParsedTime where
  instant : Time
  offset : Duration
  deriving DecidableEq, Repr

/-- Whole seconds of the wall-clock reading of a parsed time. -/
def ParsedTime.wallSeconds (p : ParsedTime) : Int :=
  (p.instant + p.offset) / Second

/-- Go `t.Year() == 0`: the wall-clock reading lies in the 366 days before the zero time
(year 0 of the proleptic Gregorian calendar is a leap year). -/
def ParsedTime.yearIsZero (p : ParsedTime) : Bool :=
  decide (-(366 * Day) ≤ p.instant + p.offset ∧ p.instant + p.offset < 0)

/-- Go `t.Hour()`. -/
def ParsedTime.Hour (p : ParsedTime) : Int := p.wallSeconds % 86400 / 3600

/-- Go `t.Minute()`. -/
def ParsedTime.Minute (p : ParsedTime) : Int := p.wallSeconds % 3600 / 60

/-- Go `t.Second()`. -/
def ParsedTime.Second (p : ParsedTime) : Int := p.wallSeconds % 60

/-- A `tgbotapi.MessageConfig` as built by `sendToAllChats`. -/
structure Message where
  ChatID : Int
  Text : String
  ParseMode : String
  deriving DecidableEq, Repr

/-- The collaborators of the service.  `GetState` is `haClient.GetState` per entity id,
`Parse` is `time.Parse` per layout and value, `Send` is `bot.Send`: given the messages
handed to the bot so far and the next message, the error it returns, if any. -/
structure Env where
  GetState : String → Except String Entity
  Parse : String → String → Except String ParsedTime
  Send : List Message → Message → Option String

/-- Go `notifications.Service`: the configuration and the location loaded from
`cfg.Timezone`. -/
structure Service where
  config : Config
  location : Location

/-- The layouts `getScheduledTime` tries, in order (`time.RFC3339` first). -/
def formats : List String :=
  [ "2006-01-02T15:04:05Z07:00",
    "2006-01-02T15:04:05.000000+00:00",
    "2006-01-02T15:04:05+00:00",
    "2006-01-02T15:04:05",
    "2006-01-02 15:04:05",
    "15:04:05",
    "15:04" ]

/-- The loop of `getScheduledTime` over the layouts: `parsedTime` and `parseErr` after
trying the layouts left, starting from the values of the previous attempt.  A failed
`time.Parse` returns the zero time. -/
def parseLoop (Parse : String → String → Except String ParsedTime) (value : String) :
    List String → ParsedTime × Option String → ParsedTime × Option String
  | [], acc => acc
  | format :: rest, _ =>
    match Parse format value with
    | Except.ok parsedTime => (parsedTime, none)
    | Except.error parseErr =>
      parseLoop Parse value rest ({ instant := 0, offset := 0 }, some parseErr)

/-- Go `Service.getScheduledTime`; `now` is the reading of `time.Now()` made when only a
time of day was parsed. -/
def getScheduledTime (s : Service) (env : Env) (now : Time) (sensorID : String) :
    Except String (Option Time) :=
  match env.GetState sensorID with
  | Except.error err => Except.error ("failed to get sensor state: " ++ err)
  | Except.ok entity =>
    if entity.State = "" ∨ entity.State = "unknown" ∨ entity.State = "unavailable" then
      Except.ok none
    else
      match parseLoop env.Parse entity.State formats ({ instant := 0, offset := 0 }, none) with
      | (_, some parseErr) =>
        Except.error ("failed to parse time '" ++ entity.State ++ "': " ++ parseErr)
      | (parsedTime, none) =>
        -- If only time was parsed (no date), use today's date
        if parsedTime.yearIsZero then
          let today := Date (startOfDay (wallClock s.location now))
            parsedTime.Hour parsedTime.Minute parsedTime.Second s.location
          -- If the time has already passed today, assume it's tomorrow
          if today < now then Except.ok (some (today + 24 * Hour))
          else Except.ok (some today)
        else Except.ok (some parsedTime.instant)

/-- Go `Service.GetScheduledTime`, the public wrapper. -/
def GetScheduledTime (s : Service) (env : Env) (now : Time) (sensorID : String) :
    Except String (Option Time) :=
  getScheduledTime s env now sensorID

/-- Go `Service.isPaused`. -/
def isPaused (s : Service) (env : Env) : Bool :=
  if s.config.PauseEntityID = "" then false
  else
    match env.GetState s.config.PauseEntityID with
    | Except.error _ => false
    | Except.ok entity => decide (entity.State = "on")

/-! ### `float64` arithmetic

`formatDuration` goes through `Duration.Hours` and `Duration.Minutes`, which compute in
`float64`.  A non-negative finite `float64` is `mant * 2 ^ exp`; every operation computes
the exact result and rounds it to 53 significant bits, ties to even, as IEEE 754 does.
The values met here are far from overflow and from the subnormal range. -/

/-- A non-negative finite `float64`: the value `mant * 2 ^ exp`. -/
structure Float64 where
  mant : Nat
  exp : Int
  deriving DecidableEq, Repr

/-- Position of the highest set bit of `n`, with `fuel` halvings allowed. -/
def floorLog2Fuel : Nat → Nat → Nat
  | 0, _ => 0
  | fuel + 1, n => if n < 2 then 0 else floorLog2Fuel fuel (n / 2) + 1

/-- Position of the highest set bit of `n` (0 for `n < 2`). -/
def floorLog2 (n : Nat) : Nat := floorLog2Fuel n n

/-- The `float64` nearest to `m * 2 ^ e`, ties to even. -/
def Float64.round (m : Nat) (e : Int) : Float64 :=
  if m < 2 ^ 53 then { mant := m, exp := e }
  else
    let drop := floorLog2 m - 52
    let q := m / 2 ^ drop
    let r := m % 2 ^ drop
    let half := 2 ^ (drop - 1)
    if half < r ∨ (r = half ∧ q % 2 = 1) then { mant := q + 1, exp := e + drop }
    else { mant := q, exp := e + drop }

/-- Go conversion `float64(n)` of a non-negative integer. -/
def Float64.ofNat (n : Nat) : Float64 := Float64.round n 0

/-- Go `x + y` on `float64`. -/
def Float64.add (x y : Float64) : Float64 :=
  let e := min x.exp y.exp
  Float64.round (x.mant * 2 ^ (x.exp - e).toNat + y.mant * 2 ^ (y.exp - e).toNat) e

/-- Go `x / y` on `float64`, for `y` positive: the quotient is computed with two bits more
than are kept, the lowest recording whether anything was cut off, and then rounded. -/
def Float64.div (x y : Float64) : Float64 :=
  if x.mant = 0 then { mant := 0, exp := 0 }
  else
    let shift := 55 + floorLog2 y.mant - floorLog2 x.mant
    let num := x.mant * 2 ^ shift
    let q := num / y.mant
    let sticky := if num % y.mant = 0 then 0 else 1
    Float64.round (2 * q + sticky) (x.exp - y.exp - shift - 1)

/-- Go conversion `int(x)`: the integer part. -/
def Float64.toInt (x : Float64) : Int :=
  if 0 ≤ x.exp then x.mant * 2 ^ x.exp.toNat else x.mant / 2 ^ (-x.exp).toNat

/-- Go `Duration.Hours` for `d >= 0`: `float64(d / Hour) + float64(d % Hour) / (60*60*1e9)`. -/
def Hours (d : Duration) : Float64 :=
  let hour := Int.tdiv d Hour
  let nsec := Int.tmod d Hour
  Float64.add (Float64.ofNat hour.toNat)
    (Float64.div (Float64.ofNat nsec.toNat) { mant := 3600000000000, exp := 0 })

/-- Go `Duration.Minutes` for `d >= 0`: `float64(d / Minute) + float64(d % Minute) / (60*1e9)`. -/
def Minutes (d : Duration) : Float64 :=
  let min := Int.tdiv d Minute
  let nsec := Int.tmod d Minute
  Float64.add (Float64.ofNat min.toNat)
    (Float64.div (Float64.ofNat nsec.toNat) { mant := 60000000000, exp := 0 })

/-! ### Rendering and delivery -/

/-- Go `formatDuration`: a duration in human-readable Ukrainian. -/
def formatDuration (d : Duration) : String :=
  if d < 0 then "невідомо"
  else
    let hours := Float64.toInt (Hours d)
    let minutes := Int.tmod (Float64.toInt (Minutes d)) 60
    if hours = 0 then toString minutes ++ " хв"
    else if minutes = 0 then toString hours ++ " год"
    else toString hours ++ " год " ++ toString minutes ++ " хв"

/-- Go constant `IconPowerOn`. -/
def IconPowerOn : String := "💡"

/-- Go constant `IconPowerOff`. -/
def IconPowerOff : String := "🔌"

/-- Go constant `IconSchedule`. -/
def IconSchedule : String := "📅"

/-- Go constant `IconUpdate`. -/
def IconUpdate : String := "🔄"

/-- Two decimal digits, as the layout elements `15` and `04` print them. -/
def twoDigits (n : Int) : String :=
  if n < 10 then "0" ++ toString n else toString n

/-- Go `t.In(loc).Format("15:04")`. -/
def formatClock (loc : Location) (t : Time) : String :=
  let seconds := wallClock loc t / Second
  twoDigits (seconds % 86400 / 3600) ++ ":" ++ twoDigits (seconds % 3600 / 60)

/-- The loop of `sendToAllChats`: `log` holds the messages handed to `bot.Send` so far,
`lastErr` the error of the last failed send. -/
def sendLoop (env : Env) (text : String) :
    List Int → List Message → Option String → List Message × Option String
  | [], log, lastErr => (log, lastErr)
  | chatID :: rest, log, lastErr =>
    let msg : Message := { ChatID := chatID, Text := text, ParseMode := "Markdown" }
    match env.Send log msg with
    | some err => sendLoop env text rest (log ++ [msg]) (some err)
    | none => sendLoop env text rest (log ++ [msg]) lastErr

/-- Go `Service.sendToAllChats`: returns the messages handed to `bot.Send` (appended to
`log`) and the returned error, `none` for `nil`. -/
def sendToAllChats (s : Service) (env : Env) (log : List Message) (text : String) :
    List Message × Option String :=
  sendLoop env text s.config.NotificationChatIDs log none

/-- What `bot.Send` returned for each target, in order, when `text` is sent to `ids`
starting from `log`. -/
def sendOutcomes (env : Env) (text : String) : List Int → List Message → List (Option String)
  | [], _ => []
  | chatID :: rest, log =>
    let msg : Message := { ChatID := chatID, Text := text, ParseMode := "Markdown" }
    env.Send log msg :: sendOutcomes env text rest (log ++ [msg])

/-- Go `Service.NotifyPowerOn`; `now` is its own reading of the clock, `parseNow` the one
made inside `getScheduledTime`. -/
def NotifyPowerOn (s : Service) (env : Env) (now parseNow : Time) (log : List Message) :
    List Message × Option String :=
  if isPaused s env then (log, none)
  else
    let header := IconPowerOn ++ " *Світло повернулось!*\n\n"
    let body :=
      if s.config.NextOffSensorID ≠ "" then
        match getScheduledTime s env parseNow s.config.NextOffSensorID with
        | Except.error _ => ""
        | Except.ok none => ""
        | Except.ok (some nextOff) =>
          let duration := Sub nextOff now
          IconSchedule ++ " Наступне планове відключення через *" ++ formatDuration duration ++
            "* (" ++ formatClock s.location nextOff ++ ")\n"
      else ""
    sendToAllChats s env log (header ++ body)

/-- Go `Service.NotifyPowerOff`. -/
def NotifyPowerOff (s : Service) (env : Env) (now parseNow : Time) (log : List Message) :
    List Message × Option String :=
  if isPaused s env then (log, none)
  else
    let header := IconPowerOff ++ " *Світло вимкнено*\n\n"
    let body :=
      if s.config.NextOnSensorID ≠ "" then
        match getScheduledTime s env parseNow s.config.NextOnSensorID with
        | Except.error _ => ""
        | Except.ok none => ""
        | Except.ok (some nextOn) =>
          let duration := Sub nextOn now
          IconSchedule ++ " Наступне планове включення через *" ++ formatDuration duration ++
            "* (" ++ formatClock s.location nextOn ++ ")\n"
      else ""
    sendToAllChats s env log (header ++ body)

/-- Go `Service.NotifyScheduleChanged`. -/
def NotifyScheduleChanged (s : Service) (env : Env) (now : Time) (scheduleType : String)
    (_oldTime newTime : Option Time) (log : List Message) : List Message × Option String :=
  if isPaused s env then (log, none)
  else
    let header := IconUpdate ++ " *Графік змінено*\n\n"
    let body :=
      match newTime with
      | none => ""
      | some t =>
        let duration := Sub t now
        if scheduleType = "on" then
          IconSchedule ++ " Нове планове включення через *" ++ formatDuration duration ++
            "* (" ++ formatClock s.location t ++ ")\n"
        else
          IconSchedule ++ " Нове планове відключення через *" ++ formatDuration duration ++
            "* (" ++ formatClock s.location t ++ ")\n"
    sendToAllChats s env log (header ++ body)

/-- The call the watcher makes for one notification; the returned error is only logged. -/
def deliver (s : Service) (env : Env) (now parseNow : Time) (log : List Message) :
    Notification → List Message
  | Notification.PowerOn => (NotifyPowerOn s env now parseNow log).1
  | Notification.PowerOff => (NotifyPowerOff s env now parseNow log).1
  | Notification.ScheduleChanged scheduleType oldTime newTime =>
    (NotifyScheduleChanged s env now scheduleType oldTime newTime log).1

/-- The messages handed to `bot.Send` once every notification of a handler call has been
delivered, in order. -/
def deliverAll (s : Service) (env : Env) (now parseNow : Time) :
    List Message → List Notification → List Message
  | log, [] => log
  | log, n :: rest => deliverAll s env now parseNow (deliver s env now parseNow log n) rest

/-! ## Event transport (`internal/homeassistant/websocket.go`) -/

/-- Go `WSClient`, without the socket, the locks, the stop channel and the handler
registry. -/
structure WSClient where
  baseURL : String
  token : String
  msgID : Int
  reconnectDelay : Duration
  maxReconnect : Duration
  connected : Bool
  deriving DecidableEq, Repr

/-- Go `NewWSClient`. -/
def NewWSClient (baseURL token : String) : WSClient :=
  { baseURL := baseURL
    token := token
    msgID := 0
    reconnectDelay := 5 * Second
    maxReconnect := 5 * Minute
    connected := false }

/-- Go `min` of websocket.go, on durations. -/
def minDelay (a b : Duration) : Duration :=
  if a < b then a else b

/-- The value of a signed 64-bit integer after an arithmetic result `x` wrapped around. -/
def wrapInt64 (x : Int) : Int :=
  (x + 2 ^ 63) % 2 ^ 64 - 2 ^ 63

/-- What happens in one pass of the loop of `RunWithReconnect`: the `select` finds the
context done or the stop channel closed, or `Connect`, `SubscribeStateChanges` and `Listen`
are called in turn until one returns an error or `Listen` returns nil. -/
inductive Attempt where
  | cancelled (err : String)
  | stopped
  | connectFailed (err : String)
  | subscribeFailed (err : String)
  | listenFailed (err : String)
  | listenEnded
  deriving DecidableEq, Repr

/-- The calls `RunWithReconnect` makes. -/
inductive Action where
  | connect
  | sleep (d : Duration)
  | subscribe
  | listen
  | close
  deriving DecidableEq, Repr

/-- A run of `RunWithReconnect` observed over finitely many passes: the calls made, the
value of `delay`, and the returned error once the function has returned (`some none` for
nil). -/
structure RunState where
  actions : List Action
  delay : Duration
  returned : Option (Option String)
  deriving DecidableEq, Repr

/-- The loop of `RunWithReconnect`, entered with `delay`, over the given passes. -/
def runLoop (c : WSClient) : Duration → List Attempt → RunState
  | delay, [] => { actions := [], delay := delay, returned := none }
  | delay, Attempt.cancelled err :: _ =>
    { actions := [], delay := delay, returned := some (some err) }
  | delay, Attempt.stopped :: _ => { actions := [], delay := delay, returned := some none }
  | delay, Attempt.connectFailed _ :: rest =>
    -- time.Sleep(delay); delay = min(delay*2, c.maxReconnect); continue
    let r := runLoop c (minDelay (wrapInt64 (delay * 2)) c.maxReconnect) rest
    { r with actions := Action.connect :: Action.sleep delay :: r.actions }
  | _, Attempt.subscribeFailed _ :: rest =>
    -- delay = c.reconnectDelay; subscribe fails: c.Close(); continue
    let r := runLoop c c.reconnectDelay rest
    { r with actions := Action.connect :: Action.subscribe :: Action.close :: r.actions }
  | _, Attempt.listenFailed _ :: rest =>
    let r := runLoop c c.reconnectDelay rest
    { r with
      actions :=
        Action.connect :: Action.subscribe :: Action.listen :: Action.close :: r.actions }
  | _, Attempt.listenEnded :: rest =>
    let r := runLoop c c.reconnectDelay rest
    { r with actions := Action.connect :: Action.subscribe :: Action.listen :: r.actions }

/-- Go `WSClient.RunWithReconnect`: the loop entered with `delay := c.reconnectDelay`. -/
def RunWithReconnect (c : WSClient) (attempts : List Attempt) : RunState :=
  runLoop c c.reconnectDelay attempts

/-- The waits of a run, in order. -/
def sleeps : List Action → List Duration
  | [] => []
  | Action.sleep d :: rest => d :: sleeps rest
  | _ :: rest => sleeps rest

/-! ## Reference inputs for the service -/

/-- The location `time.UTC`. -/
def utc : Location :=
  { lookup := fun _ => { offset := 0, start := -(2 ^ 63) * Second, stop := 2 ^ 63 * Second } }

/-- End of summer time in Europe/Kyiv, 27 October 2024 at 01:00 UTC. -/
def kyivAutumn2024 : Time := (739185 * 86400 + 3600) * Second

/-- Start of summer time in Europe/Kyiv, 31 March 2024 at 01:00 UTC. -/
def kyivSpring2024 : Time := (738975 * 86400 + 3600) * Second

/-- Start of summer time in Europe/Kyiv, 30 March 2025 at 01:00 UTC. -/
def kyivSpring2025 : Time := (739339 * 86400 + 3600) * Second

/-- The location Europe/Kyiv from 29 October 2023 to 30 March 2025: UTC+3 during summer
time 2024, UTC+2 before and after it. -/
def kyiv : Location :=
  { lookup := fun t =>
      if t < kyivSpring2024 then
        { offset := 2 * Hour, start := (738821 * 86400 + 3600) * Second, stop := kyivSpring2024 }
      else if t < kyivAutumn2024 then
        { offset := 3 * Hour, start := kyivSpring2024, stop := kyivAutumn2024 }
      else { offset := 2 * Hour, start := kyivAutumn2024, stop := kyivSpring2025 } }

/-- 27 October 2024, 21:30:00 UTC, which is 23:30 in Kyiv after the clocks went back. -/
def kyivEvening : Time := (739185 * 86400 + 21 * 3600 + 30 * 60) * Second

/-- What `time.Parse` returns on the values used below: the time of day on 1 January of
year 0 in UTC for "17:30" and "00:10" under the layout "15:04", an error otherwise. -/
def exampleParse (layout value : String) : Except String ParsedTime :=
  if layout = "15:04" ∧ value = "17:30" then
    Except.ok { instant := -(366 * Day) + 17 * Hour + 30 * Minute, offset := 0 }
  else if layout = "15:04" ∧ value = "00:10" then
    Except.ok { instant := -(366 * Day) + 10 * Minute, offset := 0 }
  else Except.error "cannot parse"

/-- A hub whose next-on sensor reads `sensorState` and whose pause switch reads
`pauseState`; the bot cannot deliver to chat 2. -/
def hubWith (sensorState pauseState : String) : Env :=
  { GetState := fun entityID =>
      if entityID = "sensor.next_on" then
        Except.ok { EntityID := entityID, State := sensorState }
      else if entityID = "input_boolean.pause_power_notifications" then
        Except.ok { EntityID := entityID, State := pauseState }
      else Except.error "entity not found"
    Parse := exampleParse
    Send := fun _ msg => if msg.ChatID = 2 then some "Forbidden: bot was blocked" else none }

/-- A service for `exampleConfig` in UTC. -/
def utcService : Service := { config := exampleConfig, location := utc }

/-- A service for `exampleConfig` in Europe/Kyiv. -/
def kyivService : Service := { config := exampleConfig, location := kyiv }

/-- A service in UTC with three notification targets. -/
def threeChats : Service :=
  { config := { exampleConfig with NotificationChatIDs := [1, 2, 3] }, location := utc }

/-! ### Messages, the socket and the handshake

The socket is a script: what `ReadJSON` will return, call by call, and what `WriteJSON`
will return, call by call.  Reading past the end of the script fails, writing past the end
of the script succeeds.  Every message handed to `WriteJSON` is recorded. -/

/-- Go constant `MsgTypeAuthRequired`. -/
def MsgTypeAuthRequired : String := "auth_required"

/-- Go constant `MsgTypeAuth`. -/
def MsgTypeAuth : String := "auth"

/-- Go constant `MsgTypeAuthOK`. -/
def MsgTypeAuthOK : String := "auth_ok"

/-- Go constant `MsgTypeAuthInvalid`. -/
def MsgTypeAuthInvalid : String := "auth_invalid"

/-- Go constant `MsgTypeSubscribe`. -/
def MsgTypeSubscribe : String := "subscribe_events"

/-- Go constant `MsgTypeEvent`. -/
def MsgTypeEvent : String := "event"

/-- Go constant `MsgTypeResult`. -/
def MsgTypeResult : String := "result"

/-- Go constant `EventTypeStateChange`. -/
def EventTypeStateChange : String := "state_changed"

/-- Go `WSError`. -/
structure WSError where
  Code : String
  Message : String
  deriving DecidableEq, Repr

/-- Go `StateChangeData`. -/
structure StateChangeData where
  EntityID : String
  OldState : Option Entity
  NewState : Option Entity
  deriving DecidableEq, Repr

/-- Go `WSEvent`. -/
structure WSEvent where
  EventType : String
  Data : Option StateChangeData
  Origin : String
  TimeFired : String
  deriving DecidableEq, Repr

/-- Go `WSMessage`, without the raw `Result` payload, which the client never reads; the
field `Type` is `MsgType` here. -/
structure WSMessage where
  ID : Int
  MsgType : String
  AccessToken : String
  EventType : String
  Event : Option WSEvent
  Success : Bool
  Error : Option WSError
  deriving DecidableEq, Repr

/-- An error returned by `ReadJSON`: a `*websocket.CloseError` carries its close code. -/
structure ConnError where
  closeCode : Option Int
  text : String
  deriving DecidableEq, Repr

/-- What one call of `ReadJSON` returns. -/
inductive Inbound where
  | message (msg : WSMessage)
  | failure (err : ConnError)
  deriving DecidableEq, Repr

/-- A `*websocket.Conn`: the results of the reads and writes to come, the messages handed
to `WriteJSON` so far, and whether `Close` was called. -/
structure Conn where
  inbound : List Inbound
  writeResults : List (Option String)
  written : List WSMessage
  closed : Bool
  deriving DecidableEq, Repr

/-- Go `conn.ReadJSON`. -/
def Conn.ReadJSON (conn : Conn) : Conn × Inbound :=
  match conn.inbound with
  | [] => (conn, Inbound.failure { closeCode := none, text := "unexpected EOF" })
  | r :: rest => ({ conn with inbound := rest }, r)

/-- Go `conn.WriteJSON`. -/
def Conn.WriteJSON (conn : Conn) (msg : WSMessage) : Conn × Option String :=
  match conn.writeResults with
  | [] => ({ conn with written := conn.written ++ [msg] }, none)
  | r :: rest => ({ conn with writeResults := rest, written := conn.written ++ [msg] }, r)

/-- Go `conn.Close`. -/
def Conn.Close (conn : Conn) : Conn :=
  { conn with closed := true }

/-- Go `websocket.IsCloseError(err, websocket.CloseNormalClosure, websocket.CloseGoingAway)`:
close codes 1000 and 1001. -/
def IsCloseError (err : ConnError) : Bool :=
  decide (err.closeCode = some 1000 ∨ err.closeCode = some 1001)

/-- A `WSClient` together with its socket `c.conn`. -/
structure Link where
  client : WSClient
  conn : Option Conn
  deriving DecidableEq, Repr

/-- Go `WSClient.Connect`; `dial` is the outcome of `DialContext`: an error or the socket. -/
def Connect (l : Link) (dial : Except String Conn) : Link × Option String :=
  match dial with
  | Except.error err => (l, some ("failed to connect to WebSocket: " ++ err))
  | Except.ok conn =>
    let client := { l.client with msgID := 0 }
    -- Read auth_required message
    match conn.ReadJSON with
    | (conn1, Inbound.failure err) =>
      ({ client := client, conn := some conn1.Close },
        some ("failed to read auth_required: " ++ err.text))
    | (conn1, Inbound.message authReq) =>
      if authReq.MsgType ≠ MsgTypeAuthRequired then
        ({ client := client, conn := some conn1.Close },
          some ("unexpected message type: " ++ authReq.MsgType))
      else
        -- Send authentication
        let authMsg : WSMessage :=
          { ID := 0, MsgType := MsgTypeAuth, AccessToken := l.client.token, EventType := "",
            Event := none, Success := false, Error := none }
        match conn1.WriteJSON authMsg with
        | (conn2, some err) =>
          ({ client := client, conn := some conn2.Close }, some ("failed to send auth: " ++ err))
        | (conn2, none) =>
          -- Read auth response
          match conn2.ReadJSON with
          | (conn3, Inbound.failure err) =>
            ({ client := client, conn := some conn3.Close },
              some ("failed to read auth response: " ++ err.text))
          | (conn3, Inbound.message authResp) =>
            if authResp.MsgType = MsgTypeAuthInvalid then
              ({ client := client, conn := some conn3.Close },
                some "authentication failed: invalid token")
            else if authResp.MsgType ≠ MsgTypeAuthOK then
              ({ client := client, conn := some conn3.Close },
                some ("unexpected auth response: " ++ authResp.MsgType))
            else
              ({ client := { client with connected := true }, conn := some conn3 }, none)

/-- Go `WSClient.SubscribeStateChanges`. -/
def SubscribeStateChanges (l : Link) : Link × Option String :=
  let msgID := wrapInt64 (l.client.msgID + 1)
  let client := { l.client with msgID := msgID }
  match l.conn with
  | none => ({ client := client, conn := none }, some "not connected")
  | some conn =>
    let msg : WSMessage :=
      { ID := msgID, MsgType := MsgTypeSubscribe, AccessToken := "",
        EventType := EventTypeStateChange, Event := none, Success := false, Error := none }
    match conn.WriteJSON msg with
    | (conn1, some err) =>
      ({ client := client, conn := some conn1 }, some ("failed to subscribe: " ++ err))
    | (conn1, none) =>
      -- Read subscription result
      match conn1.ReadJSON with
      | (conn2, Inbound.failure err) =>
        ({ client := client, conn := some conn2 },
          some ("failed to read subscription result: " ++ err.text))
      | (conn2, Inbound.message result) =>
        if result.MsgType = MsgTypeResult ∧ result.Success = false then
          let errMsg :=
            match result.Error with
            | some e => e.Message
            | none => "unknown error"
          ({ client := client, conn := some conn2 }, some ("subscription failed: " ++ errMsg))
        else ({ client := client, conn := some conn2 }, none)

/-- Go `WSClient.Close`. -/
def Link.Close (l : Link) : Link :=
  { client := { l.client with connected := false }, conn := none }

/-! ### Handler registry and dispatch

A handler is a value of any type `η`; an invocation records the handler started (each in
its own goroutine) and the arguments it is given, in the order in which they are started. -/

/-- Go `map[string][]StateChangeHandler`: the handlers registered under a key, if any. -/
abbrev Registry (η : Type) := String → Option (List η)

/-- The registry made by `NewWSClient`: `make(map[string][]StateChangeHandler)`. -/
def emptyRegistry (η : Type) : Registry η := fun _ => none

/-- Go `WSClient.OnStateChange`: `c.handlers[entityID] = append(c.handlers[entityID], handler)`. -/
def OnStateChange {η : Type} (handlers : Registry η) (entityID : String) (handler : η) :
    Registry η :=
  fun key => if key = entityID then some ((handlers key).getD [] ++ [handler]) else handlers key

/-- Go `WSClient.OnAnyStateChange`. -/
def OnAnyStateChange {η : Type} (handlers : Registry η) (handler : η) : Registry η :=
  OnStateChange handlers "*" handler

/-- One `go h(entityID, oldState, newState)`. -/
structure Invocation (η : Type) where
  handler : η
  entityID : String
  oldState : Option Entity
  newState : Option Entity
  deriving DecidableEq, Repr

/-- Go `WSClient.handleEvent`: the invocations started, in order. -/
def handleEvent {η : Type} (handlers : Registry η) (event : WSEvent) : List (Invocation η) :=
  match event.Data with
  | none => []
  | some data =>
    if event.EventType ≠ EventTypeStateChange then []
    else
      let entityID := data.EntityID
      let oldState := data.OldState
      let newState := data.NewState
      -- Call specific entity handlers
      let specific :=
        match handlers entityID with
        | some hs =>
          hs.map (fun h =>
            { handler := h, entityID := entityID, oldState := oldState, newState := newState })
        | none => []
      -- Call wildcard handlers
      let wildcard :=
        match handlers "*" with
        | some hs =>
          hs.map (fun h =>
            { handler := h, entityID := entityID, oldState := oldState, newState := newState })
        | none => []
      specific ++ wildcard

/-- What a `select` finds: nothing ready (`none`), the context done with its error, or the
stop channel closed. -/
inductive Signal where
  | ctxDone (err : String)
  | stopClosed
  deriving DecidableEq, Repr

/-- The loop of `Listen` on a socket: `signals` are what the successive `select`s find (the
default branch once the list is used up), `inbound` the reads to come.  Returns the
invocations started, the reads left over and the returned error. -/
def listenLoop {η : Type} (handlers : Registry η) :
    List Inbound → List (Option Signal) → List (Invocation η) × List Inbound × Option String
  | inbound, some (Signal.ctxDone err) :: _ => ([], inbound, some err)
  | inbound, some Signal.stopClosed :: _ => ([], inbound, none)
  | [], _ => ([], [], some "read error: unexpected EOF")
  | Inbound.failure err :: rest, _ =>
    if IsCloseError err then ([], rest, none)
    else ([], rest, some ("read error: " ++ err.text))
  | Inbound.message msg :: rest, signals =>
    let started :=
      match msg.Event with
      | some event => if msg.MsgType = MsgTypeEvent then handleEvent handlers event else []
      | none => []
    let r := listenLoop handlers rest signals.tail
    (started ++ r.1, r.2.1, r.2.2)

/-- Go `WSClient.Listen`: the invocations started, the link afterwards and the returned
error. -/
def Listen {η : Type} (handlers : Registry η) (l : Link) (signals : List (Option Signal)) :
    List (Invocation η) × Link × Option String :=
  match signals, l.conn with
  | some (Signal.ctxDone err) :: _, _ => ([], l, some err)
  | some Signal.stopClosed :: _, _ => ([], l, none)
  | _, none => ([], l, some "not connected")
  | _, some conn =>
    let r := listenLoop handlers conn.inbound signals
    (r.1, { l with conn := some { conn with inbound := r.2.1 } }, r.2.2)

/-- One pass of the loop of `RunWithReconnect` against a concrete peer: what the `select`
at the head of the pass finds, the outcome of the dial, and what the `select`s of `Listen`
find. -/
structure Pass where
  head : Option Signal
  dial : Except String Conn
  signals : List (Option Signal)

/-- The kind of pass `RunWithReconnect` goes through for a concrete peer. -/
def attemptOf {η : Type} (handlers : Registry η) (l : Link) (p : Pass) : Attempt :=
  match p.head with
  | some (Signal.ctxDone err) => Attempt.cancelled err
  | some Signal.stopClosed => Attempt.stopped
  | none =>
    match Connect l p.dial with
    | (_, some err) => Attempt.connectFailed err
    | (l1, none) =>
      match SubscribeStateChanges l1 with
      | (_, some err) => Attempt.subscribeFailed err
      | (l2, none) =>
        match (Listen handlers l2 p.signals).2.2 with
        | some err => Attempt.listenFailed err
        | none => Attempt.listenEnded

/-! ## Configuration (`internal/config/config.go`) -/

/-- The loop of `IsChatAllowed` over the allowed ids. -/
def isChatAllowedLoop (chatID : Int) : List Int → Bool
  | [] => false
  | allowed :: rest => if allowed = chatID then true else isChatAllowedLoop chatID rest

/-- Go `Config.IsChatAllowed`. -/
def IsChatAllowed (c : Config) (chatID : Int) : Bool :=
  -- If list is empty - allow all (unsafe!)
  if c.AllowedChatIDs.length = 0 then true
  else isChatAllowedLoop chatID c.AllowedChatIDs

/-! ### Standard library functions used by `parseChatIDs`

Strings are lists of Unicode characters. -/

/-- Go `strings.Trim(s, cutset)`: `s` without the leading and trailing characters that
occur in `cutset`. -/
def Trim (s cutset : List Char) : List Char :=
  ((s.dropWhile (fun ch => decide (ch ∈ cutset))).reverse.dropWhile
    (fun ch => decide (ch ∈ cutset))).reverse

/-- Go `unicode.IsSpace`. -/
def isSpace (ch : Char) : Bool :=
  decide (ch.toNat ∈
    [0x09, 0x0A, 0x0B, 0x0C, 0x0D, 0x20, 0x85, 0xA0, 0x1680, 0x2000, 0x2001, 0x2002, 0x2003,
      0x2004, 0x2005, 0x2006, 0x2007, 0x2008, 0x2009, 0x200A, 0x2028, 0x2029, 0x202F, 0x205F,
      0x3000])

/-- Go `strings.TrimSpace`. -/
def TrimSpace (s : List Char) : List Char :=
  ((s.dropWhile isSpace).reverse.dropWhile isSpace).reverse

/-- Go `strings.Split(s, sep)` for a separator of one character: the pieces between the
separators, one more than there are separators. -/
def Split (sep : Char) : List Char → List (List Char)
  | [] => [[]]
  | ch :: rest =>
    if ch = sep then [] :: Split sep rest
    else
      match Split sep rest with
      | [] => [[ch]]
      | piece :: pieces => (ch :: piece) :: pieces

/-- The value of a string of decimal digits, `none` when a character is not a digit. -/
def parseDigits : List Char → Nat → Option Nat
  | [], acc => some acc
  | ch :: rest, acc =>
    if '0'.toNat ≤ ch.toNat ∧ ch.toNat ≤ '9'.toNat then
      parseDigits rest (acc * 10 + (ch.toNat - '0'.toNat))
    else none

/-- Go `strconv.ParseInt(s, 10, 64)`: an optional sign followed by at least one decimal
digit, with a value in the signed 64-bit range; `none` when an error is returned. -/
def ParseInt (s : List Char) : Option Int :=
  match s with
  | [] => none
  | '+' :: digits =>
    match digits, parseDigits digits 0 with
    | [], _ => none
    | _, none => none
    | _, some n => if n < 2 ^ 63 then some (n : Int) else none
  | '-' :: digits =>
    match digits, parseDigits digits 0 with
    | [], _ => none
    | _, none => none
    | _, some n => if n ≤ 2 ^ 63 then some (-(n : Int)) else none
  | digits =>
    match parseDigits digits 0 with
    | none => none
    | some n => if n < 2 ^ 63 then some (n : Int) else none

/-- The loop of `parseChatIDs` over the parts, `ids` being the slice built so far. -/
def parseChatIDsLoop : List (List Char) → List Int → List Int
  | [], ids => ids
  | part :: rest, ids =>
    match ParseInt (TrimSpace part) with
    | some id => parseChatIDsLoop rest (ids ++ [id])
    | none => parseChatIDsLoop rest ids

/-- Go `parseChatIDs`; the nil slice is the empty list. -/
def parseChatIDs (str : String) : List Int :=
  parseChatIDsLoop (Split ',' (Trim str.toList "[]".toList)) []

/-! ## Test double of the watcher (`internal/watcher/watcher_test.go`) -/

/-- Go `testableWatcher`: the embedded watcher and the two call counters. -/
structure testableWatcher where
  watcher : Watcher
  onCalls : Int
  offCalls : Int
  deriving DecidableEq, Repr

/-- Go `testableWatcher.trackPowerOn`: `tw.onCalls++` on a 64-bit `int`. -/
def trackPowerOn (tw : testableWatcher) : testableWatcher :=
  { tw with onCalls := wrapInt64 (tw.onCalls + 1) }

/-- Go `testableWatcher.trackPowerOff`: `tw.offCalls++` on a 64-bit `int`. -/
def trackPowerOff (tw : testableWatcher) : testableWatcher :=
  { tw with offCalls := wrapInt64 (tw.offCalls + 1) }

/-- Go `testableWatcher.testHandleStateChange`, with the clock readings of
`time.Since(tw.lastChange)` and of `time.Now()` in the update. -/
def testHandleStateChange (tw : testableWatcher) (sinceNow commitNow : Time)
    (newState : Option Entity) : testableWatcher :=
  match newState with
  | none => tw
  | some entity =>
    let newPowerState := normalizeState entity.State
    let previousState := tw.watcher.lastState
    let timeSinceLastChange := Since sinceNow tw.watcher.lastChange
    -- Skip if state hasn't actually changed
    if newPowerState = previousState then tw
    -- Debounce rapid changes
    else if timeSinceLastChange < tw.watcher.debounceTime then tw
    else
      -- Update state
      let tw1 :=
        { tw with
          watcher := { tw.watcher with lastState := newPowerState, lastChange := commitNow } }
      -- Skip notification if transitioning from unknown state
      if previousState = PowerState.Unknown then tw1
      else
        -- Track notification calls
        match newPowerState with
        | PowerState.On => trackPowerOn tw1
        | PowerState.Off => trackPowerOff tw1
        | PowerState.Unknown => tw1

/-- Go `createTestableWatcher`. -/
def createTestableWatcher : testableWatcher :=
  { watcher :=
      { lastState := PowerState.Unknown
        lastNextOnTime := none
        lastNextOffTime := none
        debounceTime := 5 * Second
        lastChange := 0
        lastScheduleChange := 0 }
    onCalls := 0
    offCalls := 0 }

/-! ## Reference inputs for the transport -/

/-- A message of the given kind with every other field at its zero value. -/
def messageOfKind (kind : String) : WSMessage :=
  { ID := 0, MsgType := kind, AccessToken := "", EventType := "", Event := none,
    Success := false, Error := none }

/-- A socket whose peer sends the given replies and accepts every write. -/
def socketWith (inbound : List Inbound) : Conn :=
  { inbound := inbound, writeResults := [], written := [], closed := false }

/-- A fresh client for the supervisor address, not yet connected. -/
def freshLink : Link :=
  { client := NewWSClient "http://supervisor/core/api" "token", conn := none }

/-- A hub that accepts the token and then answers the subscription with a failed result. -/
def rejectingHub : Conn :=
  socketWith
    [ Inbound.message (messageOfKind "auth_required"),
      Inbound.message (messageOfKind "auth_ok"),
      Inbound.message { messageOfKind "result" with ID := 1, Success := false } ]

/-- A hub that accepts the token and the subscription and then closes the stream with close
code 1000 (normal closure). -/
def closingHub : Conn :=
  socketWith
    [ Inbound.message (messageOfKind "auth_required"),
      Inbound.message (messageOfKind "auth_ok"),
      Inbound.message { messageOfKind "result" with ID := 1, Success := true },
      Inbound.failure { closeCode := some 1000, text := "websocket: close 1000 (normal)" } ]

/-- A hub that rejects the token. -/
def refusingHub : Conn :=
  socketWith
    [ Inbound.message (messageOfKind "auth_required"),
      Inbound.message (messageOfKind "auth_invalid") ]

/-- A hub that answers the subscription with an event instead of a result. -/
def chattyHub : Conn :=
  socketWith [ Inbound.message { messageOfKind "event" with ID := 99 } ]

/-- A hub that answers the subscription with a successful result for another request. -/
def misnumberingHub : Conn :=
  socketWith [ Inbound.message { messageOfKind "result" with ID := 99, Success := true } ]

/-- The outcome the next `WriteJSON` on the socket will have: nil unless the script says
otherwise. -/
def Conn.nextWrite (conn : Conn) : Option String :=
  match conn.writeResults with
  | [] => none
  | r :: _ => r

/-- The message `Connect` sends to authenticate: kind `auth` with the client's token. -/
def authMessage (token : String) : WSMessage :=
  { ID := 0, MsgType := MsgTypeAuth, AccessToken := token, EventType := "", Event := none,
    Success := false, Error := none }

/-- A hub that follows the protocol: asks for authentication and accepts the token. -/
def acceptingHub : Conn :=
  socketWith
    [ Inbound.message (messageOfKind "auth_required"),
      Inbound.message (messageOfKind "auth_ok") ]

/-- The request `SubscribeStateChanges` sends: kind `subscribe_events` for the event class
`state_changed`, tagged with the given id. -/
def subscribeMessage (id : Int) : WSMessage :=
  { ID := id, MsgType := MsgTypeSubscribe, AccessToken := "",
    EventType := EventTypeStateChange, Event := none, Success := false, Error := none }

/-- The call `go h(entityID, oldState, newState)` made for a handler and the data of an
event. -/
def invocationFor {η : Type} (data : StateChangeData) (h : η) : Invocation η :=
  { handler := h, entityID := data.EntityID, oldState := data.OldState,
    newState := data.NewState }

/-- A `state_changed` event for the given entity, reporting the state "on". -/
def stateChangedEvent (entityID : String) : WSEvent :=
  { EventType := "state_changed"
    Data := some
      { EntityID := entityID
        OldState := none
        NewState := some { EntityID := entityID, State := "on" } }
    Origin := "LOCAL"
    TimeFired := "2026-01-04T14:30:00+00:00" }

/-- A registry with one handler for the power sensor and one wildcard handler, registered in
that order. -/
def exampleRegistry : Registry String :=
  OnAnyStateChange (OnStateChange (emptyRegistry String) "binary_sensor.power" "power") "any"

/-- A test double whose watcher last saw the power on at `baseTime`, with both counters at
zero. -/
def doubleOn : testableWatcher :=
  { watcher := watcherOn, onCalls := 0, offCalls := 0 }

/-- A socket on which the hub sends one event message and then closes the stream with close
code 1001 (going away). -/
def departingSocket : Conn :=
  socketWith
    [ Inbound.message (messageOfKind "event"),
      Inbound.failure { closeCode := some 1001, text := "websocket: close 1001 (going away)" } ]

/-- The client after one pass of `RunWithReconnect` against the hub that closes the stream
with code 1000: `Connect`, `SubscribeStateChanges` and `Listen` have run, and `Close` has
not been called. -/
def afterCleanClose : Link :=
  (Listen (emptyRegistry String)
    (SubscribeStateChanges (Connect freshLink (Except.ok closingHub)).1).1 []).2.1

/-! # Theorems -/

/-! ## Elapsed time and the debounce window -/

/-- Saturation of `Sub` never changes the outcome of the comparison with a 5 s window. -/
theorem Since_lt_five_seconds (now t : Time) :
    Since now t < 5 * Second ↔ now < t + 5 * Second := by
  unfold Since Sub minDuration maxDuration Second
  unfold Time Duration at *
  split_ifs <;> constructor <;> intro h <;> omega

/-- The two outcomes of `handleStateChange`: either nothing happens, or the snapshot carries
a signal different from `lastState`, the window has elapsed, and the new signal and the
commit instant are stored. -/
theorem handleStateChange_outcome (w : Watcher) (sinceNow commitNow : Time)
    (newState : Option Entity) (hd : w.debounceTime = 5 * Second) :
    handleStateChange w sinceNow commitNow newState = (w, []) ∨
    ∃ e, newState = some e ∧ normalizeState e.State ≠ w.lastState ∧
      w.lastChange + 5 * Second ≤ sinceNow ∧
      (handleStateChange w sinceNow commitNow newState).1 =
        { w with lastState := normalizeState e.State, lastChange := commitNow } := by
  cases newState with
  | none => left; rfl
  | some e =>
    by_cases h1 : normalizeState e.State = w.lastState
    · left; simp [handleStateChange, h1]
    · by_cases h2 : sinceNow < w.lastChange + 5 * Second
      · left
        have := (Since_lt_five_seconds sinceNow w.lastChange).2 h2
        simp [handleStateChange, h1, hd, this]
      · right
        have h3 : ¬ Since sinceNow w.lastChange < 5 * Second :=
          fun h => h2 ((Since_lt_five_seconds sinceNow w.lastChange).1 h)
        refine ⟨e, rfl, h1, not_lt.mp h2, ?_⟩
        simp only [handleStateChange, h1, hd, h3, if_false]
        split
        · rfl
        · split <;> rfl

/-- C1. `normalizeState` is a total function that returns `On` exactly on the seven
"on" synonyms, `Off` exactly on the seven "off" synonyms and `Unknown` on every other
string, among them the empty string, "unknown" and "unavailable". -/
theorem normalizeState_table (s : String) :
    (normalizeState s = PowerState.On ↔
      s ∈ ["on", "ON", "true", "1", "home", "alive", "connected"]) ∧
    (normalizeState s = PowerState.Off ↔
      s ∈ ["off", "OFF", "false", "0", "not_home", "dead", "disconnected"]) ∧
    (normalizeState s = PowerState.Unknown ↔
      s ∉ ["on", "ON", "true", "1", "home", "alive", "connected"] ∧
      s ∉ ["off", "OFF", "false", "0", "not_home", "dead", "disconnected"]) ∧
    normalizeState "" = PowerState.Unknown ∧
    normalizeState "unknown" = PowerState.Unknown ∧
    normalizeState "unavailable" = PowerState.Unknown := by
  refine ⟨?_, ?_, ?_, by decide, by decide, by decide⟩ <;>
  · unfold normalizeState
    split <;> simp_all

/-! ## Single calls of `handleStateChange` -/

/-- C2, as stated, fails: a watcher whose state went back to `Unknown` one second ago
keeps `Unknown` when "on" arrives, because the event falls inside the debounce window. -/
theorem unknown_to_on_inside_window :
    afterOutage.lastState = PowerState.Unknown ∧
    afterOutage.debounceTime = 5 * Second ∧
    normalizeState powerOn.State = PowerState.On ∧
    (handleStateChange afterOutage (baseTime + 11 * Second) (baseTime + 11 * Second)
      (some powerOn)).1.lastState ≠ normalizeState powerOn.State ∧
    (handleStateChange afterOutage (baseTime + 11 * Second) (baseTime + 11 * Second)
      (some powerOn)).1.lastState = PowerState.Unknown := by
  decide

/-- C2, amended. For a watcher whose `lastState` is `Unknown` and a snapshot normalizing to
`On` or `Off`, `handleStateChange` dispatches nothing; it stores the new signal when the
snapshot arrives at least 5 s after `lastChange` and leaves the watcher as it was when the
snapshot arrives earlier. -/
theorem unknown_to_known (w : Watcher) (sinceNow commitNow : Time) (e : Entity)
    (hd : w.debounceTime = 5 * Second) (hu : w.lastState = PowerState.Unknown)
    (hk : normalizeState e.State = PowerState.On ∨ normalizeState e.State = PowerState.Off) :
    (handleStateChange w sinceNow commitNow (some e)).2 = [] ∧
    (w.lastChange + 5 * Second ≤ sinceNow →
      (handleStateChange w sinceNow commitNow (some e)).1.lastState = normalizeState e.State) ∧
    (sinceNow < w.lastChange + 5 * Second →
      (handleStateChange w sinceNow commitNow (some e)).1 = w) := by
  have hne : normalizeState e.State ≠ PowerState.Unknown := by
    rcases hk with h | h <;> simp [h]
  refine ⟨?_, ?_, ?_⟩
  · simp only [handleStateChange, hu]
    split_ifs <;> simp_all
  · intro ht
    have h3 : ¬ Since sinceNow w.lastChange < 5 * Second :=
      fun h => absurd ((Since_lt_five_seconds sinceNow w.lastChange).1 h) (not_lt.mpr ht)
    simp [handleStateChange, hne, hd, h3, hu]
  · intro ht
    have h3 := (Since_lt_five_seconds sinceNow w.lastChange).2 ht
    simp [handleStateChange, hne, hd, h3, hu]

/-- The amended C2 on a fresh watcher: the first "on" is stored and nothing is sent. -/
theorem unknown_to_known_witness :
    (handleStateChange NewWatcher baseTime baseTime (some powerOn)).2 = [] ∧
    (handleStateChange NewWatcher baseTime baseTime (some powerOn)).1.lastState =
      PowerState.On :=
  ⟨(unknown_to_known NewWatcher baseTime baseTime powerOn rfl rfl (Or.inl rfl)).1,
   (unknown_to_known NewWatcher baseTime baseTime powerOn rfl rfl (Or.inl rfl)).2.1
     (by decide)⟩

/-- C3. For a watcher in state `On` (resp. `Off`) whose `lastChange` lies at least 5 s in
the past, a snapshot normalizing to `Off` (resp. `On`) stores the new signal, stores the
current time in `lastChange`, and dispatches exactly one notification: `PowerOff` when the
new signal is `Off`, `PowerOn` when it is `On`. -/
theorem known_flip (w : Watcher) (sinceNow commitNow : Time) (e : Entity)
    (hd : w.debounceTime = 5 * Second)
    (hs : (w.lastState = PowerState.On ∧ normalizeState e.State = PowerState.Off) ∨
      (w.lastState = PowerState.Off ∧ normalizeState e.State = PowerState.On))
    (ht : w.lastChange + 5 * Second ≤ sinceNow) :
    (handleStateChange w sinceNow commitNow (some e)).1.lastState = normalizeState e.State ∧
    (handleStateChange w sinceNow commitNow (some e)).1.lastChange = commitNow ∧
    (normalizeState e.State = PowerState.Off →
      (handleStateChange w sinceNow commitNow (some e)).2 = [Notification.PowerOff]) ∧
    (normalizeState e.State = PowerState.On →
      (handleStateChange w sinceNow commitNow (some e)).2 = [Notification.PowerOn]) := by
  have h3 : ¬ Since sinceNow w.lastChange < 5 * Second :=
    fun h => absurd ((Since_lt_five_seconds sinceNow w.lastChange).1 h) (not_lt.mpr ht)
  rcases hs with ⟨h1, h2⟩ | ⟨h1, h2⟩ <;> simp [handleStateChange, h1, h2, hd, h3]

/-- C3 on the two transitions of the tests: `On` to `Off` and `Off` to `On`, ten seconds
after the last change. -/
theorem known_flip_witness :
    (handleStateChange watcherOn (baseTime + 10 * Second) (baseTime + 10 * Second)
      (some powerOff)).2 = [Notification.PowerOff] ∧
    (handleStateChange watcherOff (baseTime + 10 * Second) (baseTime + 10 * Second)
      (some powerOn)).2 = [Notification.PowerOn] :=
  ⟨(known_flip watcherOn (baseTime + 10 * Second) (baseTime + 10 * Second) powerOff rfl
      (Or.inl ⟨rfl, by decide⟩) (by decide)).2.2.1 (by decide),
   (known_flip watcherOff (baseTime + 10 * Second) (baseTime + 10 * Second) powerOn rfl
      (Or.inr ⟨rfl, by decide⟩) (by decide)).2.2.2 (by decide)⟩

/-- C4. A snapshot whose signal differs from `lastState` but arrives less than 5 s after
`lastChange` leaves the watcher unchanged and dispatches nothing; the same snapshot
delivered once the window has elapsed is then committed: the signal and the commit time
are stored. -/
theorem debounced_change (w : Watcher) (sinceNow commitNow : Time) (e : Entity)
    (hd : w.debounceTime = 5 * Second)
    (hne : normalizeState e.State ≠ w.lastState)
    (ht : sinceNow < w.lastChange + 5 * Second) :
    handleStateChange w sinceNow commitNow (some e) = (w, []) ∧
    ∀ laterSince laterCommit : Time, w.lastChange + 5 * Second ≤ laterSince →
      (handleStateChange (handleStateChange w sinceNow commitNow (some e)).1
        laterSince laterCommit (some e)).1.lastState = normalizeState e.State ∧
      (handleStateChange (handleStateChange w sinceNow commitNow (some e)).1
        laterSince laterCommit (some e)).1.lastChange = laterCommit := by
  have h3 := (Since_lt_five_seconds sinceNow w.lastChange).2 ht
  have h4 : handleStateChange w sinceNow commitNow (some e) = (w, []) := by
    simp [handleStateChange, hne, hd, h3]
  refine ⟨h4, ?_⟩
  intro laterSince laterCommit hl
  have h5 : ¬ Since laterSince w.lastChange < 5 * Second :=
    fun h => absurd ((Since_lt_five_seconds laterSince w.lastChange).1 h) (not_lt.mpr hl)
  rw [h4]
  simp only [handleStateChange, hne, hd, h5, if_false]
  constructor <;> (split <;> try split) <;> rfl

/-- C4 on the debounce test: "off" one second after the change to `On` is dropped, and
"off" ten seconds after it is committed. -/
theorem debounced_change_witness :
    handleStateChange watcherOn (baseTime + Second) (baseTime + Second) (some powerOff) =
      (watcherOn, []) ∧
    (handleStateChange
      (handleStateChange watcherOn (baseTime + Second) (baseTime + Second) (some powerOff)).1
      (baseTime + 10 * Second) (baseTime + 10 * Second) (some powerOff)).1.lastState =
      PowerState.Off :=
  ⟨(debounced_change watcherOn (baseTime + Second) (baseTime + Second) powerOff rfl
      (by decide) (by decide)).1,
   ((debounced_change watcherOn (baseTime + Second) (baseTime + Second) powerOff rfl
      (by decide) (by decide)).2 (baseTime + 10 * Second) (baseTime + 10 * Second)
      (by decide)).1⟩

/-- C5. A snapshot whose normalized signal equals `lastState` is a no-op whatever the
clock reads: the watcher, `lastChange` included, is unchanged and nothing is dispatched. -/
theorem same_signal_noop (w : Watcher) (sinceNow commitNow : Time) (e : Entity)
    (h : normalizeState e.State = w.lastState) :
    handleStateChange w sinceNow commitNow (some e) = (w, []) := by
  simp [handleStateChange, h]

/-- C5 on the no-change test: "on" delivered to a watcher in state `On`. -/
theorem same_signal_noop_witness :
    handleStateChange watcherOn (baseTime + 10 * Second) (baseTime + 10 * Second)
      (some powerOn) = (watcherOn, []) :=
  same_signal_noop watcherOn (baseTime + 10 * Second) (baseTime + 10 * Second) powerOn
    (by decide)

/-- C6. For a watcher in state `On` or `Off` whose debounce window has elapsed, a snapshot
normalizing to `Unknown` stores `Unknown` and dispatches nothing, so neither `PowerOn` nor
`PowerOff`. -/
theorem known_to_unknown (w : Watcher) (sinceNow commitNow : Time) (e : Entity)
    (hd : w.debounceTime = 5 * Second)
    (hk : w.lastState = PowerState.On ∨ w.lastState = PowerState.Off)
    (ht : w.lastChange + 5 * Second ≤ sinceNow)
    (hu : normalizeState e.State = PowerState.Unknown) :
    (handleStateChange w sinceNow commitNow (some e)).1.lastState = PowerState.Unknown ∧
    (handleStateChange w sinceNow commitNow (some e)).2 = [] := by
  have h3 : ¬ Since sinceNow w.lastChange < 5 * Second :=
    fun h => absurd ((Since_lt_five_seconds sinceNow w.lastChange).1 h) (not_lt.mpr ht)
  rcases hk with h1 | h1 <;> simp [handleStateChange, h1, hu, hd, h3]

/-- C6 on "unavailable" arriving ten seconds after the change to `Off`. -/
theorem known_to_unknown_witness :
    (handleStateChange watcherOff (baseTime + 10 * Second) (baseTime + 10 * Second)
      (some powerUnavailable)).1.lastState = PowerState.Unknown ∧
    (handleStateChange watcherOff (baseTime + 10 * Second) (baseTime + 10 * Second)
      (some powerUnavailable)).2 = [] :=
  known_to_unknown watcherOff (baseTime + 10 * Second) (baseTime + 10 * Second)
    powerUnavailable rfl (Or.inr rfl) (by decide) (by decide)

/-! ## Runs of the watcher -/

/-- A call never changes `debounceTime`. -/
theorem handleStateChange_debounceTime (w : Watcher) (sinceNow commitNow : Time)
    (newState : Option Entity) :
    (handleStateChange w sinceNow commitNow newState).1.debounceTime = w.debounceTime := by
  cases newState with
  | none => rfl
  | some e =>
    simp only [handleStateChange]
    split_ifs
    · rfl
    · rfl
    · rfl
    · split <;> rfl

/-- Whatever a call dispatches is the notification of an `On`/`Off` flip it committed. -/
theorem handleStateChange_sent (w : Watcher) (sinceNow commitNow : Time)
    (newState : Option Entity) :
    ∀ n ∈ (handleStateChange w sinceNow commitNow newState).2,
      (w.lastState = PowerState.On ∧
        (handleStateChange w sinceNow commitNow newState).1.lastState = PowerState.Off ∧
        n = Notification.PowerOff) ∨
      (w.lastState = PowerState.Off ∧
        (handleStateChange w sinceNow commitNow newState).1.lastState = PowerState.On ∧
        n = Notification.PowerOn) := by
  cases newState with
  | none => simp [handleStateChange]
  | some e =>
    simp only [handleStateChange]
    generalize normalizeState e.State = nw
    rcases w with ⟨ls, a, b, d, lc, lsc⟩
    cases ls <;> cases nw <;> simp <;> split_ifs <;> simp

/-- Each step of a trace is a call of `handleStateChange` on a watcher with a 5 s window. -/
theorem trace_step (calls : List Call) :
    ∀ w : Watcher, w.debounceTime = 5 * Second → ∀ s ∈ trace w calls,
      s.before.debounceTime = 5 * Second ∧
      s.after =
        (handleStateChange s.before s.call.sinceNow s.call.commitNow s.call.newState).1 ∧
      s.sent =
        (handleStateChange s.before s.call.sinceNow s.call.commitNow s.call.newState).2 ∧
      s.call ∈ calls := by
  induction calls with
  | nil => intro w _ s hs; simp [trace] at hs
  | cons c cs ih =>
    intro w hd s hs
    simp only [trace, List.mem_cons] at hs
    rcases hs with hs | hs
    · subst hs
      exact ⟨hd, rfl, rfl, List.mem_cons_self _ _⟩
    · have hd1 : (handleStateChange w c.sinceNow c.commitNow c.newState).1.debounceTime =
          5 * Second := by
        rw [handleStateChange_debounceTime]; exact hd
      obtain ⟨h1, h2, h3, h4⟩ := ih _ hd1 s hs
      exact ⟨h1, h2, h3, List.mem_cons_of_mem _ h4⟩

/-- Under a non-decreasing clock the second reading of a call is not before the first. -/
theorem clock_within_call (calls : List Call)
    (hclock : List.Chain' (fun a b : Time => a ≤ b) (clockReadings calls)) :
    ∀ c ∈ calls, c.sinceNow ≤ c.commitNow := by
  induction calls with
  | nil => intro c hc; simp at hc
  | cons c cs ih =>
    intro c1 hc
    simp only [clockReadings] at hclock
    rcases List.mem_cons.1 hc with h | h
    · subst h
      exact (List.chain'_cons.1 hclock).1
    · exact ih hclock.tail.tail c1 h

/-- Commit instants of a run are 5 s apart, and the first is 5 s after the `lastChange`
the run starts with. -/
theorem commitTimes_chain (calls : List Call) :
    ∀ w : Watcher, w.debounceTime = 5 * Second →
      (∀ c ∈ calls, c.sinceNow ≤ c.commitNow) →
      List.Chain (fun a b : Time => a + 5 * Second ≤ b) w.lastChange
        (commitTimes (trace w calls)) := by
  induction calls with
  | nil => intro w _ _; simp [trace, commitTimes]
  | cons c cs ih =>
    intro w hd hc
    have hc1 : ∀ c1 ∈ cs, c1.sinceNow ≤ c1.commitNow :=
      fun c1 h => hc c1 (List.mem_cons_of_mem _ h)
    have hd1 : (handleStateChange w c.sinceNow c.commitNow c.newState).1.debounceTime =
        5 * Second := by
      rw [handleStateChange_debounceTime]; exact hd
    have ih1 := ih _ hd1 hc1
    have hcc := hc c (List.mem_cons_self _ _)
    rcases handleStateChange_outcome w c.sinceNow c.commitNow c.newState hd with h | h
    · rw [h] at ih1
      simpa [trace, commitTimes, h] using ih1
    · obtain ⟨e, _, hne, ht, hw⟩ := h
      rw [hw] at ih1
      have hchg : (handleStateChange w c.sinceNow c.commitNow c.newState).1.lastState ≠
          w.lastState := by
        rw [hw]; exact hne
      simp only [trace, commitTimes, List.filter_cons, hchg, ne_eq, not_false_eq_true,
        decide_True, if_true, List.map_cons]
      refine List.Chain.cons (le_trans ht hcc) ?_
      simpa [commitTimes, hw] using ih1

/-- C7. In a run that starts from `NewWatcher`, optionally applies `fetchInitialState`, and
then processes calls one at a time under a non-decreasing clock: `lastState` changes only
in a call whose normalized signal differs from the current `lastState` and that arrives at
least 5 s after `lastChange` (the call then stores that signal and its commit time, and any
other call leaves the watcher untouched); two consecutive commits are at least 5 s apart;
and every dispatched notification belongs to a commit from `On` to `Off` or from `Off` to
`On`. -/
theorem run_invariant (initial : Option (Except String Entity)) (calls : List Call)
    (hclock : List.Chain' (fun a b : Time => a ≤ b) (clockReadings calls)) :
    (∀ s ∈ trace (startState initial) calls, s.after.lastState ≠ s.before.lastState →
      ∃ e, s.call.newState = some e ∧ normalizeState e.State ≠ s.before.lastState ∧
        s.before.lastChange + 5 * Second ≤ s.call.sinceNow ∧
        s.after.lastState = normalizeState e.State ∧
        s.after.lastChange = s.call.commitNow) ∧
    (∀ s ∈ trace (startState initial) calls, s.after.lastState = s.before.lastState →
      s.after = s.before) ∧
    List.Chain' (fun a b : Time => a + 5 * Second ≤ b)
      (commitTimes (trace (startState initial) calls)) ∧
    (∀ s ∈ trace (startState initial) calls, ∀ n ∈ s.sent,
      (s.before.lastState = PowerState.On ∧ s.after.lastState = PowerState.Off ∧
        n = Notification.PowerOff) ∨
      (s.before.lastState = PowerState.Off ∧ s.after.lastState = PowerState.On ∧
        n = Notification.PowerOn)) := by
  have hd : (startState initial).debounceTime = 5 * Second := by
    rcases initial with _ | ⟨_ | _⟩ <;> rfl
  refine ⟨?_, ?_, ?_, ?_⟩
  · intro s hs hchg
    obtain ⟨hsd, hafter, _, _⟩ := trace_step calls _ hd s hs
    rcases handleStateChange_outcome s.before s.call.sinceNow s.call.commitNow
      s.call.newState hsd with h | h
    · rw [h] at hafter
      exact absurd (by rw [hafter]) hchg
    · obtain ⟨e, he, hne, ht, hw⟩ := h
      rw [hw] at hafter
      exact ⟨e, he, hne, ht, by rw [hafter], by rw [hafter]⟩
  · intro s hs hsame
    obtain ⟨hsd, hafter, _, _⟩ := trace_step calls _ hd s hs
    rcases handleStateChange_outcome s.before s.call.sinceNow s.call.commitNow
      s.call.newState hsd with h | h
    · rw [h] at hafter
      exact hafter
    · obtain ⟨e, _, hne, _, hw⟩ := h
      rw [hw] at hafter
      rw [hafter] at hsame
      exact absurd hsame hne
  · have h := commitTimes_chain calls _ hd (clock_within_call calls hclock)
    have h1 : List.Chain' (fun a b : Time => a + 5 * Second ≤ b)
        ((startState initial).lastChange :: commitTimes (trace (startState initial) calls)) :=
      h
    exact h1.tail
  · intro s hs n hn
    obtain ⟨_, hafter, hsent, _⟩ := trace_step calls _ hd s hs
    rw [hsent] at hn
    rw [hafter]
    exact handleStateChange_sent _ _ _ _ n hn

/-- C7 on the multiple-transitions scenario: the clock is non-decreasing, the run commits
five times, ten seconds apart, and only the two flips between `On` and `Off` dispatch. -/
theorem run_invariant_witness :
    List.Chain' (fun a b : Time => a ≤ b) (clockReadings multipleTransitions) ∧
    (trace (startState none) multipleTransitions).map Step.sent =
      [[], [Notification.PowerOff], [Notification.PowerOn], [], []] ∧
    (commitTimes (trace (startState none) multipleTransitions)).length = 5 ∧
    List.Chain' (fun a b : Time => a + 5 * Second ≤ b)
      (commitTimes (trace (startState none) multipleTransitions)) :=
  ⟨by simp [multipleTransitions, clockReadings, baseTime, Second], by decide, by decide,
   (run_invariant none multipleTransitions
     (by simp [multipleTransitions, clockReadings, baseTime, Second])).2.2.1⟩

/-! ## Concurrent deliveries -/

/-- C8. Run back to back, the two atomic actions of a goroutine are `handleStateChange`;
but the read of `lastState` and the commit are two separate locked regions, so when two
goroutines carrying "off" both read before either commits, both commit and `PowerOff` is
dispatched twice for one transition, while one goroutine after the other dispatches it
once. -/
theorem concurrent_duplicate_dispatch :
    (∀ (w : Watcher) (sinceNow commitNow : Time) (newState : Option Entity),
      ((Goroutine.step (Goroutine.step w sinceNow (Goroutine.entered newState)).1 commitNow
          (Goroutine.step w sinceNow (Goroutine.entered newState)).2.1).1,
        (Goroutine.step w sinceNow (Goroutine.entered newState)).2.2 ++
        (Goroutine.step (Goroutine.step w sinceNow (Goroutine.entered newState)).1 commitNow
          (Goroutine.step w sinceNow (Goroutine.entered newState)).2.1).2.2) =
      handleStateChange w sinceNow commitNow newState) ∧
    (Pair.run racingPair
      [(true, baseTime + 10 * Second), (false, baseTime + 10 * Second),
       (true, baseTime + 10 * Second), (false, baseTime + 10 * Second)]).sent =
      [Notification.PowerOff, Notification.PowerOff] ∧
    (Pair.run racingPair
      [(true, baseTime + 10 * Second), (true, baseTime + 10 * Second),
       (false, baseTime + 10 * Second), (false, baseTime + 10 * Second)]).sent =
      [Notification.PowerOff] := by
  refine ⟨?_, by decide, by decide⟩
  intro w sinceNow commitNow newState
  cases newState with
  | none => rfl
  | some e =>
    by_cases h1 : normalizeState e.State = w.lastState
    · simp [Goroutine.step, handleStateChange, h1]
    · by_cases h2 : Since sinceNow w.lastChange < w.debounceTime
      · simp [Goroutine.step, handleStateChange, h1, h2]
      · by_cases h3 : w.lastState = PowerState.Unknown
        · have h4 : ¬ normalizeState e.State = PowerState.Unknown := h3 ▸ h1
          simp [Goroutine.step, handleStateChange, h2, h3, h4]
        · simp only [Goroutine.step, handleStateChange, h1, h2, h3, if_false,
            List.nil_append]
          cases normalizeState e.State <;> rfl

/-! ## Schedule tracking -/

/-- Truncation to the minute rounds down to a multiple of a minute since the zero time. -/
theorem Truncate_Minute_spec (x : Time) :
    Truncate x Minute ≤ x ∧ x < Truncate x Minute + Minute ∧ Truncate x Minute % Minute = 0 := by
  unfold Truncate Minute Second
  unfold Time Duration at *
  norm_num
  omega

/-- C9. `timesEqual a b` is true iff both pointers are nil, or both are non-nil and the
two instants truncated down to a whole minute are the same instant; it is false when
exactly one is nil.  14:30:00 and 14:30:30 are equal; 14:30:59 and 14:31:00 are not. -/
theorem timesEqual_minute (a b : Option Time) :
    (timesEqual a b = true ↔
      (a = none ∧ b = none) ∨
      ∃ x y, a = some x ∧ b = some y ∧ Truncate x Minute = Truncate y Minute) ∧
    (∀ x : Time, timesEqual none (some x) = false ∧ timesEqual (some x) none = false) ∧
    (∀ x : Time, Truncate x Minute ≤ x ∧ x < Truncate x Minute + Minute ∧
      Truncate x Minute % Minute = 0) ∧
    timesEqual (some baseTime) (some (baseTime + 30 * Second)) = true ∧
    timesEqual (some (baseTime + 59 * Second)) (some (baseTime + 60 * Second)) = false := by
  refine ⟨?_, fun x => ⟨rfl, rfl⟩, Truncate_Minute_spec, by decide, by decide⟩
  cases a <;> cases b <;> simp [timesEqual]

/-- C10. `handleScheduleChange` dispatches only for the sensor relevant to the power state
it read: a next-on change only while `lastState` is `Off`, a next-off change only while
it is `On`.  Whatever the old and new timestamps and the clock, a next-on change while
`On`, a next-off change while `Off`, and any change while `Unknown` dispatch nothing. -/
theorem schedule_relevance (cfg : Config)
    (GetScheduledTime : String → Except String (Option Time)) (w : Watcher)
    (sinceNow commitNow staleNow : Time) (scheduleType : String) (newState : Option Entity) :
    ((handleScheduleChange cfg GetScheduledTime w sinceNow commitNow staleNow scheduleType
        newState).2 ≠ [] →
      (scheduleType = "on" ∧ w.lastState = PowerState.Off) ∨
      (scheduleType = "off" ∧ w.lastState = PowerState.On)) ∧
    (scheduleType = "on" → w.lastState = PowerState.On →
      (handleScheduleChange cfg GetScheduledTime w sinceNow commitNow staleNow scheduleType
        newState).2 = []) ∧
    (scheduleType = "off" → w.lastState = PowerState.Off →
      (handleScheduleChange cfg GetScheduledTime w sinceNow commitNow staleNow scheduleType
        newState).2 = []) ∧
    (w.lastState = PowerState.Unknown →
      (handleScheduleChange cfg GetScheduledTime w sinceNow commitNow staleNow scheduleType
        newState).2 = []) := by
  have key : (handleScheduleChange cfg GetScheduledTime w sinceNow commitNow staleNow
      scheduleType newState).2 ≠ [] →
      (scheduleType = "on" ∧ w.lastState = PowerState.Off) ∨
      (scheduleType = "off" ∧ w.lastState = PowerState.On) := by
    intro hsent
    by_contra hrel
    have h1 : ¬ (scheduleType = "on" ∧ w.lastState = PowerState.Off) :=
      fun h => hrel (Or.inl h)
    have h2 : ¬ (scheduleType = "off" ∧ w.lastState = PowerState.On) :=
      fun h => hrel (Or.inr h)
    apply hsent
    cases newState with
    | none => rfl
    | some e =>
      simp only [handleScheduleChange, h1, h2, if_false]
      by_cases hdeb : Since sinceNow w.lastScheduleChange < w.debounceTime
      · simp only [hdeb, if_true]
      · simp only [hdeb, if_false]
        generalize GetScheduledTime _ = r
        cases r with
        | error _ => rfl
        | ok newTime =>
          simp only []
          generalize (if scheduleType = "on" then w.lastNextOnTime else w.lastNextOffTime) =
            oldTime
          by_cases heq : timesEqual oldTime newTime = true
          · simp only [heq, if_true]
          · simp only [heq]
            cases oldTime <;> simp
  refine ⟨key, ?_, ?_, ?_⟩
  · intro h1 h2
    by_contra h
    rcases key h with ⟨_, h3⟩ | ⟨h3, _⟩
    · rw [h2] at h3; cases h3
    · rw [h1] at h3; exact absurd h3 (by decide)
  · intro h1 h2
    by_contra h
    rcases key h with ⟨h3, _⟩ | ⟨_, h3⟩
    · rw [h1] at h3; exact absurd h3 (by decide)
    · rw [h2] at h3; cases h3
  · intro h2
    by_contra h
    rcases key h with ⟨_, h3⟩ | ⟨_, h3⟩ <;> (rw [h2] at h3; cases h3)

/-- C10 on a first next-on reading: it is dispatched while the power is `Off` and not
while it is `On`. -/
theorem schedule_relevance_witness :
    (handleScheduleChange exampleConfig exampleSchedule watcherOff (baseTime + 10 * Second)
      (baseTime + 10 * Second) (baseTime + 10 * Second) "on" (some nextOnChanged)).2 =
      [Notification.ScheduleChanged "on" none (some (baseTime + 180 * Minute))] ∧
    (handleScheduleChange exampleConfig exampleSchedule watcherOn (baseTime + 10 * Second)
      (baseTime + 10 * Second) (baseTime + 10 * Second) "on" (some nextOnChanged)).2 = [] :=
  ⟨by decide,
   (schedule_relevance exampleConfig exampleSchedule watcherOn (baseTime + 10 * Second)
      (baseTime + 10 * Second) (baseTime + 10 * Second) "on" (some nextOnChanged)).2.1
      rfl rfl⟩

/-! ## Commits and filters of `handleScheduleChange` -/

/-- Saturation of `Sub` never changes the outcome of the staleness comparisons. -/
theorem Since_stale_window (now t : Time) :
    (-Minute < Since now t ↔ -Minute < now - t) ∧
    (Since now t < 60 * Minute ↔ now - t < 60 * Minute) := by
  unfold Since Sub minDuration maxDuration Minute Second
  unfold Time Duration at *
  constructor <;> split_ifs <;> constructor <;> intro h <;> omega

/-- A debounced schedule event changes nothing, whatever the sensor would have read. -/
theorem handleScheduleChange_debounced (cfg : Config)
    (GetScheduledTime : String → Except String (Option Time)) (w : Watcher)
    (sinceNow commitNow staleNow : Time) (scheduleType : String) (newState : Option Entity)
    (hd : w.debounceTime = 5 * Second)
    (ht : sinceNow < w.lastScheduleChange + 5 * Second) :
    handleScheduleChange cfg GetScheduledTime w sinceNow commitNow staleNow scheduleType
      newState = (w, []) ∧
    fetchedSensors cfg w sinceNow scheduleType newState = [] := by
  have h3 := (Since_lt_five_seconds sinceNow w.lastScheduleChange).2 ht
  cases newState with
  | none => exact ⟨rfl, rfl⟩
  | some e => simp [handleScheduleChange, fetchedSensors, hd, h3]

/-- Once the debounce check passes and the fetch succeeds, the handler either drops the
event (timestamps equal at minute granularity) or commits and applies the two filters. -/
theorem handleScheduleChange_fetched (cfg : Config)
    (GetScheduledTime : String → Except String (Option Time)) (w : Watcher)
    (sinceNow commitNow staleNow : Time) (scheduleType : String) (e : Entity)
    (newTime : Option Time)
    (hd : w.debounceTime = 5 * Second)
    (ht : w.lastScheduleChange + 5 * Second ≤ sinceNow)
    (hget : GetScheduledTime (sensorIDFor cfg scheduleType) = Except.ok newTime) :
    handleScheduleChange cfg GetScheduledTime w sinceNow commitNow staleNow scheduleType
      (some e) =
    if timesEqual (storedTime w scheduleType) newTime then (w, [])
    else
      (commitSchedule w scheduleType newTime commitNow,
        if (scheduleType = "on" ∧ w.lastState = PowerState.Off) ∨
            (scheduleType = "off" ∧ w.lastState = PowerState.On) then
          match storedTime w scheduleType with
          | some old =>
            if -Minute < staleNow - old ∧ staleNow - old < 60 * Minute then []
            else [Notification.ScheduleChanged scheduleType (storedTime w scheduleType) newTime]
          | none => [Notification.ScheduleChanged scheduleType none newTime]
        else []) := by
  have h3 : ¬ Since sinceNow w.lastScheduleChange < 5 * Second :=
    fun h => absurd ((Since_lt_five_seconds sinceNow w.lastScheduleChange).1 h) (not_lt.mpr ht)
  unfold sensorIDFor at hget
  simp only [handleScheduleChange, hd, h3, if_false, hget, storedTime, commitSchedule]
  by_cases hon : scheduleType = "on"
  · subst hon
    by_cases heq : timesEqual w.lastNextOnTime newTime = true
    · simp [heq]
    · cases hl : w.lastState <;> cases ho : w.lastNextOnTime <;>
        simp_all [Since_stale_window]
      split_ifs <;> first | rfl | (exfalso; unfold Time Duration at *; omega)
  · by_cases heq : timesEqual w.lastNextOffTime newTime = true
    · simp [heq, hon]
    · by_cases hoff : scheduleType = "off"
      · subst hoff
        cases hl : w.lastState <;> cases ho : w.lastNextOffTime <;>
          simp_all [Since_stale_window]
        split_ifs <;> first | rfl | (exfalso; unfold Time Duration at *; omega)
      · cases ho : w.lastNextOffTime <;> simp_all

/-- C11. For a committed schedule change on the relevant sensor, the notification is
suppressed iff an old timestamp exists and `now - old` lies strictly between -1 minute and
+60 minutes; otherwise (no old timestamp, old at least 1 minute ahead, or old 60 minutes or
more in the past) exactly one `ScheduleChanged` is dispatched, carrying the schedule type,
the old and the new timestamp.  An old timestamp 30 minutes in the past is suppressed. -/
theorem schedule_staleness (cfg : Config)
    (GetScheduledTime : String → Except String (Option Time)) (w : Watcher)
    (sinceNow commitNow staleNow : Time) (scheduleType : String) (e : Entity)
    (newTime : Option Time)
    (hd : w.debounceTime = 5 * Second)
    (ht : w.lastScheduleChange + 5 * Second ≤ sinceNow)
    (hget : GetScheduledTime (sensorIDFor cfg scheduleType) = Except.ok newTime)
    (hchg : timesEqual (storedTime w scheduleType) newTime = false)
    (hrel : (scheduleType = "on" ∧ w.lastState = PowerState.Off) ∨
      (scheduleType = "off" ∧ w.lastState = PowerState.On)) :
    ((handleScheduleChange cfg GetScheduledTime w sinceNow commitNow staleNow scheduleType
        (some e)).2 = [] ↔
      ∃ old, storedTime w scheduleType = some old ∧
        -Minute < staleNow - old ∧ staleNow - old < 60 * Minute) ∧
    ((¬ ∃ old, storedTime w scheduleType = some old ∧
        -Minute < staleNow - old ∧ staleNow - old < 60 * Minute) →
      (handleScheduleChange cfg GetScheduledTime w sinceNow commitNow staleNow scheduleType
        (some e)).2 =
        [Notification.ScheduleChanged scheduleType (storedTime w scheduleType) newTime]) ∧
    (storedTime w scheduleType = none →
      (handleScheduleChange cfg GetScheduledTime w sinceNow commitNow staleNow scheduleType
        (some e)).2 = [Notification.ScheduleChanged scheduleType none newTime]) ∧
    (∀ old, storedTime w scheduleType = some old →
      staleNow - old ≤ -Minute ∨ 60 * Minute ≤ staleNow - old →
      (handleScheduleChange cfg GetScheduledTime w sinceNow commitNow staleNow scheduleType
        (some e)).2 = [Notification.ScheduleChanged scheduleType (some old) newTime]) ∧
    (∀ old, storedTime w scheduleType = some old → staleNow - old = 30 * Minute →
      (handleScheduleChange cfg GetScheduledTime w sinceNow commitNow staleNow scheduleType
        (some e)).2 = []) := by
  rw [handleScheduleChange_fetched cfg GetScheduledTime w sinceNow commitNow staleNow
    scheduleType e newTime hd ht hget]
  simp only [hchg, hrel, if_true, Bool.false_eq_true, if_false]
  cases ho : storedTime w scheduleType with
  | none => simp
  | some old0 =>
    simp only [Option.some.injEq, exists_eq_left', forall_eq']
    refine ⟨?_, ?_, ?_, ?_, ?_⟩
    · by_cases h : -Minute < staleNow - old0 ∧ staleNow - old0 < 60 * Minute
      · rw [if_pos h]; exact ⟨fun _ => h, fun _ => rfl⟩
      · rw [if_neg h]; exact ⟨fun h1 => List.noConfusion h1, fun h1 => absurd h1 h⟩
    · intro h; rw [if_neg h]
    · intro h; cases h
    · intro h
      have h1 : ¬ (-Minute < staleNow - old0 ∧ staleNow - old0 < 60 * Minute) := by
        unfold Time Duration at *; omega
      rw [if_neg h1]
    · intro h
      have h1 : -Minute < staleNow - old0 ∧ staleNow - old0 < 60 * Minute := by
        unfold Minute Second at *; unfold Time Duration at *; omega
      rw [if_pos h1]

/-- C11 on a next-on change while the power is `Off`: dispatched when the old time is three
hours ahead, suppressed when the old time lies 30 minutes in the past. -/
theorem schedule_staleness_witness :
    (handleScheduleChange exampleConfig laterSchedule watcherScheduled
      (baseTime + 10 * Second) (baseTime + 10 * Second) (baseTime + 10 * Second) "on"
      (some nextOnChanged)).2 =
      [Notification.ScheduleChanged "on" (some (baseTime + 180 * Minute))
        (some (baseTime + 240 * Minute))] ∧
    (handleScheduleChange exampleConfig laterSchedule watcherScheduled
      (baseTime + 210 * Minute) (baseTime + 210 * Minute) (baseTime + 210 * Minute) "on"
      (some nextOnChanged)).2 = [] :=
  ⟨(schedule_staleness exampleConfig laterSchedule watcherScheduled
      (baseTime + 10 * Second) (baseTime + 10 * Second) (baseTime + 10 * Second) "on"
      nextOnChanged (some (baseTime + 240 * Minute)) rfl (by decide) rfl (by decide)
      (Or.inl ⟨rfl, rfl⟩)).2.2.2.1 (baseTime + 180 * Minute) rfl (Or.inl (by decide)),
   (schedule_staleness exampleConfig laterSchedule watcherScheduled
      (baseTime + 210 * Minute) (baseTime + 210 * Minute) (baseTime + 210 * Minute) "on"
      nextOnChanged (some (baseTime + 240 * Minute)) rfl (by decide) rfl (by decide)
      (Or.inl ⟨rfl, rfl⟩)).2.2.2.2 (baseTime + 180 * Minute) rfl (by decide)⟩

/-- C12. An event arriving less than 5 s after `lastScheduleChange` is discarded before any
sensor is fetched: the watcher (both stored timestamps and `lastScheduleChange` included)
is unchanged and nothing is dispatched.  The timestamp is shared by both sensors: after a
committed change on one sensor, an event for the other sensor arriving within 5 s of the
commit is discarded, whatever that sensor reads. -/
theorem schedule_debounce_shared :
    (∀ (cfg : Config) (GetScheduledTime : String → Except String (Option Time))
      (w : Watcher) (sinceNow commitNow staleNow : Time) (scheduleType : String)
      (newState : Option Entity),
      w.debounceTime = 5 * Second → sinceNow < w.lastScheduleChange + 5 * Second →
      handleScheduleChange cfg GetScheduledTime w sinceNow commitNow staleNow scheduleType
        newState = (w, []) ∧
      fetchedSensors cfg w sinceNow scheduleType newState = []) ∧
    (∀ (cfg : Config) (firstRead secondRead : String → Except String (Option Time))
      (w : Watcher) (sinceNow commitNow staleNow laterSince laterCommit laterStale : Time)
      (first second : String) (e : Entity) (newState : Option Entity)
      (newTime : Option Time),
      (first = "on" ∧ second = "off") ∨ (first = "off" ∧ second = "on") →
      w.debounceTime = 5 * Second →
      w.lastScheduleChange + 5 * Second ≤ sinceNow →
      firstRead (sensorIDFor cfg first) = Except.ok newTime →
      timesEqual (storedTime w first) newTime = false →
      laterSince < commitNow + 5 * Second →
      (handleScheduleChange cfg firstRead w sinceNow commitNow staleNow first
        (some e)).1.lastScheduleChange = commitNow ∧
      storedTime (handleScheduleChange cfg firstRead w sinceNow commitNow staleNow first
        (some e)).1 first = newTime ∧
      handleScheduleChange cfg secondRead
        (handleScheduleChange cfg firstRead w sinceNow commitNow staleNow first (some e)).1
        laterSince laterCommit laterStale second newState =
        ((handleScheduleChange cfg firstRead w sinceNow commitNow staleNow first (some e)).1,
          []) ∧
      fetchedSensors cfg
        (handleScheduleChange cfg firstRead w sinceNow commitNow staleNow first (some e)).1
        laterSince second newState = []) := by
  refine ⟨?_, ?_⟩
  · intro cfg get w sinceNow commitNow staleNow scheduleType newState hd ht
    exact handleScheduleChange_debounced cfg get w sinceNow commitNow staleNow scheduleType
      newState hd ht
  · intro cfg firstRead secondRead w sinceNow commitNow staleNow laterSince laterCommit
      laterStale first second e newState newTime hpair hd ht hget hchg hl
    have hw : (handleScheduleChange cfg firstRead w sinceNow commitNow staleNow first
        (some e)).1 = commitSchedule w first newTime commitNow := by
      rw [handleScheduleChange_fetched cfg firstRead w sinceNow commitNow staleNow first e
        newTime hd ht hget]
      simp [hchg]
    have hlsc : (commitSchedule w first newTime commitNow).lastScheduleChange = commitNow := by
      unfold commitSchedule; split_ifs <;> rfl
    have hdeb : (commitSchedule w first newTime commitNow).debounceTime = 5 * Second := by
      unfold commitSchedule; split_ifs <;> exact hd
    have hst : storedTime (commitSchedule w first newTime commitNow) first = newTime := by
      unfold commitSchedule storedTime; split_ifs <;> rfl
    rw [hw]
    refine ⟨hlsc, hst, ?_⟩
    exact handleScheduleChange_debounced cfg secondRead _ laterSince laterCommit laterStale
      second newState hdeb (by rw [hlsc]; exact hl)

/-- C12 on a next-on change committed ten seconds after `watcherScheduled` was set up: a
next-off event two seconds after the commit is discarded although the next-off sensor
reads a new value, and the same event ten seconds after the commit is stored. -/
theorem schedule_debounce_shared_witness :
    handleScheduleChange exampleConfig laterSchedule
      (handleScheduleChange exampleConfig laterSchedule watcherScheduled
        (baseTime + 10 * Second) (baseTime + 10 * Second) (baseTime + 10 * Second) "on"
        (some nextOnChanged)).1
      (baseTime + 12 * Second) (baseTime + 12 * Second) (baseTime + 12 * Second) "off"
      (some nextOffChanged) =
      ((handleScheduleChange exampleConfig laterSchedule watcherScheduled
        (baseTime + 10 * Second) (baseTime + 10 * Second) (baseTime + 10 * Second) "on"
        (some nextOnChanged)).1, []) ∧
    (handleScheduleChange exampleConfig laterSchedule
      (handleScheduleChange exampleConfig laterSchedule watcherScheduled
        (baseTime + 10 * Second) (baseTime + 10 * Second) (baseTime + 10 * Second) "on"
        (some nextOnChanged)).1
      (baseTime + 20 * Second) (baseTime + 20 * Second) (baseTime + 20 * Second) "off"
      (some nextOffChanged)).1.lastNextOffTime = some (baseTime + 420 * Minute) :=
  ⟨(schedule_debounce_shared.2 exampleConfig laterSchedule laterSchedule watcherScheduled
      (baseTime + 10 * Second) (baseTime + 10 * Second) (baseTime + 10 * Second)
      (baseTime + 12 * Second) (baseTime + 12 * Second) (baseTime + 12 * Second)
      "on" "off" nextOnChanged (some nextOffChanged) (some (baseTime + 240 * Minute))
      (Or.inl ⟨rfl, rfl⟩) rfl (by decide) rfl (by decide) (by decide)).2.2.1,
   by decide⟩

/-- C13. After the debounce check has passed and the sensor has been fetched, the handler
commits iff the new timestamp differs from the stored one under `timesEqual`: it stores
the new timestamp for that sensor and sets `lastScheduleChange` to the commit time,
whatever the power state and the staleness of the old time, and leaves the other sensor's
timestamp, `lastState` and `lastChange` as they were.  When the two timestamps are equal at
minute granularity nothing is stored and nothing is dispatched. -/
theorem schedule_commit (cfg : Config)
    (GetScheduledTime : String → Except String (Option Time)) (w : Watcher)
    (sinceNow commitNow staleNow : Time) (scheduleType : String) (e : Entity)
    (newTime : Option Time)
    (hd : w.debounceTime = 5 * Second)
    (ht : w.lastScheduleChange + 5 * Second ≤ sinceNow)
    (hget : GetScheduledTime (sensorIDFor cfg scheduleType) = Except.ok newTime) :
    (timesEqual (storedTime w scheduleType) newTime = false →
      (scheduleType = "on" →
        (handleScheduleChange cfg GetScheduledTime w sinceNow commitNow staleNow scheduleType
          (some e)).1 =
          { w with lastNextOnTime := newTime, lastScheduleChange := commitNow }) ∧
      (scheduleType = "off" →
        (handleScheduleChange cfg GetScheduledTime w sinceNow commitNow staleNow scheduleType
          (some e)).1 =
          { w with lastNextOffTime := newTime, lastScheduleChange := commitNow })) ∧
    (timesEqual (storedTime w scheduleType) newTime = true →
      handleScheduleChange cfg GetScheduledTime w sinceNow commitNow staleNow scheduleType
        (some e) = (w, [])) := by
  rw [handleScheduleChange_fetched cfg GetScheduledTime w sinceNow commitNow staleNow
    scheduleType e newTime hd ht hget]
  refine ⟨?_, ?_⟩
  · intro hchg
    simp only [hchg, Bool.false_eq_true, if_false, commitSchedule]
    refine ⟨?_, ?_⟩
    · intro h; simp [h]
    · intro h; subst h; simp
  · intro heq
    simp [heq]

/-- C13 on `watcherScheduled`, whose power state is `Off`: a new next-off time is stored
although no notification is due, and a next-on reading in the stored minute changes
nothing. -/
theorem schedule_commit_witness :
    (handleScheduleChange exampleConfig laterSchedule watcherScheduled
      (baseTime + 10 * Second) (baseTime + 10 * Second) (baseTime + 10 * Second) "off"
      (some nextOffChanged)) =
      ({ watcherScheduled with
          lastNextOffTime := some (baseTime + 420 * Minute)
          lastScheduleChange := baseTime + 10 * Second }, []) ∧
    handleScheduleChange exampleConfig exampleSchedule watcherScheduled
      (baseTime + 10 * Second) (baseTime + 10 * Second) (baseTime + 10 * Second) "on"
      (some nextOnChanged) = (watcherScheduled, []) :=
  ⟨Prod.ext
    (((schedule_commit exampleConfig laterSchedule watcherScheduled
      (baseTime + 10 * Second) (baseTime + 10 * Second) (baseTime + 10 * Second) "off"
      nextOffChanged (some (baseTime + 420 * Minute)) rfl (by decide) rfl).1
      (by decide)).2 rfl)
    (by decide),
   (schedule_commit exampleConfig exampleSchedule watcherScheduled
      (baseTime + 10 * Second) (baseTime + 10 * Second) (baseTime + 10 * Second) "on"
      nextOnChanged (some (baseTime + 180 * Minute)) rfl (by decide) rfl).2 (by decide)⟩

/-! ## Fetching and parsing schedule sensors -/

/-- When every layout fails, the loop of `getScheduledTime` ends with an error. -/
theorem parseLoop_all_fail (Parse : String → String → Except String ParsedTime)
    (value : String) (layouts : List String) :
    layouts ≠ [] → (∀ layout ∈ layouts, ∃ err, Parse layout value = Except.error err) →
    ∀ acc, ∃ p err, parseLoop Parse value layouts acc = (p, some err) := by
  induction layouts with
  | nil => intro h; exact absurd rfl h
  | cons f rest ih =>
    intro _ hall acc
    obtain ⟨err, he⟩ := hall f (List.mem_cons_self _ _)
    by_cases hrest : rest = []
    · subst hrest
      exact ⟨{ instant := 0, offset := 0 }, err, by simp [parseLoop, he]⟩
    · obtain ⟨p, err1, h1⟩ :=
        ih hrest (fun l hl => hall l (List.mem_cons_of_mem _ hl))
          ({ instant := 0, offset := 0 }, some err)
      exact ⟨p, err1, by simp [parseLoop, he, h1]⟩

/-- C14, as stated, fails for the placeholder values: "unavailable" cannot be parsed under
any layout, yet `getScheduledTime` returns no time and no error for it, and
`handleScheduleChange` then replaces the stored next-on time by nil, sets
`lastScheduleChange` and dispatches a schedule notification. -/
theorem unavailable_sensor_is_committed :
    (∀ layout ∈ formats, ∃ err,
      (hubWith "unavailable" "off").Parse layout "unavailable" = Except.error err) ∧
    getScheduledTime utcService (hubWith "unavailable" "off") (baseTime + 10 * Second)
      "sensor.next_on" = Except.ok none ∧
    watcherScheduled.lastNextOnTime = some (baseTime + 180 * Minute) ∧
    handleScheduleChange exampleConfig
      (getScheduledTime utcService (hubWith "unavailable" "off") (baseTime + 10 * Second))
      watcherScheduled (baseTime + 10 * Second) (baseTime + 10 * Second)
      (baseTime + 10 * Second) "on" (some nextOnChanged) =
      ({ watcherScheduled with
          lastNextOnTime := none, lastScheduleChange := baseTime + 10 * Second },
        [Notification.ScheduleChanged "on" (some (baseTime + 180 * Minute)) none]) := by
  refine ⟨?_, by rfl, by decide, by decide⟩
  intro layout _
  exact ⟨"cannot parse", by simp [hubWith, exampleParse]⟩

/-- C14, amended. When fetching the sensor fails, or its value is none of "", "unknown",
"unavailable" and cannot be parsed under any of the supported layouts, `getScheduledTime`
returns an error and `handleScheduleChange` returns the watcher unchanged (both stored
timestamps and `lastScheduleChange` included) without dispatching; the handler has no
error result, so nothing is propagated. -/
theorem schedule_fetch_failure (s : Service) (env : Env) (w : Watcher)
    (sinceNow commitNow staleNow parseNow : Time) (scheduleType : String)
    (newState : Option Entity)
    (hfail : (∃ err, env.GetState (sensorIDFor s.config scheduleType) = Except.error err) ∨
      (∃ entity, env.GetState (sensorIDFor s.config scheduleType) = Except.ok entity ∧
        entity.State ≠ "" ∧ entity.State ≠ "unknown" ∧ entity.State ≠ "unavailable" ∧
        ∀ layout ∈ formats, ∃ err, env.Parse layout entity.State = Except.error err)) :
    (∃ err, getScheduledTime s env parseNow (sensorIDFor s.config scheduleType) =
      Except.error err) ∧
    handleScheduleChange s.config (getScheduledTime s env parseNow) w sinceNow commitNow
      staleNow scheduleType newState = (w, []) := by
  have herr : ∃ err, getScheduledTime s env parseNow (sensorIDFor s.config scheduleType) =
      Except.error err := by
    rcases hfail with ⟨err, h⟩ | ⟨entity, h, h1, h2, h3, hall⟩
    · exact ⟨"failed to get sensor state: " ++ err, by simp [getScheduledTime, h]⟩
    · obtain ⟨p, err, hp⟩ := parseLoop_all_fail env.Parse entity.State formats
        (by simp [formats]) hall ({ instant := 0, offset := 0 }, none)
      exact ⟨"failed to parse time '" ++ entity.State ++ "': " ++ err,
        by simp [getScheduledTime, h, h1, h2, h3, hp]⟩
  refine ⟨herr, ?_⟩
  obtain ⟨err, he⟩ := herr
  unfold sensorIDFor at he
  cases newState with
  | none => rfl
  | some e =>
    simp only [handleScheduleChange, he]
    split_ifs <;> rfl

/-- The amended C14 on a sensor that reads "soon": the value fails under every layout and
the next-on event leaves `watcherScheduled` as it was. -/
theorem schedule_fetch_failure_witness :
    handleScheduleChange utcService.config
      (getScheduledTime utcService (hubWith "soon" "off") (baseTime + 10 * Second))
      watcherScheduled (baseTime + 10 * Second) (baseTime + 10 * Second)
      (baseTime + 10 * Second) "on" (some nextOnChanged) = (watcherScheduled, []) :=
  (schedule_fetch_failure utcService (hubWith "soon" "off") watcherScheduled
    (baseTime + 10 * Second) (baseTime + 10 * Second) (baseTime + 10 * Second)
    (baseTime + 10 * Second) "on" (some nextOnChanged)
    (Or.inr ⟨{ EntityID := "sensor.next_on", State := "soon" }, rfl, by decide, by decide,
      by decide, fun layout _ => ⟨"cannot parse", by simp [hubWith, exampleParse]⟩⟩)).2

/-- The time of day read off a parsed time is a number of seconds within one day. -/
theorem ParsedTime.timeOfDay_bounds (p : ParsedTime) :
    0 ≤ p.Hour * 3600 + p.Minute * 60 + p.Second ∧
    p.Hour * 3600 + p.Minute * 60 + p.Second < 86400 := by
  unfold ParsedTime.Hour ParsedTime.Minute ParsedTime.Second
  generalize p.wallSeconds = ws
  omega

/-- In a location with a constant offset, `Date` subtracts that offset. -/
theorem Date_fixed_offset (loc : Location) (c : Duration)
    (hc : ∀ t, (loc.lookup t).offset = c) (dayStart : Time) (hour min sec : Int) :
    Date dayStart hour min sec loc = dayStart + (hour * 3600 + min * 60 + sec) * Second - c := by
  unfold Date
  simp only [hc]
  split_ifs with h1 h2
  · rfl
  · rfl
  · have h3 : c = 0 := not_not.mp h1
    rw [h3]; simp

/-- A value that only a time-of-day layout accepts leaves the loop with that parse. -/
theorem parseLoop_time_only (Parse : String → String → Except String ParsedTime)
    (value : String) (p : ParsedTime)
    (hdate : ∀ layout ∈ formats.take 5, ∃ err, Parse layout value = Except.error err)
    (htime : Parse "15:04:05" value = Except.ok p ∨
      ((∃ err, Parse "15:04:05" value = Except.error err) ∧
        Parse "15:04" value = Except.ok p)) :
    parseLoop Parse value formats ({ instant := 0, offset := 0 }, none) = (p, none) := by
  obtain ⟨e1, h1⟩ := hdate "2006-01-02T15:04:05Z07:00" (by simp [formats])
  obtain ⟨e2, h2⟩ := hdate "2006-01-02T15:04:05.000000+00:00" (by simp [formats])
  obtain ⟨e3, h3⟩ := hdate "2006-01-02T15:04:05+00:00" (by simp [formats])
  obtain ⟨e4, h4⟩ := hdate "2006-01-02T15:04:05" (by simp [formats])
  obtain ⟨e5, h5⟩ := hdate "2006-01-02 15:04:05" (by simp [formats])
  rcases htime with h6 | ⟨⟨e6, h6⟩, h7⟩
  · simp [parseLoop, formats, h1, h2, h3, h4, h5, h6]
  · simp [parseLoop, formats, h1, h2, h3, h4, h5, h6, h7]

/-- C15 fails on the code where the offset of the location changes during the day: in
Europe/Kyiv on 27 October 2024 at 23:30, after the clocks went back, the value "00:10"
(accepted by the layout "15:04" only) is not rolled forward to the next occurrence of
00:10: `getScheduledTime` adds 24 hours to the midnight-side instant of a 25-hour day and
returns 23:10 of the same day, 20 minutes before now. -/
theorem rolled_time_before_now :
    (∀ layout ∈ formats.take 6, ∃ err,
      (hubWith "00:10" "off").Parse layout "00:10" = Except.error err) ∧
    (∃ p, (hubWith "00:10" "off").Parse "15:04" "00:10" = Except.ok p ∧
      p.yearIsZero = true) ∧
    getScheduledTime kyivService (hubWith "00:10" "off") kyivEvening "sensor.next_on" =
      Except.ok (some (kyivEvening - 20 * Minute)) ∧
    kyivEvening - 20 * Minute < kyivEvening := by
  refine ⟨?_, ⟨_, rfl, by decide⟩, by rfl, by decide⟩
  intro layout hl
  refine ⟨"cannot parse", ?_⟩
  simp only [formats, List.take, List.mem_cons, List.mem_singleton, List.not_mem_nil,
    or_false] at hl
  rcases hl with h | h | h | h | h | h <;> subst h <;> rfl

/-- What `getScheduledTime` computes for a sensor value that only a time-of-day layout
("15:04:05" or "15:04") accepts: today's date in the configured location at that time of
day when this instant is not before now, and that instant plus 24 hours when it is before
now; in a location whose UTC offset is constant the result is never before now and less
than 24 hours after now.  A value whose parse carries a year other than 0 is returned as
parsed. -/
theorem time_of_day_schedule (s : Service) (env : Env) (now : Time) (sensorID : String)
    (entity : Entity)
    (hget : env.GetState sensorID = Except.ok entity)
    (hstate : entity.State ≠ "" ∧ entity.State ≠ "unknown" ∧ entity.State ≠ "unavailable") :
    (∀ p : ParsedTime,
      (∀ layout ∈ formats.take 5, ∃ err, env.Parse layout entity.State = Except.error err) →
      (env.Parse "15:04:05" entity.State = Except.ok p ∨
        ((∃ err, env.Parse "15:04:05" entity.State = Except.error err) ∧
          env.Parse "15:04" entity.State = Except.ok p)) →
      p.yearIsZero = true →
      getScheduledTime s env now sensorID =
        Except.ok (some
          (if Date (startOfDay (wallClock s.location now)) p.Hour p.Minute p.Second
              s.location < now then
            Date (startOfDay (wallClock s.location now)) p.Hour p.Minute p.Second
              s.location + 24 * Hour
          else
            Date (startOfDay (wallClock s.location now)) p.Hour p.Minute p.Second
              s.location)) ∧
      ∀ c : Duration, (∀ t, (s.location.lookup t).offset = c) →
        Date (startOfDay (wallClock s.location now)) p.Hour p.Minute p.Second s.location =
          startOfDay (now + c) + (p.Hour * 3600 + p.Minute * 60 + p.Second) * Second - c ∧
        ∃ r, getScheduledTime s env now sensorID = Except.ok (some r) ∧
          now ≤ r ∧ r < now + 24 * Hour) ∧
    (∀ p : ParsedTime,
      parseLoop env.Parse entity.State formats ({ instant := 0, offset := 0 }, none) =
        (p, none) →
      p.yearIsZero = false →
      getScheduledTime s env now sensorID = Except.ok (some p.instant)) := by
  obtain ⟨hs1, hs2, hs3⟩ := hstate
  refine ⟨?_, ?_⟩
  · intro p hdate htime hyear
    have hloop := parseLoop_time_only env.Parse entity.State p hdate htime
    have hres : getScheduledTime s env now sensorID =
        Except.ok (some
          (if Date (startOfDay (wallClock s.location now)) p.Hour p.Minute p.Second
              s.location < now then
            Date (startOfDay (wallClock s.location now)) p.Hour p.Minute p.Second
              s.location + 24 * Hour
          else
            Date (startOfDay (wallClock s.location now)) p.Hour p.Minute p.Second
              s.location)) := by
      simp only [getScheduledTime, hget, hs1, hs2, hs3, or_self, if_false, hloop, hyear,
        if_true]
      split_ifs <;> rfl
    refine ⟨hres, ?_⟩
    intro c hc
    have hdate1 := Date_fixed_offset s.location c hc (startOfDay (wallClock s.location now))
      p.Hour p.Minute p.Second
    have hwall : wallClock s.location now = now + c := by
      unfold wallClock; rw [hc]
    rw [hwall] at hdate1
    refine ⟨by rw [hwall]; exact hdate1, ?_⟩
    rw [hres, hwall, hdate1]
    obtain ⟨hlo, hhi⟩ := ParsedTime.timeOfDay_bounds p
    generalize p.Hour * 3600 + p.Minute * 60 + p.Second = tod at hlo hhi
    refine ⟨_, rfl, ?_⟩
    unfold startOfDay Day Hour Minute Second
    unfold Time Duration at *
    split_ifs <;> constructor <;> omega
  · intro p hloop hyear
    simp [getScheduledTime, hget, hs1, hs2, hs3, hloop, hyear]

/-- In UTC, read at 14:30, "17:30" is today's 17:30, three hours ahead. -/
theorem time_of_day_schedule_witness :
    getScheduledTime utcService (hubWith "17:30" "off") baseTime "sensor.next_on" =
      Except.ok (some (baseTime + 180 * Minute)) ∧
    ∃ r, getScheduledTime utcService (hubWith "17:30" "off") baseTime "sensor.next_on" =
        Except.ok (some r) ∧ baseTime ≤ r ∧ r < baseTime + 24 * Hour :=
  ⟨by rfl,
   (((time_of_day_schedule utcService (hubWith "17:30" "off") baseTime "sensor.next_on"
      { EntityID := "sensor.next_on", State := "17:30" } rfl
      ⟨by decide, by decide, by decide⟩).1
      { instant := -(366 * Day) + 17 * Hour + 30 * Minute, offset := 0 }
      (fun layout hl => ⟨"cannot parse", by
        simp only [formats, List.take, List.mem_cons, List.mem_singleton, List.not_mem_nil,
          or_false] at hl
        rcases hl with h | h | h | h | h <;> subst h <;> rfl⟩)
      (Or.inr ⟨⟨"cannot parse", rfl⟩, rfl⟩) (by decide)).2 0 (fun _ => rfl)).2⟩

/-! ## Pause flag and delivery -/

/-- C16. When the pause entity is fetched and its state is "on", `NotifyPowerOn`,
`NotifyPowerOff` and `NotifyScheduleChanged` hand no message to the send interface and
return nil; a qualifying `On` to `Off` transition handled while paused still commits
`lastState = Off`, and delivering what it dispatched sends no message. -/
theorem paused_sends_nothing (s : Service) (env : Env) (now parseNow : Time)
    (log : List Message) (pause : Entity)
    (hid : s.config.PauseEntityID ≠ "")
    (hget : env.GetState s.config.PauseEntityID = Except.ok pause)
    (hon : pause.State = "on") :
    NotifyPowerOn s env now parseNow log = (log, none) ∧
    NotifyPowerOff s env now parseNow log = (log, none) ∧
    (∀ (scheduleType : String) (oldTime newTime : Option Time),
      NotifyScheduleChanged s env now scheduleType oldTime newTime log = (log, none)) ∧
    (∀ (w : Watcher) (sinceNow commitNow : Time) (e : Entity),
      w.debounceTime = 5 * Second → w.lastState = PowerState.On →
      normalizeState e.State = PowerState.Off → w.lastChange + 5 * Second ≤ sinceNow →
      (handleStateChange w sinceNow commitNow (some e)).1.lastState = PowerState.Off ∧
      (handleStateChange w sinceNow commitNow (some e)).2 = [Notification.PowerOff] ∧
      deliverAll s env now parseNow log (handleStateChange w sinceNow commitNow (some e)).2 =
        log) := by
  have hp : isPaused s env = true := by
    simp [isPaused, hid, hget, hon]
  have hoff : NotifyPowerOff s env now parseNow log = (log, none) := by
    simp [NotifyPowerOff, hp]
  refine ⟨by simp [NotifyPowerOn, hp], hoff, ?_, ?_⟩
  · intro scheduleType oldTime newTime
    simp [NotifyScheduleChanged, hp]
  · intro w sinceNow commitNow e hd hs hn ht
    have h3 : ¬ Since sinceNow w.lastChange < 5 * Second :=
      fun h => absurd ((Since_lt_five_seconds sinceNow w.lastChange).1 h) (not_lt.mpr ht)
    have hr : (handleStateChange w sinceNow commitNow (some e)).2 =
        [Notification.PowerOff] := by
      simp [handleStateChange, hs, hn, hd, h3]
    refine ⟨by simp [handleStateChange, hs, hn, hd, h3], hr, ?_⟩
    rw [hr]
    simp [deliverAll, deliver, hoff]

/-- C16 on the pause switch of `exampleConfig`: while it reads "on" the transition of
`watcherOn` to `Off` sends nothing; while it reads "off" the same transition sends one
message. -/
theorem paused_sends_nothing_witness :
    deliverAll utcService (hubWith "17:30" "on") (baseTime + 10 * Second)
      (baseTime + 10 * Second) []
      (handleStateChange watcherOn (baseTime + 10 * Second) (baseTime + 10 * Second)
        (some powerOff)).2 = [] ∧
    (deliverAll utcService (hubWith "17:30" "off") (baseTime + 10 * Second)
      (baseTime + 10 * Second) []
      (handleStateChange watcherOn (baseTime + 10 * Second) (baseTime + 10 * Second)
        (some powerOff)).2).length = 1 :=
  ⟨((paused_sends_nothing utcService (hubWith "17:30" "on") (baseTime + 10 * Second)
      (baseTime + 10 * Second) []
      { EntityID := "input_boolean.pause_power_notifications", State := "on" }
      (by decide) rfl rfl).2.2.2 watcherOn (baseTime + 10 * Second)
      (baseTime + 10 * Second) powerOff rfl rfl (by decide) (by decide)).2.2,
   by decide⟩

/-- The loop of `sendToAllChats` hands one message per target to the bot, in order, and
keeps the error of the last failed send. -/
theorem sendLoop_spec (env : Env) (text : String) (ids : List Int) :
    ∀ (log : List Message) (lastErr : Option String),
      sendLoop env text ids log lastErr =
        (log ++ ids.map (fun chatID => { ChatID := chatID, Text := text, ParseMode := "Markdown" }),
          (((sendOutcomes env text ids log).filterMap id).getLast?).or lastErr) := by
  induction ids with
  | nil => intro log lastErr; simp [sendLoop, sendOutcomes]
  | cons chatID rest ih =>
    intro log lastErr
    simp only [sendLoop, sendOutcomes, List.map_cons]
    cases hsend : env.Send log { ChatID := chatID, Text := text, ParseMode := "Markdown" } with
    | none =>
      simp only [ih, List.append_assoc, List.singleton_append, List.filterMap_cons, id]
    | some err =>
      simp only [ih, List.append_assoc, List.singleton_append, List.filterMap_cons, id,
        List.getLast?_cons]
      cases (List.filterMap id (sendOutcomes env text rest
        (log ++ [{ ChatID := chatID, Text := text, ParseMode := "Markdown" }]))).getLast? <;>
        simp

/-- The i-th outcome is what the bot returned for the i-th target after the earlier
targets had been sent to. -/
theorem sendOutcomes_get (env : Env) (text : String) (ids : List Int) :
    ∀ (log : List Message) (i : Nat),
      (sendOutcomes env text ids log).get? i =
        (ids.get? i).map (fun chatID =>
          env.Send
            (log ++ (ids.take i).map
              (fun c => { ChatID := c, Text := text, ParseMode := "Markdown" }))
            { ChatID := chatID, Text := text, ParseMode := "Markdown" }) := by
  induction ids with
  | nil => intro log i; simp [sendOutcomes]
  | cons chatID rest ih =>
    intro log i
    cases i with
    | zero => simp [sendOutcomes]
    | succ j =>
      simp only [sendOutcomes, List.get?_cons_succ, List.take_succ_cons, List.map_cons]
      rw [ih]
      simp [List.append_assoc]

/-- C17. `sendToAllChats` hands exactly one message per configured target to the bot, in
list order, whatever the earlier sends returned; it returns nil iff every send succeeded
and otherwise the error of the last target whose send failed. -/
theorem sendToAllChats_all_targets (s : Service) (env : Env) (log : List Message)
    (text : String) :
    (sendToAllChats s env log text).1 =
      log ++ s.config.NotificationChatIDs.map
        (fun chatID => { ChatID := chatID, Text := text, ParseMode := "Markdown" }) ∧
    (∀ i : Nat,
      (sendOutcomes env text s.config.NotificationChatIDs log).get? i =
        (s.config.NotificationChatIDs.get? i).map (fun chatID =>
          env.Send
            (log ++ (s.config.NotificationChatIDs.take i).map
              (fun c => { ChatID := c, Text := text, ParseMode := "Markdown" }))
            { ChatID := chatID, Text := text, ParseMode := "Markdown" })) ∧
    ((sendToAllChats s env log text).2 = none ↔
      ∀ o ∈ sendOutcomes env text s.config.NotificationChatIDs log, o = none) ∧
    (sendToAllChats s env log text).2 =
      ((sendOutcomes env text s.config.NotificationChatIDs log).filterMap id).getLast? := by
  have h := sendLoop_spec env text s.config.NotificationChatIDs log none
  unfold sendToAllChats
  rw [h]
  refine ⟨rfl, sendOutcomes_get env text _ log, ?_, by simp⟩
  simp only [Option.or_none, List.getLast?_eq_none_iff, List.filterMap_eq_nil_iff, id]

/-- C17 on three targets of which the second cannot be reached: all three are tried and
the error of the second is returned. -/
theorem sendToAllChats_all_targets_witness :
    sendToAllChats threeChats (hubWith "17:30" "off") [] "text" =
      ([{ ChatID := 1, Text := "text", ParseMode := "Markdown" },
        { ChatID := 2, Text := "text", ParseMode := "Markdown" },
        { ChatID := 3, Text := "text", ParseMode := "Markdown" }],
        some "Forbidden: bot was blocked") :=
  Prod.ext (sendToAllChats_all_targets threeChats (hubWith "17:30" "off") [] "text").1
    (by decide)

/-! ## Rendering of durations -/

/-- C18 fails on the code at durations just below a whole hour from 4097 hours on: one
nanosecond less than 4097 hours has 4096 whole hours and 59 minutes, but `float64`
rounding in `Duration.Hours` yields 4097.0 and `formatDuration` prints 4097 hours;
one nanosecond less than 5000 hours prints as 5000 hours and no minutes.  One nanosecond
less than 4096 hours still prints its 4095 whole hours, every negative duration prints as
unknown, and ordinary durations print as C18 states. -/
theorem formatDuration_rounds_up_hours :
    0 ≤ 4097 * Hour - 1 ∧
    (4097 * Hour - 1) / Hour = 4096 ∧
    (4097 * Hour - 1) / Minute % 60 = 59 ∧
    formatDuration (4097 * Hour - 1) = "4097 год 59 хв" ∧
    formatDuration (5000 * Hour - 1) = "5000 год" ∧
    formatDuration (4096 * Hour - 1) = "4095 год 59 хв" ∧
    (∀ d : Duration, d < 0 → formatDuration d = "невідомо") ∧
    formatDuration (45 * Minute + 59 * Second) = "45 хв" ∧
    formatDuration (2 * Hour) = "2 год" ∧
    formatDuration (90 * Minute) = "1 год 30 хв" := by
  refine ⟨by decide, by decide, by decide, by decide, by decide, by decide, ?_, by decide,
    by decide, by decide⟩
  intro d hd
  simp [formatDuration, hd]

/-! ## Reconnection delay -/

/-- The waits of a run distribute over concatenated calls. -/
theorem sleeps_append (a b : List Action) : sleeps (a ++ b) = sleeps a ++ sleeps b := by
  induction a with
  | nil => rfl
  | cons x rest ih => cases x <;> simp [sleeps, ih]

/-- A value in the signed 64-bit range is unchanged by wrapping. -/
theorem wrapInt64_of_range (x : Int) (hlo : -(2 ^ 63) ≤ x) (hhi : x < 2 ^ 63) :
    wrapInt64 x = x := by
  unfold wrapInt64
  omega

/-- Doubling a capped delay gives the next capped delay; the product never wraps. -/
theorem minDelay_double (i : Nat) :
    minDelay (wrapInt64 (min (5 * Second * 2 ^ i) (300 * Second) * 2)) (5 * Minute) =
      min (5 * Second * 2 ^ (i + 1)) (300 * Second) := by
  have hpos : (1 : Int) ≤ 2 ^ i := by exact_mod_cast Nat.one_le_two_pow
  rw [pow_succ]
  generalize (2 : Int) ^ i = x at hpos
  have hw : wrapInt64 (min (5 * Second * x) (300 * Second) * 2) =
      min (5 * Second * x) (300 * Second) * 2 := by
    apply wrapInt64_of_range <;> rw [min_def] <;> unfold Second <;> unfold Duration at * <;>
      split_ifs <;> omega
  rw [hw, min_def, min_def]
  unfold minDelay Minute Second
  unfold Duration at *
  split_ifs <;> omega

/-- After `errs.length` failed connects in a row the waits follow the capped doubling. -/
theorem runLoop_connect_failures (c : WSClient) (hmax : c.maxReconnect = 5 * Minute)
    (errs : List String) :
    ∀ j : Nat,
      sleeps (runLoop c (min (5 * Second * 2 ^ j) (300 * Second))
        (errs.map Attempt.connectFailed)).actions =
        (List.range errs.length).map (fun i => min (5 * Second * 2 ^ (j + i)) (300 * Second)) ∧
      (runLoop c (min (5 * Second * 2 ^ j) (300 * Second))
        (errs.map Attempt.connectFailed)).returned = none := by
  induction errs with
  | nil => intro j; simp [runLoop, sleeps]
  | cons e rest ih =>
    intro j
    obtain ⟨h1, h2⟩ := ih (j + 1)
    simp only [List.map_cons, runLoop, hmax, minDelay_double, sleeps, h1, h2,
      List.length_cons, List.range_succ_eq_map, List.map_cons, List.map_map, and_true,
      Nat.add_zero]
    congr 1
    apply List.map_congr_left
    intro i _
    simp [Nat.add_assoc, Nat.add_comm 1 i]

/-- A run that has not returned continues with the delay it reached. -/
theorem runLoop_append (c : WSClient) (pre rest : List Attempt) :
    ∀ delay : Duration, (runLoop c delay pre).returned = none →
      runLoop c delay (pre ++ rest) =
        { actions := (runLoop c delay pre).actions ++
            (runLoop c (runLoop c delay pre).delay rest).actions
          delay := (runLoop c (runLoop c delay pre).delay rest).delay
          returned := (runLoop c (runLoop c delay pre).delay rest).returned } := by
  induction pre with
  | nil => intro delay _; simp [runLoop]
  | cons a tail ih =>
    intro delay h
    cases a <;> simp only [runLoop, List.cons_append, List.append_eq] at h ⊢ <;>
      first
        | exact absurd h (by simp)
        | rw [ih _ h]

/-- A run that has not returned and whose last pass was not a failed connect continues
with the base delay. -/
theorem runLoop_delay_reset (c : WSClient) (pre : List Attempt) :
    ∀ delay : Duration, (runLoop c delay pre).returned = none → pre ≠ [] →
      (∀ err, pre.getLast? ≠ some (Attempt.connectFailed err)) →
      (runLoop c delay pre).delay = c.reconnectDelay := by
  induction pre with
  | nil => intro delay _ h; exact absurd rfl h
  | cons a tail ih =>
    intro delay hret _ hlast
    by_cases htail : tail = []
    · subst htail
      cases a with
      | connectFailed err => exact absurd rfl (hlast err)
      | cancelled err => simp [runLoop] at hret
      | stopped => simp [runLoop] at hret
      | subscribeFailed err => simp [runLoop]
      | listenFailed err => simp [runLoop]
      | listenEnded => simp [runLoop]
    · have hlast1 : ∀ err, tail.getLast? ≠ some (Attempt.connectFailed err) := by
        intro err h
        apply hlast err
        rw [List.getLast?_cons, h]; rfl
      cases a with
      | cancelled err => simp [runLoop] at hret
      | stopped => simp [runLoop] at hret
      | connectFailed err =>
        simp only [runLoop] at hret ⊢
        exact ih _ hret htail hlast1
      | subscribeFailed err =>
        simp only [runLoop] at hret ⊢
        exact ih _ hret htail hlast1
      | listenFailed err =>
        simp only [runLoop] at hret ⊢
        exact ih _ hret htail hlast1
      | listenEnded =>
        simp only [runLoop] at hret ⊢
        exact ih _ hret htail hlast1

/-- The delay and every wait stay between the base and the ceiling. -/
theorem runLoop_delay_bounds (c : WSClient) (hbase : c.reconnectDelay = 5 * Second)
    (hmax : c.maxReconnect = 5 * Minute) (attempts : List Attempt) :
    ∀ delay : Duration, 5 * Second ≤ delay → delay ≤ 300 * Second →
      (5 * Second ≤ (runLoop c delay attempts).delay ∧
        (runLoop c delay attempts).delay ≤ 300 * Second) ∧
      ∀ d ∈ sleeps (runLoop c delay attempts).actions, 5 * Second ≤ d ∧ d ≤ 300 * Second := by
  have hb : (5 : Int) * Second ≤ 5 * Second ∧ (5 : Int) * Second ≤ 300 * Second := by
    unfold Second; unfold Duration; omega
  induction attempts with
  | nil => intro delay h1 h2; simp [runLoop, sleeps, h1, h2]
  | cons a rest ih =>
    intro delay h1 h2
    cases a with
    | cancelled err => simp [runLoop, sleeps, h1, h2]
    | stopped => simp [runLoop, sleeps, h1, h2]
    | connectFailed err =>
      have hnext : 5 * Second ≤ minDelay (wrapInt64 (delay * 2)) (5 * Minute) ∧
          minDelay (wrapInt64 (delay * 2)) (5 * Minute) ≤ 300 * Second := by
        unfold minDelay wrapInt64 Minute Second at *
        unfold Duration at *
        norm_num at *
        split_ifs <;> omega
      obtain ⟨hd, hs⟩ := ih _ hnext.1 hnext.2
      simp only [runLoop, hmax, sleeps, List.mem_cons]
      refine ⟨hd, ?_⟩
      intro d hdm
      rcases hdm with h | h
      · rw [h]; exact ⟨h1, h2⟩
      · exact hs d h
    | subscribeFailed err =>
      obtain ⟨hd, hs⟩ := ih (5 * Second) hb.1 hb.2
      simpa [runLoop, hbase, sleeps] using And.intro hd hs
    | listenFailed err =>
      obtain ⟨hd, hs⟩ := ih (5 * Second) hb.1 hb.2
      simpa [runLoop, hbase, sleeps] using And.intro hd hs
    | listenEnded =>
      obtain ⟨hd, hs⟩ := ih (5 * Second) hb.1 hb.2
      simpa [runLoop, hbase, sleeps] using And.intro hd hs

/-- C19. In `RunWithReconnect` on a client made by `NewWSClient` the delay starts at 5 s and
doubles after each failed connection attempt up to 5 minutes: the wait after the k-th
consecutive failure, counted from the start of the run or from the last pass whose connect
succeeded, is `min (5 s * 2 ^ (k - 1)) (300 s)`, i.e. 5, 10, 20, 40, 80, 160, 300, 300
seconds; and after any number of passes of any run the delay, like every wait made, lies
between 5 s and 300 s. -/
theorem reconnect_backoff (baseURL token : String) :
    (∀ errs : List String,
      sleeps (RunWithReconnect (NewWSClient baseURL token)
        (errs.map Attempt.connectFailed)).actions =
        (List.range errs.length).map (fun i => min (5 * Second * 2 ^ i) (300 * Second))) ∧
    (∀ (pre : List Attempt) (errs : List String),
      (RunWithReconnect (NewWSClient baseURL token) pre).returned = none →
      (∀ err, pre.getLast? ≠ some (Attempt.connectFailed err)) →
      sleeps (RunWithReconnect (NewWSClient baseURL token)
        (pre ++ errs.map Attempt.connectFailed)).actions =
        sleeps (RunWithReconnect (NewWSClient baseURL token) pre).actions ++
          (List.range errs.length).map (fun i => min (5 * Second * 2 ^ i) (300 * Second))) ∧
    (List.range 8).map (fun i => min (5 * Second * 2 ^ i) (300 * Second)) =
      [5 * Second, 10 * Second, 20 * Second, 40 * Second, 80 * Second, 160 * Second,
        300 * Second, 300 * Second] ∧
    (∀ attempts : List Attempt,
      5 * Second ≤ (RunWithReconnect (NewWSClient baseURL token) attempts).delay ∧
      (RunWithReconnect (NewWSClient baseURL token) attempts).delay ≤ 300 * Second ∧
      ∀ d ∈ sleeps (RunWithReconnect (NewWSClient baseURL token) attempts).actions,
        5 * Second ≤ d ∧ d ≤ 300 * Second) := by
  have hstart : (5 : Int) * Second = min (5 * Second * 2 ^ 0) (300 * Second) := by
    unfold Second; unfold Duration; decide
  have hfail : ∀ errs : List String,
      sleeps (runLoop (NewWSClient baseURL token) (5 * Second)
        (errs.map Attempt.connectFailed)).actions =
        (List.range errs.length).map (fun i => min (5 * Second * 2 ^ i) (300 * Second)) := by
    intro errs
    have h := (runLoop_connect_failures (NewWSClient baseURL token) rfl errs 0).1
    rw [← hstart] at h
    simpa using h
  refine ⟨hfail, ?_, by decide, ?_⟩
  · intro pre errs hret hlast
    unfold RunWithReconnect at hret ⊢
    rw [runLoop_append _ pre _ _ hret]
    simp only [sleeps_append]
    congr 1
    by_cases hpre : pre = []
    · subst hpre
      exact hfail errs
    · rw [runLoop_delay_reset _ pre _ hret hpre hlast]
      exact hfail errs
  · intro attempts
    have hb : (5 : Int) * Second ≤ 5 * Second ∧ (5 : Int) * Second ≤ 300 * Second := by
      unfold Second; unfold Duration; omega
    obtain ⟨⟨h1, h2⟩, h3⟩ :=
      runLoop_delay_bounds (NewWSClient baseURL token) rfl rfl attempts (5 * Second) hb.1 hb.2
    exact ⟨h1, h2, h3⟩

/-- C19 on nine failed connects followed by a pass that connects and three more failures:
the waits are 5, 10, 20, 40, 80, 160, 300, 300, 300 and then 5, 10, 20 seconds. -/
theorem reconnect_backoff_witness :
    sleeps (RunWithReconnect (NewWSClient "http://supervisor/core/api" "token")
      ((List.replicate 9 "dial tcp: connection refused").map Attempt.connectFailed ++
        Attempt.listenFailed "read error" ::
        (List.replicate 3 "dial tcp: connection refused").map Attempt.connectFailed)).actions =
      [5 * Second, 10 * Second, 20 * Second, 40 * Second, 80 * Second, 160 * Second,
        300 * Second, 300 * Second, 300 * Second, 5 * Second, 10 * Second, 20 * Second] ∧
    sleeps (RunWithReconnect (NewWSClient "http://supervisor/core/api" "token")
      ((List.replicate 3 "dial tcp: connection refused").map Attempt.connectFailed)).actions =
      (List.range 3).map (fun i => min (5 * Second * 2 ^ i) (300 * Second)) :=
  ⟨by decide,
   (reconnect_backoff "http://supervisor/core/api" "token").1
     (List.replicate 3 "dial tcp: connection refused")⟩

/-- C20, as stated, fails: after two failed connects the delay is 20 s; a pass that
connects and authenticates but whose subscription fails resets it to 5 s, and the next
failed connect waits 5 s, not 20 s. -/
theorem subscribe_failure_resets_delay :
    (RunWithReconnect (NewWSClient "http://supervisor/core/api" "token")
      [Attempt.connectFailed "refused", Attempt.connectFailed "refused"]).delay =
      20 * Second ∧
    (RunWithReconnect (NewWSClient "http://supervisor/core/api" "token")
      [Attempt.connectFailed "refused", Attempt.connectFailed "refused",
        Attempt.subscribeFailed "subscription failed: unknown error"]).delay = 5 * Second ∧
    sleeps (RunWithReconnect (NewWSClient "http://supervisor/core/api" "token")
      [Attempt.connectFailed "refused", Attempt.connectFailed "refused",
        Attempt.subscribeFailed "subscription failed: unknown error",
        Attempt.connectFailed "refused"]).actions =
      [5 * Second, 10 * Second, 5 * Second] := by
  decide

/-- C20, amended. `RunWithReconnect` resets the delay to the 5 s base exactly in the passes
in which `Connect` succeeds (connection and authentication), before the subscription is
attempted: such a pass continues with 5 s whether the subscription or the listening then
fails or not, a pass whose connect fails continues with the doubled, capped delay, which is
never 5 s, and a pass that finds the run cancelled or stopped leaves the delay alone. -/
theorem delay_reset_on_connect (baseURL token : String) (delay : Duration) (a : Attempt)
    (hlo : 5 * Second ≤ delay) (hhi : delay ≤ 300 * Second) :
    (((∃ err, a = Attempt.subscribeFailed err) ∨ (∃ err, a = Attempt.listenFailed err) ∨
        a = Attempt.listenEnded) →
      (runLoop (NewWSClient baseURL token) delay [a]).delay = 5 * Second) ∧
    ((∃ err, a = Attempt.connectFailed err) →
      (runLoop (NewWSClient baseURL token) delay [a]).delay = min (delay * 2) (300 * Second) ∧
      (runLoop (NewWSClient baseURL token) delay [a]).delay ≠ 5 * Second) ∧
    (((∃ err, a = Attempt.cancelled err) ∨ a = Attempt.stopped) →
      (runLoop (NewWSClient baseURL token) delay [a]).delay = delay ∧
      (runLoop (NewWSClient baseURL token) delay [a]).returned ≠ none) := by
  refine ⟨?_, ?_, ?_⟩
  · rintro (⟨err, h⟩ | ⟨err, h⟩ | h) <;> subst h <;> rfl
  · rintro ⟨err, h⟩
    subst h
    have hw : wrapInt64 (delay * 2) = delay * 2 := by
      apply wrapInt64_of_range <;> unfold Second at * <;> unfold Duration at * <;> omega
    simp only [runLoop, NewWSClient, hw]
    rw [min_def]
    unfold minDelay Minute Second at *
    unfold Duration at *
    constructor <;> split_ifs <;> omega
  · rintro (⟨err, h⟩ | h) <;> subst h <;> simp [runLoop]

/-- The amended C20 on a delay of 20 s: a failed subscription continues with 5 s, a failed
connect with 40 s. -/
theorem delay_reset_on_connect_witness :
    (runLoop (NewWSClient "http://supervisor/core/api" "token") (20 * Second)
      [Attempt.subscribeFailed "subscription failed: unknown error"]).delay = 5 * Second ∧
    (runLoop (NewWSClient "http://supervisor/core/api" "token") (20 * Second)
      [Attempt.connectFailed "refused"]).delay = min (20 * Second * 2) (300 * Second) :=
  ⟨(delay_reset_on_connect "http://supervisor/core/api" "token" (20 * Second)
      (Attempt.subscribeFailed "subscription failed: unknown error") (by decide)
      (by decide)).1 (Or.inl ⟨_, rfl⟩),
   ((delay_reset_on_connect "http://supervisor/core/api" "token" (20 * Second)
      (Attempt.connectFailed "refused") (by decide) (by decide)).2.1 ⟨_, rfl⟩).1⟩

/-! ## Passes of the reconnect loop -/

/-- C21 fails on the code: only a failed connect is followed by a wait.  A hub that accepts
the token and rejects the subscription makes the pass end in a failed subscription; after
it, and after a failed `Listen`, `RunWithReconnect` calls `Close` and connects again at
once, so any number of failed subscriptions in a row makes no wait at all, while two
failed connects wait 5 s and 10 s. -/
theorem failed_subscription_retries_at_once :
    attemptOf (emptyRegistry String) freshLink
      { head := none, dial := Except.ok rejectingHub, signals := [] } =
      Attempt.subscribeFailed "subscription failed: unknown error" ∧
    (RunWithReconnect freshLink.client
      [Attempt.subscribeFailed "subscription failed: unknown error",
        Attempt.subscribeFailed "subscription failed: unknown error",
        Attempt.connectFailed "refused"]).actions =
      [Action.connect, Action.subscribe, Action.close,
        Action.connect, Action.subscribe, Action.close,
        Action.connect, Action.sleep (5 * Second)] ∧
    (RunWithReconnect freshLink.client
      [Attempt.listenFailed "read error: unexpected EOF", Attempt.connectFailed "refused"]).actions =
      [Action.connect, Action.subscribe, Action.listen, Action.close,
        Action.connect, Action.sleep (5 * Second)] ∧
    (RunWithReconnect freshLink.client
      [Attempt.connectFailed "refused", Attempt.connectFailed "refused"]).actions =
      [Action.connect, Action.sleep (5 * Second), Action.connect, Action.sleep (10 * Second)] ∧
    (∀ (c : WSClient) (errs : List String),
      sleeps (RunWithReconnect c (errs.map Attempt.subscribeFailed)).actions = [] ∧
      (RunWithReconnect c (errs.map Attempt.subscribeFailed)).actions.count Action.connect =
        errs.length) := by
  refine ⟨by decide, by decide, by decide, by decide, ?_⟩
  intro c errs
  unfold RunWithReconnect
  generalize c.reconnectDelay = d
  induction errs generalizing d with
  | nil => simp [runLoop, sleeps]
  | cons e rest ih =>
    obtain ⟨h1, h2⟩ := ih c.reconnectDelay
    simp only [List.map_cons, runLoop, sleeps, h1, List.length_cons, true_and]
    simp [List.count_cons, h2]

/-- Whatever `RunWithReconnect` returns comes from the `select` at the head of a pass: nil
from the stop channel, an error from the context. -/
theorem runLoop_returned (c : WSClient) (attempts : List Attempt) :
    ∀ delay : Duration,
      ((runLoop c delay attempts).returned = some none → Attempt.stopped ∈ attempts) ∧
      (∀ err, (runLoop c delay attempts).returned = some (some err) →
        Attempt.cancelled err ∈ attempts) := by
  induction attempts with
  | nil => intro delay; simp [runLoop]
  | cons a rest ih =>
    intro delay
    cases a with
    | cancelled e => simp [runLoop]
    | stopped => simp [runLoop]
    | connectFailed e =>
      obtain ⟨h1, h2⟩ := ih (minDelay (wrapInt64 (delay * 2)) c.maxReconnect)
      exact ⟨fun h => List.mem_cons_of_mem _ (h1 (by simpa [runLoop] using h)),
        fun err h => List.mem_cons_of_mem _ (h2 err (by simpa [runLoop] using h))⟩
    | subscribeFailed e =>
      obtain ⟨h1, h2⟩ := ih c.reconnectDelay
      exact ⟨fun h => List.mem_cons_of_mem _ (h1 (by simpa [runLoop] using h)),
        fun err h => List.mem_cons_of_mem _ (h2 err (by simpa [runLoop] using h))⟩
    | listenFailed e =>
      obtain ⟨h1, h2⟩ := ih c.reconnectDelay
      exact ⟨fun h => List.mem_cons_of_mem _ (h1 (by simpa [runLoop] using h)),
        fun err h => List.mem_cons_of_mem _ (h2 err (by simpa [runLoop] using h))⟩
    | listenEnded =>
      obtain ⟨h1, h2⟩ := ih c.reconnectDelay
      exact ⟨fun h => List.mem_cons_of_mem _ (h1 (by simpa [runLoop] using h)),
        fun err h => List.mem_cons_of_mem _ (h2 err (by simpa [runLoop] using h))⟩

/-- C22, as stated, fails: with a hub that closes the stream with code 1000 the pass ends
with `Listen` returning nil, and `RunWithReconnect` has not returned after it; the next
pass connects again. -/
theorem clean_close_is_followed_by_connect :
    attemptOf (emptyRegistry String) freshLink
      { head := none, dial := Except.ok closingHub, signals := [] } = Attempt.listenEnded ∧
    (RunWithReconnect freshLink.client [Attempt.listenEnded]).returned = none ∧
    (RunWithReconnect freshLink.client
      [Attempt.listenEnded, Attempt.connectFailed "refused"]).actions =
      [Action.connect, Action.subscribe, Action.listen,
        Action.connect, Action.sleep (5 * Second)] := by
  decide

/-- With nothing ready at its `select`s, the loop of `Listen` reads on through any number
of messages and ends without error at a clean close, leaving the later reads unread. -/
theorem listenLoop_clean_close {η : Type} (handlers : Registry η) (err : ConnError)
    (hclose : IsCloseError err = true) (later : List Inbound) :
    ∀ (msgs : List WSMessage) (signals : List (Option Signal)), (∀ s ∈ signals, s = none) →
      (listenLoop handlers (msgs.map Inbound.message ++ Inbound.failure err :: later)
        signals).2 = (later, none) := by
  intro msgs
  induction msgs with
  | nil =>
    intro signals hs
    cases signals with
    | nil => simp [listenLoop, hclose]
    | cons s t =>
      have hnone := hs s (List.mem_cons_self _ _)
      subst hnone
      simp [listenLoop, hclose]
  | cons m ms ih =>
    intro signals hs
    cases signals with
    | nil =>
      have h := ih [] (by simp)
      simp only [List.map_cons, List.cons_append, listenLoop, List.tail_nil, List.append_eq]
      rw [h]
    | cons s t =>
      have hnone := hs s (List.mem_cons_self _ _)
      subst hnone
      have h := ih t (fun s hmem => hs s (List.mem_cons_of_mem _ hmem))
      simp only [List.map_cons, List.cons_append, listenLoop, List.tail_cons, List.append_eq]
      rw [h]

/-- The same for `Listen` on a connected client. -/
theorem Listen_clean_close {η : Type} (handlers : Registry η) (l : Link) (conn : Conn)
    (msgs : List WSMessage) (err : ConnError) (later : List Inbound)
    (signals : List (Option Signal)) (hconn : l.conn = some conn)
    (hin : conn.inbound = msgs.map Inbound.message ++ Inbound.failure err :: later)
    (hcode : err.closeCode = some 1000 ∨ err.closeCode = some 1001)
    (hs : ∀ s ∈ signals, s = none) :
    (Listen handlers l signals).2.2 = none := by
  have hclose : IsCloseError err = true := by simp [IsCloseError, hcode]
  have h := listenLoop_clean_close handlers err hclose later msgs signals hs
  cases signals with
  | nil => simp [Listen, hconn, hin, h]
  | cons s t =>
    have hnone := hs s (List.mem_cons_self _ _)
    subst hnone
    simp [Listen, hconn, hin, h]

/-- A pass whose `select` finds nothing ready and in which `Connect`, `SubscribeStateChanges`
and `Listen` all return nil is a pass that ends with `Listen` returning nil. -/
theorem attemptOf_listenEnded {η : Type} (handlers : Registry η) (l : Link) (p : Pass)
    (hhead : p.head = none) (hc : (Connect l p.dial).2 = none)
    (hsub : (SubscribeStateChanges (Connect l p.dial).1).2 = none)
    (hl : (Listen handlers (SubscribeStateChanges (Connect l p.dial).1).1 p.signals).2.2 =
      none) :
    attemptOf handlers l p = Attempt.listenEnded := by
  unfold attemptOf
  rw [hhead]
  simp only
  generalize Connect l p.dial = r1 at hc hsub hl
  rcases r1 with ⟨l1, e1⟩
  simp only at hc hsub hl
  subst hc
  simp only
  generalize SubscribeStateChanges l1 = r2 at hsub hl
  rcases r2 with ⟨l2, e2⟩
  simp only at hsub hl
  subst hsub
  simp only [hl]

/-- C22, amended. When `Listen` reads a clean close (close code 1000 or 1001), at once or
after any number of messages, it returns nil, and the pass ends without error; but
`RunWithReconnect` does not return then: the run goes on with the next pass at the base
delay, and that pass, unless its `select` finds the stop channel closed or the context
done, starts with a further `Connect`.  `RunWithReconnect` returns only from the `select`
at the head of a pass, nil when the stop channel is closed and the context error when the
context is done. -/
theorem clean_close_continues (c : WSClient) (delay : Duration) (rest : List Attempt) :
    (∀ (handlers : Registry String) (l : Link) (conn : Conn) (msgs : List WSMessage)
      (err : ConnError) (later : List Inbound) (signals : List (Option Signal)),
      l.conn = some conn →
      conn.inbound = msgs.map Inbound.message ++ Inbound.failure err :: later →
      (err.closeCode = some 1000 ∨ err.closeCode = some 1001) →
      (∀ s ∈ signals, s = none) →
      (Listen handlers l signals).2.2 = none) ∧
    (∀ (handlers : Registry String) (l : Link) (p : Pass),
      p.head = none → (Connect l p.dial).2 = none →
      (SubscribeStateChanges (Connect l p.dial).1).2 = none →
      (Listen handlers (SubscribeStateChanges (Connect l p.dial).1).1 p.signals).2.2 = none →
      attemptOf handlers l p = Attempt.listenEnded) ∧
    (runLoop c delay (Attempt.listenEnded :: rest)).actions =
      Action.connect :: Action.subscribe :: Action.listen ::
        (runLoop c c.reconnectDelay rest).actions ∧
    (runLoop c delay (Attempt.listenEnded :: rest)).returned =
      (runLoop c c.reconnectDelay rest).returned ∧
    (runLoop c delay [Attempt.listenEnded]).returned = none ∧
    (∀ next : Attempt, next ≠ Attempt.stopped → (∀ err, next ≠ Attempt.cancelled err) →
      (runLoop c c.reconnectDelay (next :: rest)).actions.head? = some Action.connect ∧
      ((runLoop c delay (Attempt.listenEnded :: next :: rest)).actions.drop 3).head? =
        some Action.connect) ∧
    (∀ attempts : List Attempt,
      ((RunWithReconnect c attempts).returned = some none → Attempt.stopped ∈ attempts) ∧
      (∀ err, (RunWithReconnect c attempts).returned = some (some err) →
        Attempt.cancelled err ∈ attempts)) ∧
    (runLoop c delay (Attempt.listenEnded :: Attempt.stopped :: rest)).returned = some none := by
  refine ⟨?_, ?_, rfl, rfl, rfl, ?_, fun attempts => runLoop_returned c attempts _, rfl⟩
  · intro handlers l conn msgs err later signals hconn hin hcode hs
    exact Listen_clean_close handlers l conn msgs err later signals hconn hin hcode hs
  · intro handlers l p hhead hc hsub hl
    exact attemptOf_listenEnded handlers l p hhead hc hsub hl
  · intro next h1 h2
    cases next with
    | cancelled e => exact absurd rfl (h2 e)
    | stopped => exact absurd rfl h1
    | connectFailed e => exact ⟨rfl, rfl⟩
    | subscribeFailed e => exact ⟨rfl, rfl⟩
    | listenFailed e => exact ⟨rfl, rfl⟩
    | listenEnded => exact ⟨rfl, rfl⟩

/-- The amended C22 on a socket that delivers an event and then closes with code 1001, and
on a run whose pass after the clean close finds the stop channel closed. -/
theorem clean_close_continues_witness :
    (Listen (emptyRegistry String)
      { client := freshLink.client, conn := some departingSocket } [none, none]).2.2 = none ∧
    (runLoop freshLink.client (5 * Second)
      [Attempt.listenEnded, Attempt.stopped]).returned = some none :=
  ⟨(clean_close_continues freshLink.client (5 * Second) []).1 (emptyRegistry String)
      { client := freshLink.client, conn := some departingSocket } departingSocket
      [messageOfKind "event"]
      { closeCode := some 1001, text := "websocket: close 1001 (going away)" } []
      [none, none] rfl rfl (Or.inr rfl) (by decide),
   (clean_close_continues freshLink.client (5 * Second) []).2.2.2.2.2.2.2⟩

/-! ## Handshake and subscription -/

/-- What a write on the socket returns and does to it. -/
theorem Conn.WriteJSON_result (conn : Conn) (msg : WSMessage) :
    (conn.WriteJSON msg).2 = conn.nextWrite ∧
    (conn.WriteJSON msg).1.written = conn.written ++ [msg] ∧
    (conn.WriteJSON msg).1.inbound = conn.inbound := by
  unfold Conn.WriteJSON Conn.nextWrite
  cases conn.writeResults <;> simp

/-- The error `Connect` returns on a socket, by what the socket has in store. -/
theorem Connect_cases (l : Link) (conn : Conn) :
    (Connect l (Except.ok conn)).2 =
      match conn.inbound with
      | [] => some "failed to read auth_required: unexpected EOF"
      | Inbound.failure err :: _ => some ("failed to read auth_required: " ++ err.text)
      | Inbound.message authReq :: rest =>
        if authReq.MsgType ≠ MsgTypeAuthRequired then
          some ("unexpected message type: " ++ authReq.MsgType)
        else
          match conn.nextWrite with
          | some err => some ("failed to send auth: " ++ err)
          | none =>
            match rest with
            | [] => some "failed to read auth response: unexpected EOF"
            | Inbound.failure err :: _ => some ("failed to read auth response: " ++ err.text)
            | Inbound.message authResp :: _ =>
              if authResp.MsgType = MsgTypeAuthInvalid then
                some "authentication failed: invalid token"
              else if authResp.MsgType ≠ MsgTypeAuthOK then
                some ("unexpected auth response: " ++ authResp.MsgType)
              else none := by
  rcases conn with ⟨inbound, wr, written, closed⟩
  cases inbound with
  | nil => simp [Connect, Conn.ReadJSON]
  | cons r1 rest =>
    cases r1 with
    | failure err => simp [Connect, Conn.ReadJSON]
    | message authReq =>
      by_cases h1 : authReq.MsgType = MsgTypeAuthRequired
      · cases wr with
        | nil =>
          cases rest with
          | nil => simp [Connect, Conn.ReadJSON, Conn.WriteJSON, Conn.nextWrite, h1]
          | cons r2 rest2 =>
            cases r2 with
            | failure err => simp [Connect, Conn.ReadJSON, Conn.WriteJSON, Conn.nextWrite, h1]
            | message authResp =>
              simp only [Connect, Conn.ReadJSON, Conn.WriteJSON, Conn.nextWrite, h1]
              split_ifs <;> simp_all
        | cons w wrest =>
          cases w with
          | some err => simp [Connect, Conn.ReadJSON, Conn.WriteJSON, Conn.nextWrite, h1]
          | none =>
            cases rest with
            | nil => simp [Connect, Conn.ReadJSON, Conn.WriteJSON, Conn.nextWrite, h1]
            | cons r2 rest2 =>
              cases r2 with
              | failure err => simp [Connect, Conn.ReadJSON, Conn.WriteJSON, Conn.nextWrite, h1]
              | message authResp =>
                simp only [Connect, Conn.ReadJSON, Conn.WriteJSON, Conn.nextWrite, h1]
                split_ifs <;> simp_all
      · simp [Connect, Conn.ReadJSON, h1]

/-- The client and the socket `Connect` leaves behind on a socket. -/
theorem Connect_link (l : Link) (conn : Conn) :
    (Connect l (Except.ok conn)).1.client.connected =
      (if (Connect l (Except.ok conn)).2 = none then true else l.client.connected) ∧
    (Connect l (Except.ok conn)).1.client.msgID = 0 ∧
    ∃ conn1, (Connect l (Except.ok conn)).1.conn = some conn1 ∧
      conn1.closed = (if (Connect l (Except.ok conn)).2 = none then conn.closed else true) ∧
      conn1.written = conn.written ++
        (match conn.inbound with
          | Inbound.message authReq :: _ =>
            if authReq.MsgType = MsgTypeAuthRequired then [authMessage l.client.token] else []
          | _ => []) := by
  rcases conn with ⟨inbound, wr, written, closed⟩
  cases inbound with
  | nil => simp [Connect, Conn.ReadJSON, Conn.Close]
  | cons r1 rest =>
    cases r1 with
    | failure err => simp [Connect, Conn.ReadJSON, Conn.Close]
    | message authReq =>
      by_cases h1 : authReq.MsgType = MsgTypeAuthRequired
      · cases wr with
        | nil =>
          cases rest with
          | nil => simp [Connect, Conn.ReadJSON, Conn.WriteJSON, Conn.Close, authMessage, h1]
          | cons r2 rest2 =>
            cases r2 with
            | failure err =>
              simp [Connect, Conn.ReadJSON, Conn.WriteJSON, Conn.Close, authMessage, h1]
            | message authResp =>
              simp only [Connect, Conn.ReadJSON, Conn.WriteJSON, Conn.Close, authMessage, h1]
              split_ifs <;> simp_all
        | cons w wrest =>
          cases w with
          | some err =>
            simp [Connect, Conn.ReadJSON, Conn.WriteJSON, Conn.Close, authMessage, h1]
          | none =>
            cases rest with
            | nil => simp [Connect, Conn.ReadJSON, Conn.WriteJSON, Conn.Close, authMessage, h1]
            | cons r2 rest2 =>
              cases r2 with
              | failure err =>
                simp [Connect, Conn.ReadJSON, Conn.WriteJSON, Conn.Close, authMessage, h1]
              | message authResp =>
                simp only [Connect, Conn.ReadJSON, Conn.WriteJSON, Conn.Close, authMessage, h1]
                split_ifs <;> simp_all
      · simp [Connect, Conn.ReadJSON, Conn.Close, h1]

/-- The handshake of `Connect`: it returns nil exactly when the dial succeeds, the first
message read has kind `auth_required`, the auth message is written, and the next message read has kind
`auth_ok`; it then has set `connected` to true.  Whenever it returns an error, `connected`
is left as it was (false for a client that was not connected), and this is what happens
when the first message is of another kind, when the reply has kind `auth_invalid`, and when
the reply is of any other kind.  The auth message carrying the token is written only when
`auth_required` has been read, and then exactly once. -/
theorem Connect_handshake (l : Link) (dial : Except String Conn) :
    ((Connect l dial).2 = none ↔
      ∃ conn authReq authResp rest, dial = Except.ok conn ∧
        conn.inbound = Inbound.message authReq :: Inbound.message authResp :: rest ∧
        authReq.MsgType = "auth_required" ∧ conn.nextWrite = none ∧
        authResp.MsgType = "auth_ok") ∧
    ((Connect l dial).2 = none → (Connect l dial).1.client.connected = true) ∧
    ((Connect l dial).2 ≠ none → (Connect l dial).1.client.connected = l.client.connected) ∧
    (∀ conn authReq rest, dial = Except.ok conn →
      conn.inbound = Inbound.message authReq :: rest → authReq.MsgType ≠ "auth_required" →
      (Connect l dial).2 = some ("unexpected message type: " ++ authReq.MsgType)) ∧
    (∀ conn authReq authResp rest, dial = Except.ok conn →
      conn.inbound = Inbound.message authReq :: Inbound.message authResp :: rest →
      authReq.MsgType = "auth_required" → conn.nextWrite = none →
      (authResp.MsgType = "auth_invalid" →
        (Connect l dial).2 = some "authentication failed: invalid token") ∧
      (authResp.MsgType ≠ "auth_invalid" → authResp.MsgType ≠ "auth_ok" →
        (Connect l dial).2 = some ("unexpected auth response: " ++ authResp.MsgType))) ∧
    (∀ conn, dial = Except.ok conn →
      ∃ conn1, (Connect l dial).1.conn = some conn1 ∧
        (∀ authReq rest, conn.inbound = Inbound.message authReq :: rest →
          authReq.MsgType = "auth_required" →
          conn1.written = conn.written ++ [authMessage l.client.token]) ∧
        ((¬ ∃ authReq rest, conn.inbound = Inbound.message authReq :: rest ∧
            authReq.MsgType = "auth_required") →
          conn1.written = conn.written)) := by
  cases dial with
  | error e => simp [Connect]
  | ok conn =>
    obtain ⟨hc, -, conn1, hconn1, -, hw⟩ := Connect_link l conn
    have hcases := Connect_cases l conn
    refine ⟨?_, ?_, ?_, ?_, ?_, ?_⟩
    · rw [hcases]
      constructor
      · intro h
        split at h
        · simp at h
        · simp at h
        · rename_i authReq rest hin
          split_ifs at h with h1
          push_neg at h1
          split at h
          · simp at h
          · rename_i hnw
            split at h
            · simp at h
            · simp at h
            · rename_i authResp rest2
              split_ifs at h with h2 h3
              push_neg at h3
              exact ⟨conn, authReq, authResp, rest2, rfl, hin, h1, hnw, h3⟩
      · rintro ⟨conn0, authReq, authResp, rest, h0, hin, h1, hnw, h2⟩
        cases h0
        have h1a : authReq.MsgType = MsgTypeAuthRequired := h1
        have h2a : authResp.MsgType = MsgTypeAuthOK := h2
        simp [hin, hnw, h1a, h2a, MsgTypeAuthOK, MsgTypeAuthInvalid]
    · intro h
      rw [hc, if_pos h]
    · intro h
      rw [hc, if_neg h]
    · intro conn0 authReq rest h0 hin h1
      cases h0
      have h1a : authReq.MsgType ≠ MsgTypeAuthRequired := h1
      rw [hcases]
      simp [hin, h1a]
    · intro conn0 authReq authResp rest h0 hin h1 hnw
      cases h0
      have h1a : authReq.MsgType = MsgTypeAuthRequired := h1
      rw [hcases]
      constructor
      · intro h2
        have h2a : authResp.MsgType = MsgTypeAuthInvalid := h2
        simp [hin, hnw, h1a, h2a]
      · intro h2 h3
        have h2a : authResp.MsgType ≠ MsgTypeAuthInvalid := h2
        have h3a : authResp.MsgType ≠ MsgTypeAuthOK := h3
        simp [hin, hnw, h1a, h2a, h3a]
    · intro conn0 h0
      cases h0
      refine ⟨conn1, hconn1, ?_, ?_⟩
      · intro authReq rest hin h1
        have h1a : authReq.MsgType = MsgTypeAuthRequired := h1
        rw [hw, hin]
        simp [h1a]
      · intro hno
        rw [hw]
        split
        · rename_i authReq rest hin
          have : authReq.MsgType ≠ MsgTypeAuthRequired :=
            fun h => hno ⟨authReq, rest, hin, h⟩
          simp [this]
        · simp

/-- The handshake on concrete hubs: the one that follows the protocol, one whose first message is
`auth_ok`, the one that rejects the token, and one that answers the auth message with a
`result`. -/
theorem Connect_handshake_witness :
    (Connect freshLink (Except.ok acceptingHub)).2 = none ∧
    (Connect freshLink (Except.ok acceptingHub)).1.client.connected = true ∧
    (Connect freshLink (Except.ok (socketWith [Inbound.message (messageOfKind "auth_ok")]))).2 =
      some "unexpected message type: auth_ok" ∧
    (Connect freshLink (Except.ok refusingHub)).2 =
      some "authentication failed: invalid token" ∧
    (Connect freshLink (Except.ok refusingHub)).1.client.connected = false ∧
    (Connect freshLink (Except.ok (socketWith
      [Inbound.message (messageOfKind "auth_required"),
        Inbound.message (messageOfKind "result")]))).2 =
      some "unexpected auth response: result" :=
  ⟨(Connect_handshake freshLink (Except.ok acceptingHub)).1.mpr
      ⟨acceptingHub, messageOfKind "auth_required", messageOfKind "auth_ok", [], rfl, rfl,
        rfl, rfl, rfl⟩,
   (Connect_handshake freshLink (Except.ok acceptingHub)).2.1 (by decide),
   (Connect_handshake freshLink
      (Except.ok (socketWith [Inbound.message (messageOfKind "auth_ok")]))).2.2.2.1
      (socketWith [Inbound.message (messageOfKind "auth_ok")]) (messageOfKind "auth_ok") []
      rfl rfl (by decide),
   ((Connect_handshake freshLink (Except.ok refusingHub)).2.2.2.2.1 refusingHub
      (messageOfKind "auth_required") (messageOfKind "auth_invalid") [] rfl rfl rfl rfl).1 rfl,
   ((Connect_handshake freshLink (Except.ok refusingHub)).2.2.1 (by decide)).trans rfl,
   ((Connect_handshake freshLink (Except.ok (socketWith
      [Inbound.message (messageOfKind "auth_required"),
        Inbound.message (messageOfKind "result")]))).2.2.2.2.1
      (socketWith
        [Inbound.message (messageOfKind "auth_required"),
          Inbound.message (messageOfKind "result")])
      (messageOfKind "auth_required") (messageOfKind "result") [] rfl rfl rfl rfl).2
      (by decide) (by decide)⟩


/-- C24. A reply of kind `auth_invalid` makes `Connect` return the credential error, so the
pass is a failed connect like any other: `RunWithReconnect` waits the current delay,
doubles it up to the maximum and goes on with the next pass.  With a client made by
`NewWSClient`, any number of such passes in a row waits 5 s, 10 s, ... capped at 5 min and
the run has still not returned; what `RunWithReconnect` returns is never the credential
error: an error it returns is the context's, found by the `select` at the head of a pass. -/
theorem invalid_token_is_retried (l : Link) (conn : Conn) (authReq authResp : WSMessage)
    (rest : List Inbound)
    (hin : conn.inbound = Inbound.message authReq :: Inbound.message authResp :: rest)
    (hreq : authReq.MsgType = "auth_required") (hw : conn.nextWrite = none)
    (hresp : authResp.MsgType = "auth_invalid") :
    (Connect l (Except.ok conn)).2 = some "authentication failed: invalid token" ∧
    (∀ (handlers : Registry String) (signals : List (Option Signal)),
      attemptOf handlers l { head := none, dial := Except.ok conn, signals := signals } =
        Attempt.connectFailed "authentication failed: invalid token") ∧
    (∀ (c : WSClient) (delay : Duration) (later : List Attempt),
      (runLoop c delay
        (Attempt.connectFailed "authentication failed: invalid token" :: later)).actions =
        Action.connect :: Action.sleep delay ::
          (runLoop c (minDelay (wrapInt64 (delay * 2)) c.maxReconnect) later).actions ∧
      (runLoop c delay
        (Attempt.connectFailed "authentication failed: invalid token" :: later)).returned =
        (runLoop c (minDelay (wrapInt64 (delay * 2)) c.maxReconnect) later).returned) ∧
    (∀ (baseURL token : String) (n : Nat),
      (RunWithReconnect (NewWSClient baseURL token)
        ((List.replicate n "authentication failed: invalid token").map
          Attempt.connectFailed)).returned = none ∧
      sleeps (RunWithReconnect (NewWSClient baseURL token)
        ((List.replicate n "authentication failed: invalid token").map
          Attempt.connectFailed)).actions =
        (List.range n).map (fun i => min (5 * Second * 2 ^ i) (300 * Second))) ∧
    (∀ (c : WSClient) (attempts : List Attempt) (err : String),
      (RunWithReconnect c attempts).returned = some (some err) →
      Attempt.cancelled err ∈ attempts) := by
  have hreq1 : authReq.MsgType = MsgTypeAuthRequired := hreq
  have hresp1 : authResp.MsgType = MsgTypeAuthInvalid := hresp
  have hconn : (Connect l (Except.ok conn)).2 = some "authentication failed: invalid token" := by
    rw [Connect_cases]
    simp [hin, hw, hreq1, hresp1]
  refine ⟨hconn, ?_, fun c delay later => ⟨rfl, rfl⟩, ?_, ?_⟩
  · intro handlers signals
    unfold attemptOf
    simp only
    generalize hr : Connect l (Except.ok conn) = r at hconn
    rcases r with ⟨l1, e⟩
    simp only at hconn
    subst hconn
    rfl
  · intro baseURL token n
    have hstart : (5 : Int) * Second = min (5 * Second * 2 ^ 0) (300 * Second) := by
      unfold Second; unfold Duration; decide
    have h := runLoop_connect_failures (NewWSClient baseURL token) rfl
      (List.replicate n "authentication failed: invalid token") 0
    rw [← hstart] at h
    unfold RunWithReconnect
    refine ⟨h.2, ?_⟩
    simpa using h.1
  · intro c attempts err h
    exact (runLoop_returned c attempts _).2 err h

/-- C24 on the hub that rejects the token, for three passes in a row. -/
theorem invalid_token_is_retried_witness :
    (Connect freshLink (Except.ok refusingHub)).2 =
      some "authentication failed: invalid token" ∧
    sleeps (RunWithReconnect (NewWSClient "http://supervisor/core/api" "token")
      ((List.replicate 3 "authentication failed: invalid token").map
        Attempt.connectFailed)).actions =
      [5 * Second, 10 * Second, 20 * Second] :=
  ⟨(invalid_token_is_retried freshLink refusingHub (messageOfKind "auth_required")
      (messageOfKind "auth_invalid") [] rfl rfl rfl rfl).1,
   ((invalid_token_is_retried freshLink refusingHub (messageOfKind "auth_required")
      (messageOfKind "auth_invalid") [] rfl rfl rfl rfl).2.2.2.1
      "http://supervisor/core/api" "token" 3).2.trans (by decide)⟩


/-- C25, as stated, fails: after a request tagged 1, a reply of kind `event` tagged 99 and
a successful `result` tagged 99 are both taken as success. -/
theorem subscription_accepts_any_reply :
    (SubscribeStateChanges { client := freshLink.client, conn := some chattyHub }).2 = none ∧
    (SubscribeStateChanges { client := freshLink.client, conn := some misnumberingHub }).2 =
      none ∧
    (SubscribeStateChanges
      { client := freshLink.client, conn := some chattyHub }).1.client.msgID = 1 := by
  decide

/-- C25, amended. On a connected client `SubscribeStateChanges` increments the counter by
one and writes a `subscribe_events` request for `state_changed` tagged with the new value.
It returns nil exactly when the write succeeds and a message is read that is not a
`result` with the success flag unset; a `result` with the flag unset gives the error
"subscription failed".  The id of the reply is not looked at, and a reply of any other
kind is taken as success. -/
theorem subscription_request_and_reply (l : Link) (conn : Conn) (hconn : l.conn = some conn) :
    (SubscribeStateChanges l).1.client.msgID = wrapInt64 (l.client.msgID + 1) ∧
    (-(2 ^ 63) ≤ l.client.msgID → l.client.msgID < 2 ^ 63 - 1 →
      (SubscribeStateChanges l).1.client.msgID = l.client.msgID + 1) ∧
    (∃ conn1, (SubscribeStateChanges l).1.conn = some conn1 ∧
      conn1.written = conn.written ++ [subscribeMessage (wrapInt64 (l.client.msgID + 1))]) ∧
    ((SubscribeStateChanges l).2 = none ↔
      conn.nextWrite = none ∧
      ∃ result rest, conn.inbound = Inbound.message result :: rest ∧
        ¬ (result.MsgType = "result" ∧ result.Success = false)) ∧
    (∀ result rest, conn.nextWrite = none → conn.inbound = Inbound.message result :: rest →
      result.MsgType = "result" → result.Success = false →
      ∃ text, (SubscribeStateChanges l).2 = some ("subscription failed: " ++ text)) := by
  have hid : (SubscribeStateChanges l).1.client.msgID = wrapInt64 (l.client.msgID + 1) := by
    unfold SubscribeStateChanges
    simp only [hconn]
    split
    · rfl
    · split
      · rfl
      · split <;> rfl
  refine ⟨hid, ?_, ?_, ?_, ?_⟩
  · intro hlo hhi
    rw [hid]
    exact wrapInt64_of_range _ (by omega) (by omega)
  · rcases conn with ⟨inbound, wr, written, closed⟩
    unfold SubscribeStateChanges
    simp only [hconn]
    cases wr with
    | nil =>
      simp only [Conn.WriteJSON]
      cases inbound with
      | nil => simp [Conn.ReadJSON, subscribeMessage]
      | cons r1 rest =>
        cases r1 with
        | failure err => simp [Conn.ReadJSON, subscribeMessage]
        | message result =>
          simp only [Conn.ReadJSON]
          split_ifs <;> simp [subscribeMessage]
    | cons w wrest =>
      cases w with
      | some err => simp [Conn.WriteJSON, subscribeMessage]
      | none =>
        simp only [Conn.WriteJSON]
        cases inbound with
        | nil => simp [Conn.ReadJSON, subscribeMessage]
        | cons r1 rest =>
          cases r1 with
          | failure err => simp [Conn.ReadJSON, subscribeMessage]
          | message result =>
            simp only [Conn.ReadJSON]
            split_ifs <;> simp [subscribeMessage]
  · rcases conn with ⟨inbound, wr, written, closed⟩
    unfold SubscribeStateChanges
    simp only [hconn]
    cases wr with
    | nil =>
      simp only [Conn.WriteJSON, Conn.nextWrite]
      cases inbound with
      | nil => simp [Conn.ReadJSON]
      | cons r1 rest =>
        cases r1 with
        | failure err => simp [Conn.ReadJSON]
        | message result =>
          simp only [Conn.ReadJSON]
          split_ifs with h <;> simp_all [MsgTypeResult]
    | cons w wrest =>
      cases w with
      | some err => simp [Conn.WriteJSON, Conn.nextWrite]
      | none =>
        simp only [Conn.WriteJSON, Conn.nextWrite]
        cases inbound with
        | nil => simp [Conn.ReadJSON]
        | cons r1 rest =>
          cases r1 with
          | failure err => simp [Conn.ReadJSON]
          | message result =>
            simp only [Conn.ReadJSON]
            split_ifs with h <;> simp_all [MsgTypeResult]
  · intro result rest hw hin hkind hflag
    have hkind1 : result.MsgType = MsgTypeResult := hkind
    rcases conn with ⟨inbound, wr, written, closed⟩
    simp only at hin
    subst hin
    unfold SubscribeStateChanges
    simp only [hconn]
    cases wr with
    | nil => simp [Conn.WriteJSON, Conn.ReadJSON, hkind1, hflag]
    | cons w wrest =>
      cases w with
      | some err => simp [Conn.nextWrite] at hw
      | none => simp [Conn.WriteJSON, Conn.ReadJSON, hkind1, hflag]

/-- The amended C25 on the hub that answers with a failed result and on the one that
answers with an event. -/
theorem subscription_request_and_reply_witness :
    (∃ text, (SubscribeStateChanges
      { client := freshLink.client,
        conn := some (socketWith
          [Inbound.message { messageOfKind "result" with ID := 1, Success := false }]) }).2 =
      some ("subscription failed: " ++ text)) ∧
    (SubscribeStateChanges { client := freshLink.client, conn := some chattyHub }).2 = none :=
  ⟨(subscription_request_and_reply
      { client := freshLink.client,
        conn := some (socketWith
          [Inbound.message { messageOfKind "result" with ID := 1, Success := false }]) }
      (socketWith
          [Inbound.message { messageOfKind "result" with ID := 1, Success := false }])
      rfl).2.2.2.2 { messageOfKind "result" with ID := 1, Success := false } [] rfl rfl rfl rfl,
   (subscription_request_and_reply { client := freshLink.client, conn := some chattyHub }
      chattyHub rfl).2.2.2.1.mpr
      ⟨rfl, { messageOfKind "event" with ID := 99 }, [], rfl, by decide⟩⟩


/-! ## Dispatch of events -/

/-- C26. For an event of class `state_changed` with data, `handleEvent` starts, in order,
one call for every handler registered under the event's entity id and one for every
handler registered under "*", each with the event's entity id, old state and new state;
what is registered under any other key plays no part.  For an event of another class or
without data it starts no call.  `OnStateChange` appends the handler to the list of its
key and changes no other key, so the handlers registered before stay, in their order, at
the front of every list. -/
theorem handleEvent_dispatch {η : Type} (handlers : Registry η) (event : WSEvent) :
    (∀ data, event.Data = some data → event.EventType = "state_changed" →
      handleEvent handlers event =
        ((handlers data.EntityID).getD []).map (invocationFor data) ++
          ((handlers "*").getD []).map (invocationFor data)) ∧
    (∀ data (others : Registry η), event.Data = some data →
      others data.EntityID = handlers data.EntityID → others "*" = handlers "*" →
      handleEvent others event = handleEvent handlers event) ∧
    (event.EventType ≠ "state_changed" ∨ event.Data = none → handleEvent handlers event = []) ∧
    (∀ (entityID : String) (handler : η),
      OnStateChange handlers entityID handler entityID =
        some ((handlers entityID).getD [] ++ [handler]) ∧
      (∀ key, key ≠ entityID → OnStateChange handlers entityID handler key = handlers key) ∧
      (∀ key, (handlers key).getD [] <+:
        (OnStateChange handlers entityID handler key).getD [])) ∧
    (∀ handler : η, OnAnyStateChange handlers handler = OnStateChange handlers "*" handler) := by
  refine ⟨?_, ?_, ?_, ?_, fun _ => rfl⟩
  · intro data hdata hclass
    have hclass1 : event.EventType = EventTypeStateChange := hclass
    unfold handleEvent
    simp only [hdata, hclass1, ne_eq, not_true_eq_false, if_false]
    cases handlers data.EntityID <;> cases handlers "*" <;> rfl
  · intro data others hdata h1 h2
    unfold handleEvent
    simp only [hdata, h1, h2]
  · intro h
    unfold handleEvent
    rcases h with h | h
    · have h1 : event.EventType ≠ EventTypeStateChange := h
      cases event.Data <;> simp [h1]
    · simp [h]
  · intro entityID handler
    refine ⟨by simp [OnStateChange], fun key hkey => by simp [OnStateChange, hkey], ?_⟩
    intro key
    unfold OnStateChange
    by_cases hkey : key = entityID
    · simp [hkey]
    · simp [hkey]

/-- C30 fails on the code: for an event whose entity id is "*" both loops of `handleEvent`
read the list registered under "*", so a wildcard handler registered once is started
twice.  For every other entity id the calls started are one per registration under the
two keys. -/
theorem wildcard_entity_dispatched_twice :
    handleEvent (OnAnyStateChange (emptyRegistry String) "any") (stateChangedEvent "*") =
      [ { handler := "any", entityID := "*", oldState := none,
          newState := some { EntityID := "*", State := "on" } },
        { handler := "any", entityID := "*", oldState := none,
          newState := some { EntityID := "*", State := "on" } } ] ∧
    (∀ (handlers : Registry String) (event : WSEvent) (data : StateChangeData),
      event.Data = some data → event.EventType = "state_changed" → data.EntityID = "*" →
      handleEvent handlers event =
        ((handlers "*").getD []).map (invocationFor data) ++
          ((handlers "*").getD []).map (invocationFor data)) ∧
    handleEvent exampleRegistry (stateChangedEvent "binary_sensor.power") =
      [ { handler := "power", entityID := "binary_sensor.power", oldState := none,
          newState := some { EntityID := "binary_sensor.power", State := "on" } },
        { handler := "any", entityID := "binary_sensor.power", oldState := none,
          newState := some { EntityID := "binary_sensor.power", State := "on" } } ] := by
  refine ⟨by decide, ?_, by decide⟩
  intro handlers event data hdata hclass hid
  have hclass1 : event.EventType = EventTypeStateChange := hclass
  unfold handleEvent
  simp only [hdata, hclass1, ne_eq, not_true_eq_false, if_false]
  have hkey : handlers data.EntityID = handlers "*" := by rw [hid]
  rw [hkey]
  cases handlers "*" <;> rfl

/-! ## Configuration -/

/-- The loop of `IsChatAllowed` finds a chat id exactly when it occurs in the list. -/
theorem isChatAllowedLoop_iff (chatID : Int) (ids : List Int) :
    isChatAllowedLoop chatID ids = true ↔ chatID ∈ ids := by
  induction ids with
  | nil => simp [isChatAllowedLoop]
  | cons a rest ih =>
    unfold isChatAllowedLoop
    by_cases h : a = chatID
    · simp [h]
    · have h1 : ¬ chatID = a := fun e => h e.symm
      simp [h, h1, ih]

/-- C27 fails on the code: with an empty `AllowedChatIDs`, `IsChatAllowed` returns true for
every chat id (999 in the test "empty list denies all"), although the id does not occur in
the list.  With a non-empty list it returns true exactly for the ids in the list. -/
theorem empty_allow_list_admits_everyone :
    IsChatAllowed { exampleConfig with AllowedChatIDs := [] } 999 = true ∧
    (∀ (c : Config) (chatID : Int), c.AllowedChatIDs = [] → IsChatAllowed c chatID = true) ∧
    (∀ (c : Config) (chatID : Int), c.AllowedChatIDs ≠ [] →
      (IsChatAllowed c chatID = true ↔ chatID ∈ c.AllowedChatIDs)) ∧
    IsChatAllowed { exampleConfig with AllowedChatIDs := [123, 456, 789] } 456 = true ∧
    IsChatAllowed { exampleConfig with AllowedChatIDs := [123, 456, 789] } 999 = false := by
  refine ⟨by decide, ?_, ?_, by decide, by decide⟩
  · intro c chatID h
    simp [IsChatAllowed, h]
  · intro c chatID h
    have hlen : c.AllowedChatIDs.length ≠ 0 := fun e => h (List.length_eq_zero.mp e)
    simp [IsChatAllowed, hlen, isChatAllowedLoop_iff]

/-- The loop of `parseChatIDs` appends, in order, the parts that parse. -/
theorem parseChatIDsLoop_eq (parts : List (List Char)) :
    ∀ ids : List Int,
      parseChatIDsLoop parts ids =
        ids ++ parts.filterMap (fun part => ParseInt (TrimSpace part)) := by
  induction parts with
  | nil => intro ids; simp [parseChatIDsLoop]
  | cons part rest ih =>
    intro ids
    unfold parseChatIDsLoop
    cases h : ParseInt (TrimSpace part) with
    | none => simp [ih, List.filterMap_cons, h]
    | some id => simp [ih, List.filterMap_cons, h]

/-- What `ParseInt` returns is in the signed 64-bit range. -/
theorem ParseInt_range (s : List Char) (id : Int) (h : ParseInt s = some id) :
    -(2 ^ 63) ≤ id ∧ id < 2 ^ 63 := by
  unfold ParseInt at h
  split at h
  · simp at h
  · split at h
    · simp at h
    · simp at h
    · split_ifs at h with hn
      have hid : id = _ := (Option.some.inj h).symm
      subst hid
      omega
  · split at h
    · simp at h
    · simp at h
    · split_ifs at h with hn
      have hid : id = _ := (Option.some.inj h).symm
      subst hid
      omega
  · split at h
    · simp at h
    · split_ifs at h with hn
      have hid : id = _ := (Option.some.inj h).symm
      subst hid
      omega

/-- C28. `parseChatIDs` removes the leading and trailing '[' and ']' characters, splits
the rest at the commas, trims the white space of each part and returns, in the order of
the input, the values of the parts that `ParseInt` accepts as decimal signed 64-bit
integers; the other parts are skipped, and with no part accepted (the empty string
included) the result is empty.  "[123,456,789]" and "123,456,789" both give
[123, 456, 789]. -/
theorem parseChatIDs_spec (str : String) :
    parseChatIDs str =
      (Split ',' (Trim str.toList "[]".toList)).filterMap
        (fun part => ParseInt (TrimSpace part)) ∧
    (∀ id ∈ parseChatIDs str, -(2 ^ 63) ≤ id ∧ id < 2 ^ 63) ∧
    ((∀ part ∈ Split ',' (Trim str.toList "[]".toList), ParseInt (TrimSpace part) = none) →
      parseChatIDs str = []) ∧
    parseChatIDs "[123,456,789]" = [123, 456, 789] ∧
    parseChatIDs "123,456,789" = [123, 456, 789] ∧
    parseChatIDs "" = [] ∧
    parseChatIDs "abc,123,xyz" = [123] ∧
    parseChatIDs "abc,,1.5,0x10, ,12 34" = [] ∧
    parseChatIDs "[[ -5, +7 ,9223372036854775808,-9223372036854775808 ]]" =
      [-5, 7, -9223372036854775808] := by
  have h : parseChatIDs str =
      (Split ',' (Trim str.toList "[]".toList)).filterMap
        (fun part => ParseInt (TrimSpace part)) := by
    unfold parseChatIDs
    rw [parseChatIDsLoop_eq]
    simp
  refine ⟨h, ?_, ?_, by decide, by decide, by decide, by decide, by decide, by decide⟩
  · intro id hid
    rw [h, List.mem_filterMap] at hid
    obtain ⟨part, -, hpart⟩ := hid
    exact ParseInt_range _ id hpart
  · intro hall
    rw [h, List.filterMap_eq_nil_iff]
    exact hall

/-! ## The test double -/

/-- C29. `testHandleStateChange` of the watcher tests follows `handleStateChange`: for
every watcher state, clock readings and snapshot it leaves the embedded watcher as
`handleStateChange` leaves the watcher (the same `lastState` and `lastChange`), it
increments `onCalls` exactly when `handleStateChange` calls `NotifyPowerOn` and `offCalls`
exactly when it calls `NotifyPowerOff`, and `handleStateChange` makes at most one such call. -/
theorem test_double_refines (tw : testableWatcher) (sinceNow commitNow : Time)
    (newState : Option Entity) :
    (testHandleStateChange tw sinceNow commitNow newState).watcher =
      (handleStateChange tw.watcher sinceNow commitNow newState).1 ∧
    (testHandleStateChange tw sinceNow commitNow newState).onCalls =
      (if Notification.PowerOn ∈ (handleStateChange tw.watcher sinceNow commitNow newState).2
        then wrapInt64 (tw.onCalls + 1) else tw.onCalls) ∧
    (testHandleStateChange tw sinceNow commitNow newState).offCalls =
      (if Notification.PowerOff ∈ (handleStateChange tw.watcher sinceNow commitNow newState).2
        then wrapInt64 (tw.offCalls + 1) else tw.offCalls) ∧
    ((handleStateChange tw.watcher sinceNow commitNow newState).2 = [] ∨
      (handleStateChange tw.watcher sinceNow commitNow newState).2 = [Notification.PowerOn] ∨
      (handleStateChange tw.watcher sinceNow commitNow newState).2 = [Notification.PowerOff]) := by
  cases newState with
  | none => simp [testHandleStateChange, handleStateChange]
  | some entity =>
    unfold testHandleStateChange handleStateChange
    simp only
    generalize normalizeState entity.State = s
    by_cases h1 : s = tw.watcher.lastState
    · simp [h1]
    · by_cases h2 : Since sinceNow tw.watcher.lastChange < tw.watcher.debounceTime
      · simp [h1, h2]
      · by_cases h3 : tw.watcher.lastState = PowerState.Unknown
        · have h1a : ¬ s = PowerState.Unknown := h3 ▸ h1
          simp [h1a, h2, h3]
        · cases s <;> simp [h1, h2, h3, trackPowerOn, trackPowerOff]


/-- C26 on the registry with one handler for the power sensor and one wildcard handler: an
event for the power sensor starts both, in the order specific then wildcard; an event for
another entity starts the wildcard handler alone. -/
theorem handleEvent_dispatch_witness :
    handleEvent exampleRegistry (stateChangedEvent "binary_sensor.power") =
      [ { handler := "power", entityID := "binary_sensor.power", oldState := none,
          newState := some { EntityID := "binary_sensor.power", State := "on" } },
        { handler := "any", entityID := "binary_sensor.power", oldState := none,
          newState := some { EntityID := "binary_sensor.power", State := "on" } } ] ∧
    handleEvent exampleRegistry (stateChangedEvent "sensor.next_on") =
      [ { handler := "any", entityID := "sensor.next_on", oldState := none,
          newState := some { EntityID := "sensor.next_on", State := "on" } } ] :=
  ⟨((handleEvent_dispatch exampleRegistry (stateChangedEvent "binary_sensor.power")).1
      _ rfl rfl).trans (by decide),
   ((handleEvent_dispatch exampleRegistry (stateChangedEvent "sensor.next_on")).1
      _ rfl rfl).trans (by decide)⟩

/-- C29 on a watcher that last saw the power on: ten seconds later "off" is committed by
both and counted once as a power-off. -/
theorem test_double_refines_witness :
    (testHandleStateChange doubleOn (baseTime + 10 * Second) (baseTime + 10 * Second)
      (some powerOff)).watcher =
      (handleStateChange watcherOn (baseTime + 10 * Second) (baseTime + 10 * Second)
        (some powerOff)).1 ∧
    (testHandleStateChange doubleOn (baseTime + 10 * Second) (baseTime + 10 * Second)
      (some powerOff)).offCalls = 1 ∧
    (testHandleStateChange doubleOn (baseTime + 10 * Second) (baseTime + 10 * Second)
      (some powerOff)).onCalls = 0 :=
  ⟨(test_double_refines doubleOn (baseTime + 10 * Second) (baseTime + 10 * Second)
      (some powerOff)).1,
   (test_double_refines doubleOn (baseTime + 10 * Second) (baseTime + 10 * Second)
      (some powerOff)).2.2.1.trans (by decide),
   (test_double_refines doubleOn (baseTime + 10 * Second) (baseTime + 10 * Second)
      (some powerOff)).2.1.trans (by decide)⟩


/-- C23 fails on the code: an error from `Connect` does not leave `connected` false.  A
pass against a hub that completes the handshake and the subscription and then closes the
stream with code 1000 ends with `Listen` returning nil, and `RunWithReconnect` goes to the
next `Connect` without calling `Close`, with `connected` still true.  When that `Connect`
fails (the dial is refused, the first message is not `auth_required`, the reply is
`auth_invalid`, or the reply is of another kind) it returns its error and `connected` is
still true, although no connection exists.  `Connect` writes `connected` only on success:
after an error the flag is what it was before the call, false only if it was false. -/
theorem failed_connect_keeps_connected_true :
    attemptOf (emptyRegistry String) freshLink
      { head := none, dial := Except.ok closingHub, signals := [] } = Attempt.listenEnded ∧
    (RunWithReconnect freshLink.client
      [Attempt.listenEnded, Attempt.connectFailed "authentication failed: invalid token"]).actions =
      [Action.connect, Action.subscribe, Action.listen,
        Action.connect, Action.sleep (5 * Second)] ∧
    afterCleanClose.client.connected = true ∧
    (Connect afterCleanClose (Except.error "dial tcp: connection refused")).2 =
      some "failed to connect to WebSocket: dial tcp: connection refused" ∧
    (Connect afterCleanClose
      (Except.error "dial tcp: connection refused")).1.client.connected = true ∧
    (Connect afterCleanClose
      (Except.ok (socketWith [Inbound.message (messageOfKind "auth_ok")]))).2 =
      some "unexpected message type: auth_ok" ∧
    (Connect afterCleanClose
      (Except.ok (socketWith
        [Inbound.message (messageOfKind "auth_ok")]))).1.client.connected = true ∧
    (Connect afterCleanClose (Except.ok refusingHub)).2 =
      some "authentication failed: invalid token" ∧
    (Connect afterCleanClose (Except.ok refusingHub)).1.client.connected = true ∧
    (Connect afterCleanClose
      (Except.ok (socketWith
        [Inbound.message (messageOfKind "auth_required"),
          Inbound.message (messageOfKind "result")]))).2 =
      some "unexpected auth response: result" ∧
    (Connect afterCleanClose
      (Except.ok (socketWith
        [Inbound.message (messageOfKind "auth_required"),
          Inbound.message (messageOfKind "result")]))).1.client.connected = true ∧
    (∀ (l : Link) (dial : Except String Conn), (Connect l dial).2 ≠ none →
      (Connect l dial).1.client.connected = l.client.connected) ∧
    (∀ (l : Link) (dial : Except String Conn), (Connect l dial).2 = none →
      (Connect l dial).1.client.connected = true) := by
  refine ⟨by decide, by decide, by decide, by decide, by decide, by decide, by decide,
    by decide, by decide, by decide, by decide, ?_, ?_⟩
  · intro l dial h
    cases dial with
    | error e => simp [Connect]
    | ok conn =>
      have hc := (Connect_link l conn).1
      rw [hc, if_neg h]
  · intro l dial h
    cases dial with
    | error e => simp [Connect] at h
    | ok conn =>
      have hc := (Connect_link l conn).1
      rw [hc, if_pos h]

end BlackoutNotify
